import Mathlib

/-!
# GPUPlay: device registry, detection, driver bring-up and the Voodoo3 port window

A shallow embedding of the C sources of GPUPlay (`src/core/tests/tests.c`,
`src/core/gpu_detect.c`, `src/core/gpu_list.c`, `src/architecture/r128/r128_core.c`,
`src/architecture/voodoo3/voodoo3_core.c`, `src/gpuplay.h`) and theorems about it.

Conventions of the embedding:

* `uint32_t` / `uint16_t` / `uint8_t` values are `Nat`; a conversion to a narrower
  type is an explicit `% 2 ^ w`.
* C strings are `String`; `!strcmp (a, b)` is `a = b`.
* A function pointer is an `Option` of an enumeration of the functions that occur
  in the static tables; `none` is `NULL`.
* The process-wide globals (`current_device`, `r128_state`, `voodoo3_state`,
  `voodoo3_io_base_port`) and the host platform (PCI BIOS, configuration space,
  register window, I/O ports, DPMI) are the fields of one `World` record that every
  operation takes and returns.  Every effect on the host is also appended to
  `World.trace`, in program order.
* A table read `t[i]` is `t[i]?`; an operation that would read past the end of a
  table yields `none`.
-/

namespace GPUPlay

/-! ## Constants of `gpuplay.h` -/

def PCI_CFG_OFFSET_VENDOR_ID : Nat := 0x00
def PCI_CFG_OFFSET_DEVICE_ID : Nat := 0x02
def PCI_CFG_OFFSET_COMMAND : Nat := 0x04
def PCI_CFG_OFFSET_COMMAND_IO_ENABLED : Nat := 0x01
def PCI_CFG_OFFSET_COMMAND_MEM_ENABLED : Nat := 0x02
def PCI_CFG_OFFSET_COMMAND_BUS_MASTER : Nat := 0x04
def PCI_CFG_OFFSET_REVISION : Nat := 0x08
def PCI_CFG_OFFSET_BAR0 : Nat := 0x10
def PCI_CFG_OFFSET_BAR1 : Nat := 0x14
def PCI_CFG_OFFSET_BAR2 : Nat := 0x18

def PCI_VENDOR_GENERIC : Nat := 0x0000
def PCI_DEVICE_GENERIC : Nat := 0x0000
def PCI_VENDOR_ATI : Nat := 0x1002
def PCI_DEVICE_RAGE128_PRO_PF : Nat := 0x5046
def PCI_DEVICE_RAGE128_PRO_PR : Nat := 0x5052
def PCI_VENDOR_3DFX : Nat := 0x121A
def PCI_DEVICE_VOODOO3 : Nat := 0x0005
def PCI_DEVICE_BANSHEE : Nat := 0x0003

/-! ## Constants of `r128_ref.h` and `voodoo3_ref.h` -/

def R128_VRAM_SIZE_8MB : Nat := 0x800000
def R128_VRAM_SIZE_16MB : Nat := 0x1000000
def R128_VRAM_SIZE_32MB : Nat := 0x2000000
def R128_CONFIG_CNTL : Nat := 0x00E0
def R128_CONFIG_XSTRAP : Nat := 0x00E4
def R128_CONFIG_MEMSIZE : Nat := 0x00F8
def R128_CONFIG_MEMSIZE_MASK : Nat := 0x0000000F
def R128_CONFIG_MEMSIZE_8MB : Nat := 0x00000000
def R128_CONFIG_MEMSIZE_16MB : Nat := 0x00000001
def R128_CONFIG_MEMSIZE_32MB : Nat := 0x00000002

def VOODOO3_VRAM_SIZE_4MB : Nat := 0x400000
def VOODOO3_VRAM_SIZE_8MB : Nat := 0x800000
def VOODOO3_VRAM_SIZE_16MB : Nat := 0x1000000
def VOODOO3_VRAM_SIZE_32MB : Nat := 0x2000000
def VOODOO3_IO_LFBMEMORYCONFIG : Nat := 0x0018
def VOODOO3_IO_MISCINIT1 : Nat := 0x0020
def VOODOO3_LFBMEMORYCONFIG_MEMORY_SIZE_MASK : Nat := 0x0000000F
def VOODOO3_LFBMEMORYCONFIG_MEMORY_SIZE_4MB : Nat := 0x00000000
def VOODOO3_LFBMEMORYCONFIG_MEMORY_SIZE_8MB : Nat := 0x00000001
def VOODOO3_LFBMEMORYCONFIG_MEMORY_SIZE_16MB : Nat := 0x00000002
def VOODOO3_LFBMEMORYCONFIG_MEMORY_SIZE_32MB : Nat := 0x00000003

/-! ## Function pointers -/

/-- The functions stored in the `init_function` column of `supported_devices`. -/
inductive InitFn where
  | r128_init
  | voodoo3_init
  deriving DecidableEq, Repr

/-- The functions stored in the `shutdown_function` column of `supported_devices`. -/
inductive ShutdownFn where
  | r128_shutdown
  | voodoo3_shutdown
  deriving DecidableEq, Repr

/-- The functions stored in the `gpus_section_applies` column of `supported_devices`. -/
inductive SectionAppliesFn where
  | r128_gpus_section_applies
  | voodoo3_gpus_section_applies
  deriving DecidableEq, Repr

/-- The functions stored in the `gpus_section_parse` column of `supported_devices`. -/
inductive SectionParseFn where
  | r128_gpus_parse_section
  | voodoo3_gpus_parse_section
  deriving DecidableEq, Repr

/-- The functions stored in the `test_function` column of `nv_tests`. -/
inductive TestFn where
  | NVGeneric_DumpPCISpace
  | NVGeneric_DumpMMIO
  | NVGeneric_DumpVBIOS
  | r128_dump_mfg_info
  | r128_dump_mmio
  | voodoo3_dump_mfg_info
  | voodoo3_dump_mmio
  deriving DecidableEq, Repr

/-! ## Data model (`gpuplay.h`, `r128.h`, `voodoo3.h`) -/

/-- The struct `nv_device_info_t`: one row of the device registry. -/
structure nv_device_info_t where
  device_id : Nat
  vendor_id : Nat
  name : String
  init_function : Option InitFn
  shutdown_function : Option ShutdownFn
  gpus_section_applies : Option SectionAppliesFn
  gpus_section_parse : Option SectionParseFn
  deriving DecidableEq, Repr

/-- The struct `nv_device_t`, the type of the global `current_device`.  The two
`void*` mappings and the `double` are kept as raw bit patterns. -/
structure nv_device_t where
  device_info : nv_device_info_t
  bus_number : Nat
  function_number : Nat
  bar0 : Nat
  bar1 : Nat
  bar0_selector : Int
  bar1_selector : Int
  bar1_dfb_start : Nat
  ramin_start : Nat
  vram_amount : Nat
  nv_pfb_boot_0 : Nat
  nv_pmc_boot_0 : Nat
  straps : Nat
  crystal_hz : Nat
  mpll : Nat
  vpll : Nat
  nvpll : Nat
  deriving DecidableEq, Repr

/-- The struct `r128_state_t`. -/
structure r128_state_t where
  original_config_cntl : Nat
  deriving DecidableEq, Repr

/-- The struct `voodoo3_state_t`. -/
structure voodoo3_state_t where
  original_pci_command : Nat
  deriving DecidableEq, Repr

/-- One row of `nv_tests`; the field order is that of the static initialisers in
`tests.c` (the declaring header `core/tests/tests.h` is not among the sources). -/
structure nv_test_t where
  required_vendor_id : Nat
  required_device_id : Nat
  name : String
  description : String
  test_function : Option TestFn
  deriving DecidableEq, Repr

/-! ## The static tables -/

/-- The table `supported_devices` of `gpu_list.c`, sentinel included. -/
def supported_devices : List nv_device_info_t :=
  [ { device_id := PCI_DEVICE_RAGE128_PRO_PF, vendor_id := PCI_VENDOR_ATI,
      name := "Rage 128 Pro (PF)",
      init_function := some InitFn.r128_init,
      shutdown_function := some ShutdownFn.r128_shutdown,
      gpus_section_applies := some SectionAppliesFn.r128_gpus_section_applies,
      gpus_section_parse := some SectionParseFn.r128_gpus_parse_section },
    { device_id := PCI_DEVICE_RAGE128_PRO_PR, vendor_id := PCI_VENDOR_ATI,
      name := "Rage 128 Pro (PR)",
      init_function := some InitFn.r128_init,
      shutdown_function := some ShutdownFn.r128_shutdown,
      gpus_section_applies := some SectionAppliesFn.r128_gpus_section_applies,
      gpus_section_parse := some SectionParseFn.r128_gpus_parse_section },
    { device_id := PCI_DEVICE_VOODOO3, vendor_id := PCI_VENDOR_3DFX,
      name := "3Dfx Voodoo3",
      init_function := some InitFn.voodoo3_init,
      shutdown_function := some ShutdownFn.voodoo3_shutdown,
      gpus_section_applies := some SectionAppliesFn.voodoo3_gpus_section_applies,
      gpus_section_parse := some SectionParseFn.voodoo3_gpus_parse_section },
    { device_id := PCI_DEVICE_BANSHEE, vendor_id := PCI_VENDOR_3DFX,
      name := "3Dfx Voodoo Banshee",
      init_function := some InitFn.voodoo3_init,
      shutdown_function := some ShutdownFn.voodoo3_shutdown,
      gpus_section_applies := some SectionAppliesFn.voodoo3_gpus_section_applies,
      gpus_section_parse := some SectionParseFn.voodoo3_gpus_parse_section },
    { device_id := 0, vendor_id := 0, name := "",
      init_function := none, shutdown_function := none,
      gpus_section_applies := none, gpus_section_parse := none } ]

/-- The table `nv_tests` of `tests.c`, sentinel included. -/
def nv_tests : List nv_test_t :=
  [ ⟨PCI_VENDOR_GENERIC, PCI_DEVICE_GENERIC, "NV_DumpPCI", "NV Generic - Dump PCI",
      some TestFn.NVGeneric_DumpPCISpace⟩,
    ⟨PCI_VENDOR_GENERIC, PCI_DEVICE_GENERIC, "NV_DumpMMIO", "NV Generic - Dump MMIO",
      some TestFn.NVGeneric_DumpMMIO⟩,
    ⟨PCI_VENDOR_GENERIC, PCI_DEVICE_GENERIC, "NV_DumpVBIOS", "NV Generic - Dump VBIOS",
      some TestFn.NVGeneric_DumpVBIOS⟩,
    ⟨PCI_VENDOR_ATI, PCI_DEVICE_RAGE128_PRO_PF, "R128_DumpMfgInfo",
      "Rage128 Pro PF - Dump Mfg Info", some TestFn.r128_dump_mfg_info⟩,
    ⟨PCI_VENDOR_ATI, PCI_DEVICE_RAGE128_PRO_PF, "R128_DumpMMIO",
      "Rage128 Pro PF - Dump MMIO", some TestFn.r128_dump_mmio⟩,
    ⟨PCI_VENDOR_ATI, PCI_DEVICE_RAGE128_PRO_PR, "R128_DumpMfgInfo",
      "Rage128 Pro PR - Dump Mfg Info", some TestFn.r128_dump_mfg_info⟩,
    ⟨PCI_VENDOR_ATI, PCI_DEVICE_RAGE128_PRO_PR, "R128_DumpMMIO",
      "Rage128 Pro PR - Dump MMIO", some TestFn.r128_dump_mmio⟩,
    ⟨PCI_VENDOR_3DFX, PCI_DEVICE_VOODOO3, "Voodoo3_DumpMfgInfo",
      "Voodoo3 - Dump Mfg Info", some TestFn.voodoo3_dump_mfg_info⟩,
    ⟨PCI_VENDOR_3DFX, PCI_DEVICE_VOODOO3, "Voodoo3_DumpMMIO",
      "Voodoo3 - Dump MMIO", some TestFn.voodoo3_dump_mmio⟩,
    ⟨PCI_VENDOR_3DFX, PCI_DEVICE_BANSHEE, "Voodoo3_DumpMfgInfo",
      "Voodoo Banshee - Dump Mfg Info", some TestFn.voodoo3_dump_mfg_info⟩,
    ⟨PCI_VENDOR_3DFX, PCI_DEVICE_BANSHEE, "Voodoo3_DumpMMIO",
      "Voodoo Banshee - Dump MMIO", some TestFn.voodoo3_dump_mmio⟩,
    ⟨0x0000, 0x0000, "", "", none⟩ ]

/-! ## `tests.c`: `Test_IsAvailableForGPU` -/

/-- The `while` loop of `Test_IsAvailableForGPU`, entered with the row `nv_test`
that was loaded from index `test_number`.  The first argument bounds the number of
iterations; `none` is returned when the bound is used up or when the next row
would be read past the end of `nv_tests`. -/
def Test_IsAvailableForGPU_loop (test_name : String) (vendor_id device_id : Nat) :
    Nat → Nat → nv_test_t → Option Bool
  | 0, _, _ => none
  | fuel + 1, test_number, nv_test =>
    if nv_test.test_function ≠ none then
      if nv_test.name = test_name
          ∧ vendor_id = nv_test.required_vendor_id
          ∧ device_id = nv_test.required_device_id then
        some true
      else
        match nv_tests[(test_number + 1) % 2 ^ 32]? with
        | none => none
        | some next =>
          Test_IsAvailableForGPU_loop test_name vendor_id device_id fuel
            ((test_number + 1) % 2 ^ 32) next
    else
      some false

/-- The function `Test_IsAvailableForGPU` of `tests.c`, reading the global
`current_device` passed as `cd`. -/
def Test_IsAvailableForGPU (cd : nv_device_t) (test_name : String) : Option Bool :=
  let vendor_id := cd.device_info.vendor_id
  let device_id := cd.device_info.device_id
  let test_number := 0
  match nv_tests[test_number]? with
  | none => none
  | some nv_test =>
    Test_IsAvailableForGPU_loop test_name vendor_id device_id (nv_tests.length + 1)
      test_number nv_test

/-! ## Host platform and process state -/

/-- The four severities of the logging sink (`log_level_debug`, ...). -/
inductive log_level where
  | debug
  | message
  | warning
  | error
  deriving DecidableEq, Repr

/-- An argument of a `Logging_Write` call: an integer or a string. -/
inductive LogArg where
  | num (n : Nat)
  | str (s : String)
  deriving DecidableEq, Repr

/-- One observable step of the program, in the order of execution: a call into
the host platform or into the register access surface (with its arguments), a read
of the table `supported_devices`, a call of `Command_Argv`, or a call through the
`test_function` pointer of the selected test of that name. -/
inductive Event where
  | log (level : log_level) (format : String) (args : List LogArg)
  | read_supported_devices (index : Nat)
  | pci_device_present (device_id vendor_id : Nat)
  | pci_read_config8 (bus function offset : Nat)
  | pci_read_config16 (bus function offset : Nat)
  | pci_read_config32 (bus function offset : Nat)
  | pci_write_config16 (bus function offset value : Nat)
  | mmio_read32 (offset : Nat)
  | mmio_write32 (offset value : Nat)
  | inportb (port : Nat)
  | inportw (port : Nat)
  | outportb (port value : Nat)
  | outportw (port value : Nat)
  | dpmi_physical_address_mapping (address size : Nat)
  | dpmi_allocate_ldt_descriptors (count : Nat)
  | dpmi_set_segment_base_address (selector : Int) (address : Nat)
  | dpmi_set_segment_limit (selector : Int) (limit : Nat)
  | mmio_read8 (offset : Nat)
  | mmio_write8 (offset value : Nat)
  | nv_dfb_read8 (offset : Nat)
  | nv_dfb_read16 (offset : Nat)
  | nv_dfb_read32 (offset : Nat)
  | nv_dfb_write8 (offset value : Nat)
  | nv_dfb_write16 (offset value : Nat)
  | nv_dfb_write32 (offset value : Nat)
  | command_argv (argv : Nat)
  | test_function (name : String)
  deriving DecidableEq, Repr

/-- The globals of the program together with the host it runs on.

* `pci_find_device d v` is the PCI topology: the (bus, function) of the first device
  with device id `d` and vendor id `v`, or `none` when there is none.
* `pci_config8/16/32 bus function offset` is PCI configuration space as seen by reads
  of each width; a 16-bit write replaces the 16-bit view at its offset.
* `mmio32 offset` is the register window reached through `bar0_selector`, as seen
  by 32-bit accesses; `mmio8 offset` is the same window as seen by 8-bit accesses.
* `dfb8/16/32 offset` is the frame-buffer window reached through `bar1_selector`, as
  seen by accesses of each width.
* `port8`, `port16` map a 16-bit port number to the last byte / word written there.
* `dpmi_mapping address size` is the linear address DPMI returns for a physical
  mapping request, `none` when the request fails; `dpmi_ldt n` is the result of the
  `n`-th descriptor allocation (a selector, or `-1` on failure).
* `trace` lists every host call so far, oldest first. -/
structure World where
  current_device : nv_device_t
  r128_state : r128_state_t
  voodoo3_state : voodoo3_state_t
  voodoo3_io_base_port : Nat
  pci_find_device : Nat → Nat → Option (Nat × Nat)
  pci_config8 : Nat → Nat → Nat → Nat
  pci_config16 : Nat → Nat → Nat → Nat
  pci_config32 : Nat → Nat → Nat → Nat
  mmio32 : Nat → Nat
  port8 : Nat → Nat
  port16 : Nat → Nat
  dpmi_mapping : Nat → Nat → Option Nat
  dpmi_ldt : Nat → Int
  dpmi_ldt_calls : Nat
  mmio8 : Nat → Nat
  dfb8 : Nat → Nat
  dfb16 : Nat → Nat
  dfb32 : Nat → Nat
  trace : List Event

/-- Append one event to the trace. -/
def World.emit (w : World) (e : Event) : World :=
  { w with trace := w.trace ++ [e] }

/-- The logging sink `Logging_Write` (external collaborator): records the call. -/
def Logging_Write (level : log_level) (format : String) (args : List LogArg)
    (w : World) : World :=
  w.emit (Event.log level format args)

/-- Modelled from the spec: the body of `PCI_DevicePresent` (declared in `gpuplay.h`,
called by `GPU_Detect`) is not among the sources.  Spec 4.1: `probe` "asks the host
to locate the first device matching the pair" and yields `(bus, function)` or
not-found; spec 4.2: detection "stores the returned bus/function".  The C declaration
returns only `bool`, so the coordinates of a hit are stored into `current_device` by
the call itself; a miss changes nothing. -/
def PCI_DevicePresent (device_id vendor_id : Nat) (w : World) : Bool × World :=
  let w := w.emit (Event.pci_device_present device_id vendor_id)
  match w.pci_find_device device_id vendor_id with
  | some (bus, function) =>
    (true, { w with current_device :=
      { w.current_device with bus_number := bus, function_number := function } })
  | none => (false, w)

/-- Modelled from the spec: `PCI_ReadConfig8` (declared in `gpuplay.h`, body not
among the sources), spec 4.1 `cfg_read8 (bus, function, offset)`. -/
def PCI_ReadConfig8 (bus_number function_number offset : Nat) (w : World) : Nat × World :=
  (w.pci_config8 bus_number function_number offset % 2 ^ 8,
    w.emit (Event.pci_read_config8 bus_number function_number offset))

/-- Modelled from the spec: `PCI_ReadConfig16` (declared in `gpuplay.h`, body not
among the sources), spec 4.1 `cfg_read16 (bus, function, offset)`. -/
def PCI_ReadConfig16 (bus_number function_number offset : Nat) (w : World) : Nat × World :=
  (w.pci_config16 bus_number function_number offset % 2 ^ 16,
    w.emit (Event.pci_read_config16 bus_number function_number offset))

/-- Modelled from the spec: `PCI_ReadConfig32` (declared in `gpuplay.h`, body not
among the sources), spec 4.1 `cfg_read32 (bus, function, offset)`. -/
def PCI_ReadConfig32 (bus_number function_number offset : Nat) (w : World) : Nat × World :=
  (w.pci_config32 bus_number function_number offset % 2 ^ 32,
    w.emit (Event.pci_read_config32 bus_number function_number offset))

/-- Modelled from the spec: `PCI_WriteConfig16` (declared in `gpuplay.h`, body not
among the sources), spec 4.1 `cfg_write16 (bus, function, offset, value)`;
configuration space stores the last value written. -/
def PCI_WriteConfig16 (bus_number function_number offset value : Nat) (w : World) :
    Bool × World :=
  let w := w.emit (Event.pci_write_config16 bus_number function_number offset (value % 2 ^ 16))
  (true, { w with pci_config16 := fun b f o =>
    if b = bus_number ∧ f = function_number ∧ o = offset then value % 2 ^ 16
    else w.pci_config16 b f o })

/-- Modelled from the spec: `mmio_read32` (declared in `gpuplay.h`, body not among the
sources), spec 4.4: a 32-bit read of the register window at `offset`. -/
def mmio_read32 (offset : Nat) (w : World) : Nat × World :=
  (w.mmio32 (offset % 2 ^ 32) % 2 ^ 32, w.emit (Event.mmio_read32 (offset % 2 ^ 32)))

/-- Modelled from the spec: `mmio_write32` (declared in `gpuplay.h`, body not among
the sources), spec 4.4: a 32-bit write to the register window at `offset`. -/
def mmio_write32 (offset val : Nat) (w : World) : World :=
  let w := w.emit (Event.mmio_write32 (offset % 2 ^ 32) (val % 2 ^ 32))
  { w with mmio32 := fun o => if o = offset % 2 ^ 32 then val % 2 ^ 32 else w.mmio32 o }

/-- Modelled from the spec: `mmio_read8` (declared in `gpuplay.h`, body not among the
sources), spec 4.4: an 8-bit read of the register window at `offset`. -/
def mmio_read8 (offset : Nat) (w : World) : Nat × World :=
  (w.mmio8 (offset % 2 ^ 32) % 2 ^ 8, w.emit (Event.mmio_read8 (offset % 2 ^ 32)))

/-- Modelled from the spec: `mmio_write8` (declared in `gpuplay.h`, body not among the
sources), spec 4.4: an 8-bit write to the register window at `offset`. -/
def mmio_write8 (offset val : Nat) (w : World) : World :=
  let w := w.emit (Event.mmio_write8 (offset % 2 ^ 32) (val % 2 ^ 8))
  { w with mmio8 := fun o => if o = offset % 2 ^ 32 then val % 2 ^ 8 else w.mmio8 o }

/-- Modelled from the spec: `nv_dfb_read8` (declared in `gpuplay.h`, body not among
the sources), spec 4.4: an 8-bit read of the frame-buffer window at `offset`. -/
def nv_dfb_read8 (offset : Nat) (w : World) : Nat × World :=
  (w.dfb8 (offset % 2 ^ 32) % 2 ^ 8, w.emit (Event.nv_dfb_read8 (offset % 2 ^ 32)))

/-- Modelled from the spec: `nv_dfb_read16` (declared in `gpuplay.h`, body not among
the sources), spec 4.4: a 16-bit read of the frame-buffer window at `offset`. -/
def nv_dfb_read16 (offset : Nat) (w : World) : Nat × World :=
  (w.dfb16 (offset % 2 ^ 32) % 2 ^ 16, w.emit (Event.nv_dfb_read16 (offset % 2 ^ 32)))

/-- Modelled from the spec: `nv_dfb_read32` (declared in `gpuplay.h`, body not among
the sources), spec 4.4: a 32-bit read of the frame-buffer window at `offset`. -/
def nv_dfb_read32 (offset : Nat) (w : World) : Nat × World :=
  (w.dfb32 (offset % 2 ^ 32) % 2 ^ 32, w.emit (Event.nv_dfb_read32 (offset % 2 ^ 32)))

/-- Modelled from the spec: `nv_dfb_write8` (declared in `gpuplay.h`, body not among
the sources), spec 4.4: an 8-bit write to the frame-buffer window at `offset`. -/
def nv_dfb_write8 (offset val : Nat) (w : World) : World :=
  let w := w.emit (Event.nv_dfb_write8 (offset % 2 ^ 32) (val % 2 ^ 8))
  { w with dfb8 := fun o => if o = offset % 2 ^ 32 then val % 2 ^ 8 else w.dfb8 o }

/-- Modelled from the spec: `nv_dfb_write16` (declared in `gpuplay.h`, body not among
the sources), spec 4.4: a 16-bit write to the frame-buffer window at `offset`. -/
def nv_dfb_write16 (offset val : Nat) (w : World) : World :=
  let w := w.emit (Event.nv_dfb_write16 (offset % 2 ^ 32) (val % 2 ^ 16))
  { w with dfb16 := fun o => if o = offset % 2 ^ 32 then val % 2 ^ 16 else w.dfb16 o }

/-- Modelled from the spec: `nv_dfb_write32` (declared in `gpuplay.h`, body not among
the sources), spec 4.4: a 32-bit write to the frame-buffer window at `offset`. -/
def nv_dfb_write32 (offset val : Nat) (w : World) : World :=
  let w := w.emit (Event.nv_dfb_write32 (offset % 2 ^ 32) (val % 2 ^ 32))
  { w with dfb32 := fun o => if o = offset % 2 ^ 32 then val % 2 ^ 32 else w.dfb32 o }

/-- The host's `inportb (unsigned short port)`. -/
def inportb (port : Nat) (w : World) : Nat × World :=
  (w.port8 (port % 2 ^ 16) % 2 ^ 8, w.emit (Event.inportb (port % 2 ^ 16)))

/-- The host's `inportw (unsigned short port)`. -/
def inportw (port : Nat) (w : World) : Nat × World :=
  (w.port16 (port % 2 ^ 16) % 2 ^ 16, w.emit (Event.inportw (port % 2 ^ 16)))

/-- The host's `outportb (unsigned short port, unsigned char data)`. -/
def outportb (port data : Nat) (w : World) : World :=
  let w := w.emit (Event.outportb (port % 2 ^ 16) (data % 2 ^ 8))
  { w with port8 := fun p => if p = port % 2 ^ 16 then data % 2 ^ 8 else w.port8 p }

/-- The host's `outportw (unsigned short port, unsigned short data)`. -/
def outportw (port data : Nat) (w : World) : World :=
  let w := w.emit (Event.outportw (port % 2 ^ 16) (data % 2 ^ 16))
  { w with port16 := fun p => if p = port % 2 ^ 16 then data % 2 ^ 16 else w.port16 p }

/-- DPMI `__dpmi_physical_address_mapping (&meminfo)`: returns the status (0, or -1
on failure) and the `address` field of `meminfo` after the call (the linear address
on success, unchanged on failure). -/
def dpmi_physical_address_mapping (address size : Nat) (w : World) : Int × Nat × World :=
  (match w.dpmi_mapping address size with
    | some _ => 0
    | none => -1,
   match w.dpmi_mapping address size with
    | some linear => linear % 2 ^ 32
    | none => address,
   w.emit (Event.dpmi_physical_address_mapping address size))

/-- DPMI `__dpmi_allocate_ldt_descriptors (count)`: the selector, or -1. -/
def dpmi_allocate_ldt_descriptors (count : Nat) (w : World) : Int × World :=
  let w2 := w.emit (Event.dpmi_allocate_ldt_descriptors count)
  (w.dpmi_ldt w.dpmi_ldt_calls, { w2 with dpmi_ldt_calls := w.dpmi_ldt_calls + 1 })

/-- DPMI `__dpmi_set_segment_base_address (selector, address)`. -/
def dpmi_set_segment_base_address (selector : Int) (address : Nat) (w : World) : World :=
  w.emit (Event.dpmi_set_segment_base_address selector address)

/-- DPMI `__dpmi_set_segment_limit (selector, limit)`. -/
def dpmi_set_segment_limit (selector : Int) (limit : Nat) (w : World) : World :=
  w.emit (Event.dpmi_set_segment_limit selector limit)

/-! ## `gpu_detect.c`: `GPU_Detect` -/

/-- The `while` loop of `GPU_Detect`, entered with the local `current_device_info`
and the index `i`.  The first argument bounds the number of iterations; `none` is
returned when the bound is used up or when `supported_devices[i]` would be read
past the end of the table. -/
def GPU_Detect_loop : Nat → nv_device_info_t → Nat → World → Option (Bool × World)
  | 0, _, _, _ => none
  | fuel + 1, current_device_info, i, w =>
    if current_device_info.vendor_id ≠ 0x00 then
      match supported_devices[i]? with
      | none => none
      | some current_device_info =>
        let w := w.emit (Event.read_supported_devices i)
        let w := Logging_Write log_level.debug "Trying to find GPU: %s\n"
          [LogArg.str current_device_info.name] w
        let (present, w) :=
          PCI_DevicePresent current_device_info.device_id current_device_info.vendor_id w
        if present then
          let w := Logging_Write log_level.message "Detected GPU: %s\n"
            [LogArg.str current_device_info.name] w
          let w := { w with current_device :=
            { w.current_device with device_info := current_device_info } }
          some (true, w)
        else
          GPU_Detect_loop fuel current_device_info (i + 1) w
    else
      let w := Logging_Write log_level.error "No supported Other GPU found\n" [] w
      some (false, w)

/-- The function `GPU_Detect` of `gpu_detect.c`. -/
def GPU_Detect (w : World) : Option (Bool × World) :=
  match supported_devices[0]? with
  | none => none
  | some current_device_info =>
    let w := w.emit (Event.read_supported_devices 0)
    let i := 0
    GPU_Detect_loop (supported_devices.length + 1) current_device_info i w

/-- The arguments of the `PCI_DevicePresent` calls recorded in a trace, in order. -/
def probe_calls (tr : List Event) : List (Nat × Nat) :=
  tr.filterMap fun e =>
    match e with
    | Event.pci_device_present device_id vendor_id => some (device_id, vendor_id)
    | _ => none

/-- A world with nothing on the bus, zeroed globals (`= {0}`) and an empty trace;
the host components can be replaced field by field. -/
def World.blank : World :=
  { current_device :=
      { device_info :=
          { device_id := 0, vendor_id := 0, name := "", init_function := none,
            shutdown_function := none, gpus_section_applies := none,
            gpus_section_parse := none },
        bus_number := 0, function_number := 0, bar0 := 0, bar1 := 0,
        bar0_selector := 0, bar1_selector := 0, bar1_dfb_start := 0, ramin_start := 0,
        vram_amount := 0, nv_pfb_boot_0 := 0, nv_pmc_boot_0 := 0, straps := 0,
        crystal_hz := 0, mpll := 0, vpll := 0, nvpll := 0 },
    r128_state := { original_config_cntl := 0 },
    voodoo3_state := { original_pci_command := 0 },
    voodoo3_io_base_port := 0,
    pci_find_device := fun _ _ => none,
    pci_config8 := fun _ _ _ => 0,
    pci_config16 := fun _ _ _ => 0,
    pci_config32 := fun _ _ _ => 0,
    mmio32 := fun _ => 0,
    port8 := fun _ => 0,
    port16 := fun _ => 0,
    dpmi_mapping := fun address _ => some address,
    dpmi_ldt := fun n => 0x87 + 8 * (n : Int),
    dpmi_ldt_calls := 0,
    mmio8 := fun _ => 0,
    dfb8 := fun _ => 0,
    dfb16 := fun _ => 0,
    dfb32 := fun _ => 0,
    trace := [] }

/-- Whether the PCI probe reports the registry entry `e` as present. -/
def probe_found (w : World) (e : nv_device_info_t) : Bool :=
  (w.pci_find_device e.device_id e.vendor_id).isSome

/-! ## `r128_core.c` -/

/-- The function `r128_init` of `r128_core.c`. -/
def r128_init (w : World) : Bool × World :=
  let (bar0_base, w) := PCI_ReadConfig32 w.current_device.bus_number
    w.current_device.function_number PCI_CFG_OFFSET_BAR0 w
  let (bar2_base, w) := PCI_ReadConfig32 w.current_device.bus_number
    w.current_device.function_number PCI_CFG_OFFSET_BAR2 w
  let bar0_base := bar0_base &&& 0xFFFFFFF0
  let bar2_base := bar2_base &&& 0xFFFFFFF0
  let w := Logging_Write log_level.debug "R128 - PCI BAR0 (LFB) 0x%08lX\n"
    [LogArg.num bar0_base] w
  let w := Logging_Write log_level.debug "R128 - PCI BAR2 (MMIO) 0x%08lX\n"
    [LogArg.num bar2_base] w
  let meminfo_bar0_address := bar0_base
  let meminfo_bar0_size := 0x4000000
  let meminfo_bar2_address := bar2_base
  let meminfo_bar2_size := 0x4000
  let w := { w with current_device := { w.current_device with bar1_dfb_start := bar0_base } }
  let w := { w with current_device := { w.current_device with ramin_start := bar2_base } }
  let (_, meminfo_bar0_address, w) :=
    dpmi_physical_address_mapping meminfo_bar0_address meminfo_bar0_size w
  let (_, meminfo_bar2_address, w) :=
    dpmi_physical_address_mapping meminfo_bar2_address meminfo_bar2_size w
  let w := Logging_Write log_level.debug
    "R128 Init: Mapping BAR2 (MMIO - 16KB) to bar0_selector...\n" [] w
  let (selector, w) := dpmi_allocate_ldt_descriptors 1 w
  let w := { w with current_device := { w.current_device with bar0_selector := selector } }
  let w := dpmi_set_segment_base_address w.current_device.bar0_selector meminfo_bar2_address w
  let w := dpmi_set_segment_limit w.current_device.bar0_selector (0x4000 - 1) w
  let w := Logging_Write log_level.debug
    "R128 Init: Mapping BAR0 (LFB - 64MB) to bar1_selector...\n" [] w
  let (selector, w) := dpmi_allocate_ldt_descriptors 1 w
  let w := { w with current_device := { w.current_device with bar1_selector := selector } }
  let w := dpmi_set_segment_base_address w.current_device.bar1_selector meminfo_bar0_address w
  let w := dpmi_set_segment_limit w.current_device.bar1_selector (0x4000000 - 1) w
  let (vendor_id, w) := PCI_ReadConfig16 w.current_device.bus_number
    w.current_device.function_number PCI_CFG_OFFSET_VENDOR_ID w
  let (device_id, w) := PCI_ReadConfig16 w.current_device.bus_number
    w.current_device.function_number PCI_CFG_OFFSET_DEVICE_ID w
  let (revision_id, w) := PCI_ReadConfig8 w.current_device.bus_number
    w.current_device.function_number PCI_CFG_OFFSET_REVISION w
  let w := Logging_Write log_level.debug "R128 - Vendor ID: 0x%04X\n" [LogArg.num vendor_id] w
  let w := Logging_Write log_level.debug "R128 - Device ID: 0x%04X\n" [LogArg.num device_id] w
  let w := Logging_Write log_level.debug "R128 - Revision ID: 0x%02X\n"
    [LogArg.num revision_id] w
  let (memsize, w) := mmio_read32 R128_CONFIG_MEMSIZE w
  let memsize_value := memsize &&& R128_CONFIG_MEMSIZE_MASK
  let w :=
    if memsize_value = R128_CONFIG_MEMSIZE_8MB then
      { w with current_device := { w.current_device with vram_amount := R128_VRAM_SIZE_8MB } }
    else if memsize_value = R128_CONFIG_MEMSIZE_16MB then
      { w with current_device := { w.current_device with vram_amount := R128_VRAM_SIZE_16MB } }
    else if memsize_value = R128_CONFIG_MEMSIZE_32MB then
      { w with current_device := { w.current_device with vram_amount := R128_VRAM_SIZE_32MB } }
    else
      let w := Logging_Write log_level.warning
        "R128 - Unknown memory size value: 0x%02X, defaulting to 16MB\n"
        [LogArg.num memsize_value] w
      { w with current_device := { w.current_device with vram_amount := R128_VRAM_SIZE_16MB } }
  let w := Logging_Write log_level.debug "R128 - VRAM Size: %lu MB\n"
    [LogArg.num (w.current_device.vram_amount / 1048576)] w
  let (straps, w) := mmio_read32 R128_CONFIG_XSTRAP w
  let w := { w with current_device := { w.current_device with straps := straps } }
  let (config_cntl, w) := mmio_read32 R128_CONFIG_CNTL w
  let w := { w with r128_state := { w.r128_state with original_config_cntl := config_cntl } }
  let (command, w) := PCI_ReadConfig16 w.current_device.bus_number
    w.current_device.function_number PCI_CFG_OFFSET_COMMAND w
  let w :=
    if command &&& PCI_CFG_OFFSET_COMMAND_BUS_MASTER = 0 then
      let w := Logging_Write log_level.debug "R128 Init: Enabling bus mastering...\n" [] w
      let command := (command ||| PCI_CFG_OFFSET_COMMAND_BUS_MASTER) % 2 ^ 16
      (PCI_WriteConfig16 w.current_device.bus_number w.current_device.function_number
        PCI_CFG_OFFSET_COMMAND command w).2
    else w
  let w := Logging_Write log_level.debug "R128 Init: Initialization complete!\n" [] w
  (true, w)

/-- The function `r128_shutdown` of `r128_core.c`. -/
def r128_shutdown (w : World) : World :=
  let w :=
    if w.r128_state.original_config_cntl ≠ 0 then
      mmio_write32 R128_CONFIG_CNTL w.r128_state.original_config_cntl w
    else w
  Logging_Write log_level.debug "R128 Shutdown: Complete\n" [] w

/-! ## `voodoo3_core.c` -/

/-- The function `voodoo3_io_read8` of `voodoo3_core.c`. -/
def voodoo3_io_read8 (offset : Nat) (w : World) : Nat × World :=
  if w.voodoo3_io_base_port = 0 then (0, w)
  else inportb (w.voodoo3_io_base_port + offset % 2 ^ 16) w

/-- The function `voodoo3_io_read16` of `voodoo3_core.c`. -/
def voodoo3_io_read16 (offset : Nat) (w : World) : Nat × World :=
  if w.voodoo3_io_base_port = 0 then (0, w)
  else inportw (w.voodoo3_io_base_port + offset % 2 ^ 16) w

/-- The function `voodoo3_io_read32` of `voodoo3_core.c`. -/
def voodoo3_io_read32 (offset : Nat) (w : World) : Nat × World :=
  if w.voodoo3_io_base_port = 0 then (0, w)
  else
    let port := (w.voodoo3_io_base_port + offset % 2 ^ 16) % 2 ^ 16
    let (low, w) := inportw port w
    let (high, w) := inportw (port + 2) w
    ((low ||| (high <<< 16) % 2 ^ 32) % 2 ^ 32, w)

/-- The function `voodoo3_io_write8` of `voodoo3_core.c`. -/
def voodoo3_io_write8 (offset value : Nat) (w : World) : World :=
  if w.voodoo3_io_base_port = 0 then w
  else outportb (w.voodoo3_io_base_port + offset % 2 ^ 16) value w

/-- The function `voodoo3_io_write16` of `voodoo3_core.c`. -/
def voodoo3_io_write16 (offset value : Nat) (w : World) : World :=
  if w.voodoo3_io_base_port = 0 then w
  else outportw (w.voodoo3_io_base_port + offset % 2 ^ 16) value w

/-- The function `voodoo3_io_write32` of `voodoo3_core.c`. -/
def voodoo3_io_write32 (offset value : Nat) (w : World) : World :=
  if w.voodoo3_io_base_port = 0 then w
  else
    let port := (w.voodoo3_io_base_port + offset % 2 ^ 16) % 2 ^ 16
    let w := outportw port ((value &&& 0xFFFF) % 2 ^ 16) w
    outportw (port + 2) (((value >>> 16) &&& 0xFFFF) % 2 ^ 16) w

/-- The function `voodoo3_init` of `voodoo3_core.c`. -/
def voodoo3_init (w : World) : Bool × World :=
  let (bar0_base, w) := PCI_ReadConfig32 w.current_device.bus_number
    w.current_device.function_number PCI_CFG_OFFSET_BAR0 w
  let (bar1_base, w) := PCI_ReadConfig32 w.current_device.bus_number
    w.current_device.function_number PCI_CFG_OFFSET_BAR1 w
  let (bar2_base, w) := PCI_ReadConfig32 w.current_device.bus_number
    w.current_device.function_number PCI_CFG_OFFSET_BAR2 w
  let bar0_base := bar0_base &&& 0xFFFFFFF0
  let bar1_base := bar1_base &&& 0xFFFFFFF0
  if bar2_base &&& 0x01 ≠ 0 then
    let w := { w with voodoo3_io_base_port := (bar2_base &&& 0xFFFC) % 2 ^ 16 }
    let w := Logging_Write log_level.debug "Voodoo3 - PCI BAR2 (I/O Ports) 0x%04X\n"
      [LogArg.num w.voodoo3_io_base_port] w
    let w := Logging_Write log_level.debug "Voodoo3 - PCI BAR0 (Frame Buffer) 0x%08lX\n"
      [LogArg.num bar0_base] w
    let w := Logging_Write log_level.debug "Voodoo3 - PCI BAR1 (Texture Memory) 0x%08lX\n"
      [LogArg.num bar1_base] w
    let meminfo_bar0_address := bar0_base
    let meminfo_bar0_size := 0x2000000
    let meminfo_bar1_address := bar1_base
    let meminfo_bar1_size := 0x2000000
    let w := { w with current_device := { w.current_device with bar1_dfb_start := bar0_base } }
    let w := { w with current_device := { w.current_device with ramin_start := bar1_base } }
    let (_, meminfo_bar0_address, w) :=
      dpmi_physical_address_mapping meminfo_bar0_address meminfo_bar0_size w
    let (_, _, w) :=
      dpmi_physical_address_mapping meminfo_bar1_address meminfo_bar1_size w
    let w := Logging_Write log_level.debug
      "Voodoo3 Init: Mapping BAR0 (Frame Buffer - 32MB) to bar1_selector...\n" [] w
    let (selector, w) := dpmi_allocate_ldt_descriptors 1 w
    let w := { w with current_device := { w.current_device with bar1_selector := selector } }
    let w := dpmi_set_segment_base_address w.current_device.bar1_selector meminfo_bar0_address w
    let w := dpmi_set_segment_limit w.current_device.bar1_selector (0x2000000 - 1) w
    let (vendor_id, w) := PCI_ReadConfig16 w.current_device.bus_number
      w.current_device.function_number PCI_CFG_OFFSET_VENDOR_ID w
    let (device_id, w) := PCI_ReadConfig16 w.current_device.bus_number
      w.current_device.function_number PCI_CFG_OFFSET_DEVICE_ID w
    let (revision_id, w) := PCI_ReadConfig8 w.current_device.bus_number
      w.current_device.function_number PCI_CFG_OFFSET_REVISION w
    let w := Logging_Write log_level.debug "Voodoo3 - Vendor ID: 0x%04X\n"
      [LogArg.num vendor_id] w
    let w := Logging_Write log_level.debug "Voodoo3 - Device ID: 0x%04X\n"
      [LogArg.num device_id] w
    let w := Logging_Write log_level.debug "Voodoo3 - Revision ID: 0x%02X\n"
      [LogArg.num revision_id] w
    let (lfb_mem_config, w) := voodoo3_io_read32 VOODOO3_IO_LFBMEMORYCONFIG w
    let memsize_value := lfb_mem_config &&& VOODOO3_LFBMEMORYCONFIG_MEMORY_SIZE_MASK
    let w :=
      if memsize_value = VOODOO3_LFBMEMORYCONFIG_MEMORY_SIZE_4MB then
        { w with current_device :=
          { w.current_device with vram_amount := VOODOO3_VRAM_SIZE_4MB } }
      else if memsize_value = VOODOO3_LFBMEMORYCONFIG_MEMORY_SIZE_8MB then
        { w with current_device :=
          { w.current_device with vram_amount := VOODOO3_VRAM_SIZE_8MB } }
      else if memsize_value = VOODOO3_LFBMEMORYCONFIG_MEMORY_SIZE_16MB then
        { w with current_device :=
          { w.current_device with vram_amount := VOODOO3_VRAM_SIZE_16MB } }
      else if memsize_value = VOODOO3_LFBMEMORYCONFIG_MEMORY_SIZE_32MB then
        { w with current_device :=
          { w.current_device with vram_amount := VOODOO3_VRAM_SIZE_32MB } }
      else
        let w := Logging_Write log_level.warning
          "Voodoo3 - Unknown memory size value: 0x%02X, defaulting to 16MB\n"
          [LogArg.num memsize_value] w
        { w with current_device :=
          { w.current_device with vram_amount := VOODOO3_VRAM_SIZE_16MB } }
    let w := Logging_Write log_level.debug "Voodoo3 - VRAM Size: %lu MB\n"
      [LogArg.num (w.current_device.vram_amount / 1048576)] w
    let (misc_init1, w) := voodoo3_io_read32 VOODOO3_IO_MISCINIT1 w
    let w := { w with current_device := { w.current_device with straps := misc_init1 } }
    let (command, w) := PCI_ReadConfig16 w.current_device.bus_number
      w.current_device.function_number PCI_CFG_OFFSET_COMMAND w
    let w := { w with voodoo3_state := { w.voodoo3_state with original_pci_command := command } }
    let (command, w) :=
      if command &&& PCI_CFG_OFFSET_COMMAND_BUS_MASTER = 0 then
        let w := Logging_Write log_level.debug "Voodoo3 Init: Enabling bus mastering...\n" [] w
        let command := (command ||| PCI_CFG_OFFSET_COMMAND_BUS_MASTER) % 2 ^ 16
        (command, (PCI_WriteConfig16 w.current_device.bus_number
          w.current_device.function_number PCI_CFG_OFFSET_COMMAND command w).2)
      else (command, w)
    let (command, w) :=
      if command &&& PCI_CFG_OFFSET_COMMAND_MEM_ENABLED = 0 then
        let w := Logging_Write log_level.debug "Voodoo3 Init: Enabling memory access...\n" [] w
        let command := (command ||| PCI_CFG_OFFSET_COMMAND_MEM_ENABLED) % 2 ^ 16
        (command, (PCI_WriteConfig16 w.current_device.bus_number
          w.current_device.function_number PCI_CFG_OFFSET_COMMAND command w).2)
      else (command, w)
    let (_, w) :=
      if command &&& PCI_CFG_OFFSET_COMMAND_IO_ENABLED = 0 then
        let w := Logging_Write log_level.debug "Voodoo3 Init: Enabling I/O access...\n" [] w
        let command := (command ||| PCI_CFG_OFFSET_COMMAND_IO_ENABLED) % 2 ^ 16
        (command, (PCI_WriteConfig16 w.current_device.bus_number
          w.current_device.function_number PCI_CFG_OFFSET_COMMAND command w).2)
      else (command, w)
    let w := Logging_Write log_level.debug "Voodoo3 Init: Initialization complete!\n" [] w
    (true, w)
  else
    let w := Logging_Write log_level.error "Voodoo3 - BAR2 is not I/O space! (0x%08lX)\n"
      [LogArg.num bar2_base] w
    (false, w)

/-- The function `voodoo3_shutdown` of `voodoo3_core.c`. -/
def voodoo3_shutdown (w : World) : World :=
  let w :=
    if w.voodoo3_state.original_pci_command ≠ 0 then
      (PCI_WriteConfig16 w.current_device.bus_number w.current_device.function_number
        PCI_CFG_OFFSET_COMMAND w.voodoo3_state.original_pci_command w).2
    else w
  Logging_Write log_level.debug "Voodoo3 Shutdown: Complete\n" [] w

/-! ## The two `init` functions, block by block

The definitions below repeat the statements of `r128_init` and `voodoo3_init` in the
groups marked by the block comments of the sources; `r128_init_eq_blocks` and
`voodoo3_init_eq_blocks` show that running the groups one after the other is the
function itself. -/

/-- Lines 32-75 of `r128_core.c`: BAR reads, physical mappings, the two selectors. -/
def r128_init_map_bars (w : World) : World :=
  let (bar0_base, w) := PCI_ReadConfig32 w.current_device.bus_number
    w.current_device.function_number PCI_CFG_OFFSET_BAR0 w
  let (bar2_base, w) := PCI_ReadConfig32 w.current_device.bus_number
    w.current_device.function_number PCI_CFG_OFFSET_BAR2 w
  let bar0_base := bar0_base &&& 0xFFFFFFF0
  let bar2_base := bar2_base &&& 0xFFFFFFF0
  let w := Logging_Write log_level.debug "R128 - PCI BAR0 (LFB) 0x%08lX\n"
    [LogArg.num bar0_base] w
  let w := Logging_Write log_level.debug "R128 - PCI BAR2 (MMIO) 0x%08lX\n"
    [LogArg.num bar2_base] w
  let meminfo_bar0_address := bar0_base
  let meminfo_bar0_size := 0x4000000
  let meminfo_bar2_address := bar2_base
  let meminfo_bar2_size := 0x4000
  let w := { w with current_device := { w.current_device with bar1_dfb_start := bar0_base } }
  let w := { w with current_device := { w.current_device with ramin_start := bar2_base } }
  let (_, meminfo_bar0_address, w) :=
    dpmi_physical_address_mapping meminfo_bar0_address meminfo_bar0_size w
  let (_, meminfo_bar2_address, w) :=
    dpmi_physical_address_mapping meminfo_bar2_address meminfo_bar2_size w
  let w := Logging_Write log_level.debug
    "R128 Init: Mapping BAR2 (MMIO - 16KB) to bar0_selector...\n" [] w
  let (selector, w) := dpmi_allocate_ldt_descriptors 1 w
  let w := { w with current_device := { w.current_device with bar0_selector := selector } }
  let w := dpmi_set_segment_base_address w.current_device.bar0_selector meminfo_bar2_address w
  let w := dpmi_set_segment_limit w.current_device.bar0_selector (0x4000 - 1) w
  let w := Logging_Write log_level.debug
    "R128 Init: Mapping BAR0 (LFB - 64MB) to bar1_selector...\n" [] w
  let (selector, w) := dpmi_allocate_ldt_descriptors 1 w
  let w := { w with current_device := { w.current_device with bar1_selector := selector } }
  let w := dpmi_set_segment_base_address w.current_device.bar1_selector meminfo_bar0_address w
  dpmi_set_segment_limit w.current_device.bar1_selector (0x4000000 - 1) w

/-- Lines 77-84 of `r128_core.c`: "Read configuration registers". -/
def r128_init_read_ids (w : World) : World :=
  let (vendor_id, w) := PCI_ReadConfig16 w.current_device.bus_number
    w.current_device.function_number PCI_CFG_OFFSET_VENDOR_ID w
  let (device_id, w) := PCI_ReadConfig16 w.current_device.bus_number
    w.current_device.function_number PCI_CFG_OFFSET_DEVICE_ID w
  let (revision_id, w) := PCI_ReadConfig8 w.current_device.bus_number
    w.current_device.function_number PCI_CFG_OFFSET_REVISION w
  let w := Logging_Write log_level.debug "R128 - Vendor ID: 0x%04X\n" [LogArg.num vendor_id] w
  let w := Logging_Write log_level.debug "R128 - Device ID: 0x%04X\n" [LogArg.num device_id] w
  Logging_Write log_level.debug "R128 - Revision ID: 0x%02X\n" [LogArg.num revision_id] w

/-- Lines 86-102 of `r128_core.c`: "Read memory size from CONFIG_MEMSIZE register". -/
def r128_init_memsize (w : World) : World :=
  let (memsize, w) := mmio_read32 R128_CONFIG_MEMSIZE w
  let memsize_value := memsize &&& R128_CONFIG_MEMSIZE_MASK
  let w :=
    if memsize_value = R128_CONFIG_MEMSIZE_8MB then
      { w with current_device := { w.current_device with vram_amount := R128_VRAM_SIZE_8MB } }
    else if memsize_value = R128_CONFIG_MEMSIZE_16MB then
      { w with current_device := { w.current_device with vram_amount := R128_VRAM_SIZE_16MB } }
    else if memsize_value = R128_CONFIG_MEMSIZE_32MB then
      { w with current_device := { w.current_device with vram_amount := R128_VRAM_SIZE_32MB } }
    else
      let w := Logging_Write log_level.warning
        "R128 - Unknown memory size value: 0x%02X, defaulting to 16MB\n"
        [LogArg.num memsize_value] w
      { w with current_device := { w.current_device with vram_amount := R128_VRAM_SIZE_16MB } }
  Logging_Write log_level.debug "R128 - VRAM Size: %lu MB\n"
    [LogArg.num (w.current_device.vram_amount / 1048576)] w

/-- Lines 104-108 of `r128_core.c`: external straps and the `CONFIG_CNTL` snapshot. -/
def r128_init_straps (w : World) : World :=
  let (straps, w) := mmio_read32 R128_CONFIG_XSTRAP w
  let w := { w with current_device := { w.current_device with straps := straps } }
  let (config_cntl, w) := mmio_read32 R128_CONFIG_CNTL w
  { w with r128_state := { w.r128_state with original_config_cntl := config_cntl } }

/-- Lines 110-117 of `r128_core.c`: "Enable bus mastering if not already enabled". -/
def r128_init_bus_master (w : World) : World :=
  let (command, w) := PCI_ReadConfig16 w.current_device.bus_number
    w.current_device.function_number PCI_CFG_OFFSET_COMMAND w
  if command &&& PCI_CFG_OFFSET_COMMAND_BUS_MASTER = 0 then
    let w := Logging_Write log_level.debug "R128 Init: Enabling bus mastering...\n" [] w
    let command := (command ||| PCI_CFG_OFFSET_COMMAND_BUS_MASTER) % 2 ^ 16
    (PCI_WriteConfig16 w.current_device.bus_number w.current_device.function_number
      PCI_CFG_OFFSET_COMMAND command w).2
  else w

/-- Lines 98-104 of `voodoo3_core.c`: the three BAR reads; yields the masked BAR0 and
BAR1 and the raw BAR2. -/
def voodoo3_init_read_bars (w : World) : Nat × Nat × Nat × World :=
  let (bar0_base, w) := PCI_ReadConfig32 w.current_device.bus_number
    w.current_device.function_number PCI_CFG_OFFSET_BAR0 w
  let (bar1_base, w) := PCI_ReadConfig32 w.current_device.bus_number
    w.current_device.function_number PCI_CFG_OFFSET_BAR1 w
  let (bar2_base, w) := PCI_ReadConfig32 w.current_device.bus_number
    w.current_device.function_number PCI_CFG_OFFSET_BAR2 w
  (bar0_base &&& 0xFFFFFFF0, bar1_base &&& 0xFFFFFFF0, bar2_base, w)

/-- Lines 112-113 of `voodoo3_core.c`: the base port is taken from BAR2. -/
def voodoo3_init_io_base (bar2_base : Nat) (w : World) : World :=
  let w := { w with voodoo3_io_base_port := (bar2_base &&& 0xFFFC) % 2 ^ 16 }
  Logging_Write log_level.debug "Voodoo3 - PCI BAR2 (I/O Ports) 0x%04X\n"
    [LogArg.num w.voodoo3_io_base_port] w

/-- Lines 121-149 of `voodoo3_core.c`: physical mappings and the frame-buffer
selector. -/
def voodoo3_init_map_bars (bar0_base bar1_base : Nat) (w : World) : World :=
  let w := Logging_Write log_level.debug "Voodoo3 - PCI BAR0 (Frame Buffer) 0x%08lX\n"
    [LogArg.num bar0_base] w
  let w := Logging_Write log_level.debug "Voodoo3 - PCI BAR1 (Texture Memory) 0x%08lX\n"
    [LogArg.num bar1_base] w
  let meminfo_bar0_address := bar0_base
  let meminfo_bar0_size := 0x2000000
  let meminfo_bar1_address := bar1_base
  let meminfo_bar1_size := 0x2000000
  let w := { w with current_device := { w.current_device with bar1_dfb_start := bar0_base } }
  let w := { w with current_device := { w.current_device with ramin_start := bar1_base } }
  let (_, meminfo_bar0_address, w) :=
    dpmi_physical_address_mapping meminfo_bar0_address meminfo_bar0_size w
  let (_, _, w) :=
    dpmi_physical_address_mapping meminfo_bar1_address meminfo_bar1_size w
  let w := Logging_Write log_level.debug
    "Voodoo3 Init: Mapping BAR0 (Frame Buffer - 32MB) to bar1_selector...\n" [] w
  let (selector, w) := dpmi_allocate_ldt_descriptors 1 w
  let w := { w with current_device := { w.current_device with bar1_selector := selector } }
  let w := dpmi_set_segment_base_address w.current_device.bar1_selector meminfo_bar0_address w
  dpmi_set_segment_limit w.current_device.bar1_selector (0x2000000 - 1) w

/-- Lines 154-161 of `voodoo3_core.c`: "Read configuration registers". -/
def voodoo3_init_read_ids (w : World) : World :=
  let (vendor_id, w) := PCI_ReadConfig16 w.current_device.bus_number
    w.current_device.function_number PCI_CFG_OFFSET_VENDOR_ID w
  let (device_id, w) := PCI_ReadConfig16 w.current_device.bus_number
    w.current_device.function_number PCI_CFG_OFFSET_DEVICE_ID w
  let (revision_id, w) := PCI_ReadConfig8 w.current_device.bus_number
    w.current_device.function_number PCI_CFG_OFFSET_REVISION w
  let w := Logging_Write log_level.debug "Voodoo3 - Vendor ID: 0x%04X\n"
    [LogArg.num vendor_id] w
  let w := Logging_Write log_level.debug "Voodoo3 - Device ID: 0x%04X\n"
    [LogArg.num device_id] w
  Logging_Write log_level.debug "Voodoo3 - Revision ID: 0x%02X\n" [LogArg.num revision_id] w

/-- Lines 163-181 of `voodoo3_core.c`: "Read memory size from lfbMemoryConfig
register". -/
def voodoo3_init_memsize (w : World) : World :=
  let (lfb_mem_config, w) := voodoo3_io_read32 VOODOO3_IO_LFBMEMORYCONFIG w
  let memsize_value := lfb_mem_config &&& VOODOO3_LFBMEMORYCONFIG_MEMORY_SIZE_MASK
  let w :=
    if memsize_value = VOODOO3_LFBMEMORYCONFIG_MEMORY_SIZE_4MB then
      { w with current_device :=
        { w.current_device with vram_amount := VOODOO3_VRAM_SIZE_4MB } }
    else if memsize_value = VOODOO3_LFBMEMORYCONFIG_MEMORY_SIZE_8MB then
      { w with current_device :=
        { w.current_device with vram_amount := VOODOO3_VRAM_SIZE_8MB } }
    else if memsize_value = VOODOO3_LFBMEMORYCONFIG_MEMORY_SIZE_16MB then
      { w with current_device :=
        { w.current_device with vram_amount := VOODOO3_VRAM_SIZE_16MB } }
    else if memsize_value = VOODOO3_LFBMEMORYCONFIG_MEMORY_SIZE_32MB then
      { w with current_device :=
        { w.current_device with vram_amount := VOODOO3_VRAM_SIZE_32MB } }
    else
      let w := Logging_Write log_level.warning
        "Voodoo3 - Unknown memory size value: 0x%02X, defaulting to 16MB\n"
        [LogArg.num memsize_value] w
      { w with current_device :=
        { w.current_device with vram_amount := VOODOO3_VRAM_SIZE_16MB } }
  Logging_Write log_level.debug "Voodoo3 - VRAM Size: %lu MB\n"
    [LogArg.num (w.current_device.vram_amount / 1048576)] w

/-- Lines 183-185 of `voodoo3_core.c`: "Read initialization registers". -/
def voodoo3_init_straps (w : World) : World :=
  let (misc_init1, w) := voodoo3_io_read32 VOODOO3_IO_MISCINIT1 w
  { w with current_device := { w.current_device with straps := misc_init1 } }

/-- One of the three steps of lines 191-213 of `voodoo3_core.c`: if the bit `mask`
is clear in `command`, log `message`, set the bit and write `command` back to the PCI
command register.  Yields the local `command` and the state. -/
def voodoo3_init_enable (mask : Nat) (message : String) (command : Nat) (w : World) :
    Nat × World :=
  if command &&& mask = 0 then
    let w := Logging_Write log_level.debug message [] w
    let command := (command ||| mask) % 2 ^ 16
    (command, (PCI_WriteConfig16 w.current_device.bus_number
      w.current_device.function_number PCI_CFG_OFFSET_COMMAND command w).2)
  else (command, w)

/-- Lines 187-213 of `voodoo3_core.c`: the PCI command snapshot and the three
enable bits. -/
def voodoo3_init_command (w : World) : World :=
  let (command, w) := PCI_ReadConfig16 w.current_device.bus_number
    w.current_device.function_number PCI_CFG_OFFSET_COMMAND w
  let w := { w with voodoo3_state := { w.voodoo3_state with original_pci_command := command } }
  let (command, w) := voodoo3_init_enable PCI_CFG_OFFSET_COMMAND_BUS_MASTER
    "Voodoo3 Init: Enabling bus mastering...\n" command w
  let (command, w) := voodoo3_init_enable PCI_CFG_OFFSET_COMMAND_MEM_ENABLED
    "Voodoo3 Init: Enabling memory access...\n" command w
  let (_, w) := voodoo3_init_enable PCI_CFG_OFFSET_COMMAND_IO_ENABLED
    "Voodoo3 Init: Enabling I/O access...\n" command w
  w

/-! ## Savestate hooks (`r128_core.c`, `voodoo3_core.c`) and constants (`gpuplay.h`) -/

/-- A `FILE*` stream handed to a section parser: its bytes and the read position. -/
structure FILE where
  contents : List Nat
  position : Nat
  deriving DecidableEq, Repr

/-- The function `r128_gpus_section_applies` of `r128_core.c`. -/
def r128_gpus_section_applies (_fourcc : Nat) (w : World) : Bool × World :=
  (false, w)

/-- The function `r128_gpus_parse_section` of `r128_core.c`; yields the result, the
stream and the state. -/
def r128_gpus_parse_section (_fourcc : Nat) (stream : FILE) (w : World) :
    Bool × FILE × World :=
  (false, stream, w)

/-- The function `voodoo3_gpus_section_applies` of `voodoo3_core.c`. -/
def voodoo3_gpus_section_applies (_fourcc : Nat) (w : World) : Bool × World :=
  (false, w)

/-- The function `voodoo3_gpus_parse_section` of `voodoo3_core.c`; yields the result,
the stream and the state. -/
def voodoo3_gpus_parse_section (_fourcc : Nat) (stream : FILE) (w : World) :
    Bool × FILE × World :=
  (false, stream, w)

/-- A call through a `gpus_section_applies` function pointer of `nv_device_info_t`. -/
def call_gpus_section_applies (f : SectionAppliesFn) (fourcc : Nat) (w : World) :
    Bool × World :=
  match f with
  | SectionAppliesFn.r128_gpus_section_applies => r128_gpus_section_applies fourcc w
  | SectionAppliesFn.voodoo3_gpus_section_applies => voodoo3_gpus_section_applies fourcc w

/-- A call through a `gpus_section_parse` function pointer of `nv_device_info_t`. -/
def call_gpus_section_parse (f : SectionParseFn) (fourcc : Nat) (stream : FILE)
    (w : World) : Bool × FILE × World :=
  match f with
  | SectionParseFn.r128_gpus_parse_section => r128_gpus_parse_section fourcc stream w
  | SectionParseFn.voodoo3_gpus_parse_section => voodoo3_gpus_parse_section fourcc stream w

def GPUS_MAGIC : Nat := 0x53555047
def gpus_section_vga_crtc : Nat := 0x43545243
def gpus_section_vga_gdc : Nat := 0x47414756
def gpus_section_vga_sequencer : Nat := 0x53414756
def gpus_section_vga_attribute : Nat := 0x41414756
def gpus_section_mmio : Nat := 0x4F494D4D
def gpus_section_bar1 : Nat := 0x31524142
def gpus_section_cache : Nat := 0x48434143
def gpus_section_nv1e : Nat := 0x44453136

/-- The little-endian 32-bit encoding of a four-character ASCII tag: byte 0 is the
first character.  Zero for a string that does not have four characters. -/
def fourcc_le (tag : String) : Nat :=
  match tag.toList with
  | [a, b, c, d] => a.toNat + b.toNat * 2 ^ 8 + c.toNat * 2 ^ 16 + d.toNat * 2 ^ 24
  | _ => 0

/-! ## `gpu_script_commands.c` -/

/-- The handlers defined in `gpu_script_commands.c`. -/
inductive CommandFn where
  | Command_WriteMMIO8
  | Command_WriteMMIORange8
  | Command_ReadMMIOConsole8
  | Command_WriteMMIO32
  | Command_ReadMMIOConsole32
  | Command_WriteMMIORange32
  | Command_WriteVRAM8
  | Command_WriteVRAMRange8
  | Command_ReadVRAMConsole8
  | Command_WriteVRAM16
  | Command_WriteVRAMRange16
  | Command_ReadVRAMConsole16
  | Command_WriteVRAM32
  | Command_WriteVRAMRange32
  | Command_ReadVRAMConsole32
  | Command_WriteRamin32
  | Command_WriteRaminRange32
  | Command_ReadRaminConsole32
  | Command_ReadCrtcConsole
  | Command_WriteCrtc
  | Command_RunTest
  | Command_Print
  | Command_PrintDebug
  | Command_PrintWarning
  | Command_PrintError
  | Command_PrintVersion
  deriving DecidableEq, Repr

/-- The struct `gpu_script_command_t` of `gpuplay.h`; `none` is `NULL`. -/
structure gpu_script_command_t where
  name_abbrev : Option String
  name_full : Option String
  function : Option CommandFn
  num_parameters : Nat
  deriving DecidableEq, Repr

/-- The table `commands` of `gpu_script_commands.c`, sentinel included.  The row
`rrc32` has no fourth initialiser, so its `num_parameters` is zero. -/
def commands : List gpu_script_command_t :=
  [ ⟨some "wm8", some "writemmio8", some CommandFn.Command_WriteMMIO8, 2⟩,
    ⟨some "rmc8", some "readmmioconsole8", some CommandFn.Command_ReadMMIOConsole8, 3⟩,
    ⟨some "wmrange8", some "writemmiorange8", some CommandFn.Command_WriteMMIORange8, 2⟩,
    ⟨some "wm32", some "writemmio32", some CommandFn.Command_WriteMMIO32, 2⟩,
    ⟨some "wmrange32", some "writemmiorange32", some CommandFn.Command_WriteMMIORange32, 3⟩,
    ⟨some "rmc32", some "readmmioconsole32", some CommandFn.Command_ReadMMIOConsole32, 1⟩,
    ⟨some "wv8", some "writevram8", some CommandFn.Command_WriteVRAM8, 2⟩,
    ⟨some "rvc8", some "readvramconsole8", some CommandFn.Command_ReadVRAMConsole8, 1⟩,
    ⟨some "wvrange8", some "writevramrange8", some CommandFn.Command_WriteVRAMRange8, 3⟩,
    ⟨some "wv16", some "writevram16", some CommandFn.Command_WriteVRAM16, 2⟩,
    ⟨some "rvc16", some "readvramconsole16", some CommandFn.Command_ReadVRAMConsole16, 1⟩,
    ⟨some "wvrange16", some "writevramrange16", some CommandFn.Command_WriteVRAMRange16, 3⟩,
    ⟨some "wv32", some "writevram32", some CommandFn.Command_WriteVRAM32, 2⟩,
    ⟨some "rvc32", some "readmmioconsole32", some CommandFn.Command_ReadVRAMConsole32, 1⟩,
    ⟨some "wvrange32", some "writevramrange32", some CommandFn.Command_WriteMMIORange32, 3⟩,
    ⟨some "wr32", some "writeramin32", some CommandFn.Command_WriteRamin32, 2⟩,
    ⟨some "rrc32", some "readraminconsole32", some CommandFn.Command_ReadRaminConsole32, 0⟩,
    ⟨some "wrrange32", some "writeraminrange32", some CommandFn.Command_WriteRaminRange32, 3⟩,
    ⟨some "rcrtcc", some "readcrtcconsole", some CommandFn.Command_ReadCrtcConsole, 1⟩,
    ⟨some "wcrtc", some "writecrtc", some CommandFn.Command_WriteCrtc, 2⟩,
    ⟨some "rt", some "runtest", some CommandFn.Command_RunTest, 1⟩,
    ⟨some "print", some "printmessage", some CommandFn.Command_Print, 1⟩,
    ⟨some "printdebug", some "printdebug", some CommandFn.Command_PrintDebug, 1⟩,
    ⟨some "printwarning", some "printwarning", some CommandFn.Command_PrintWarning, 1⟩,
    ⟨some "printerror", some "printerror", some CommandFn.Command_PrintError, 1⟩,
    ⟨some "printversion", some "printversion", some CommandFn.Command_PrintVersion, 0⟩,
    ⟨none, none, none, 0⟩ ]

/-- Whether the verb `verb` is the short or the long name of the table row `c`
(exact match, as the dispatcher of spec 4.5 resolves verbs). -/
def verb_matches (verb : String) (c : gpu_script_command_t) : Bool :=
  c.name_abbrev = some verb || c.name_full = some verb

/-- The C library's `isspace`, in the "C" locale. -/
def isspace (c : Char) : Bool :=
  c.toNat = 32 || (9 ≤ c.toNat && c.toNat ≤ 13)

/-- The value of a character as a digit of `strtol`: `0-9`, then letters of either
case from 10 up. -/
def strtol_digit (c : Char) : Option Nat :=
  if 48 ≤ c.toNat ∧ c.toNat ≤ 57 then some (c.toNat - 48)
  else if 65 ≤ c.toNat ∧ c.toNat ≤ 90 then some (c.toNat - 55)
  else if 97 ≤ c.toNat ∧ c.toNat ≤ 122 then some (c.toNat - 87)
  else none

/-- The digits of the longest prefix of `s` made of digits below `base`. -/
def strtol_digits (base : Nat) : List Char → List Nat
  | [] => []
  | c :: cs =>
    match strtol_digit c with
    | some d => if d < base then d :: strtol_digits base cs else []
    | none => []

/-- The largest `long` of the target (32 bits). -/
def LONG_MAX : Int := 2 ^ 31 - 1

/-- The smallest `long` of the target (32 bits). -/
def LONG_MIN : Int := -(2 ^ 31)

/-- The C library's `strtol (nptr, NULL, base)` for a base from 2 to 36, with a 32-bit
`long`: leading white space, an optional sign, for base 16 an optional `0x` / `0X`,
then the longest run of digits; no digits give 0; a value out of range gives
`LONG_MAX` or `LONG_MIN`. -/
def strtol (nptr : String) (base : Nat) : Int :=
  let s := nptr.toList.dropWhile isspace
  let neg := s.head? = some '-'
  let s := if s.head? = some '-' ∨ s.head? = some '+' then s.tail else s
  let s :=
    if base = 16 ∧ s.head? = some '0' ∧ (s.tail.head? = some 'x' ∨ s.tail.head? = some 'X')
    then s.drop 2 else s
  let acc : Nat := (strtol_digits base s).foldl (fun acc d => acc * base + d) 0
  if neg then (if acc > 2 ^ 31 then LONG_MIN else -(acc : Int))
  else (if (acc : Int) > LONG_MAX then LONG_MAX else (acc : Int))

/-- The conversion of a `long` to `uint32_t`. -/
def to_uint32 (v : Int) : Nat :=
  (v % 2 ^ 32).toNat

/-- Why a run of a command handler yields no result: it asked `Command_Argv` for a
token the line does not have, its loop was still running when the step bound
given to the model was used up, or it called through a `NULL` `test_function`. -/
inductive Fault where
  | missing_argument (argv : Nat)
  | out_of_fuel
  | null_test_function
  deriving DecidableEq, Repr

/-- Modelled from the spec: `Command_Argv` (declared in `gpuplay.h`, body not among
the sources), spec 4.5: the line is pre-split into tokens and `argv (i)` is the
`i`-th token, the verb being token 0, with no bounds check; asking for a token past
the end of the line has no defined result. -/
def Command_Argv (tokens : List String) (argv : Nat) (w : World) :
    Except Fault (String × World) :=
  match tokens[argv]? with
  | some token => Except.ok (token, w.emit (Event.command_argv argv))
  | none => Except.error (Fault.missing_argument argv)

/-- The `for` loop of `Command_WriteMMIORange8`; the first argument bounds the number
of iterations. -/
def Command_WriteMMIORange8_loop (offset_end value : Nat) :
    Nat → Nat → World → Except Fault World
  | 0, _, _ => Except.error Fault.out_of_fuel
  | fuel + 1, offset, w =>
    if offset < offset_end then
      Command_WriteMMIORange8_loop offset_end value fuel ((offset + 1) % 2 ^ 32)
        (mmio_write8 offset value w)
    else Except.ok w

/-- The function `Command_WriteMMIORange8`; `tokens` is the split line, `fuel` bounds
the iterations of its loop. -/
def Command_WriteMMIORange8 (fuel : Nat) (tokens : List String) (w : World) :
    Except Fault (Bool × World) := do
  let (token, w) ← Command_Argv tokens 1 w
  let offset_start := to_uint32 (strtol token 16)
  let (token, w) ← Command_Argv tokens 2 w
  let offset_end := to_uint32 (strtol token 16)
  let (token, w) ← Command_Argv tokens 3 w
  let value := to_uint32 (strtol token 16)
  let w ← Command_WriteMMIORange8_loop offset_end value fuel offset_start w
  return (true, w)

/-- The `for` loop of `Command_WriteMMIORange32`; the first argument bounds the
number of iterations. -/
def Command_WriteMMIORange32_loop (offset_end value : Nat) :
    Nat → Nat → World → Except Fault World
  | 0, _, _ => Except.error Fault.out_of_fuel
  | fuel + 1, offset, w =>
    if offset < offset_end then
      Command_WriteMMIORange32_loop offset_end value fuel ((offset + 4) % 2 ^ 32)
        (mmio_write32 offset value w)
    else Except.ok w

/-- The function `Command_WriteMMIORange32`; `tokens` is the split line, `fuel`
bounds the iterations of its loop. -/
def Command_WriteMMIORange32 (fuel : Nat) (tokens : List String) (w : World) :
    Except Fault (Bool × World) := do
  let (token, w) ← Command_Argv tokens 1 w
  let offset_start := to_uint32 (strtol token 16)
  let (token, w) ← Command_Argv tokens 2 w
  let offset_end := to_uint32 (strtol token 16)
  let (token, w) ← Command_Argv tokens 3 w
  let value := to_uint32 (strtol token 16)
  let w ← Command_WriteMMIORange32_loop offset_end value fuel offset_start w
  return (true, w)

/-- The `for` loop of `Command_WriteVRAMRange8`; the first argument bounds the number
of iterations. -/
def Command_WriteVRAMRange8_loop (offset_end value : Nat) :
    Nat → Nat → World → Except Fault World
  | 0, _, _ => Except.error Fault.out_of_fuel
  | fuel + 1, offset, w =>
    if offset < offset_end then
      Command_WriteVRAMRange8_loop offset_end value fuel ((offset + 1) % 2 ^ 32)
        (nv_dfb_write8 offset value w)
    else Except.ok w

/-- The function `Command_WriteVRAMRange8`; `tokens` is the split line, `fuel` bounds
the iterations of its loop. -/
def Command_WriteVRAMRange8 (fuel : Nat) (tokens : List String) (w : World) :
    Except Fault (Bool × World) := do
  let (token, w) ← Command_Argv tokens 1 w
  let offset_start := to_uint32 (strtol token 16)
  let (token, w) ← Command_Argv tokens 2 w
  let offset_end := to_uint32 (strtol token 16)
  let (token, w) ← Command_Argv tokens 3 w
  let value := to_uint32 (strtol token 16)
  let w ← Command_WriteVRAMRange8_loop offset_end value fuel offset_start w
  return (true, w)

/-- The `for` loop of `Command_WriteVRAMRange16`; the first argument bounds the
number of iterations. -/
def Command_WriteVRAMRange16_loop (offset_end value : Nat) :
    Nat → Nat → World → Except Fault World
  | 0, _, _ => Except.error Fault.out_of_fuel
  | fuel + 1, offset, w =>
    if offset < offset_end then
      Command_WriteVRAMRange16_loop offset_end value fuel ((offset + 2) % 2 ^ 32)
        (nv_dfb_write16 offset value w)
    else Except.ok w

/-- The function `Command_WriteVRAMRange16`; `tokens` is the split line, `fuel`
bounds the iterations of its loop. -/
def Command_WriteVRAMRange16 (fuel : Nat) (tokens : List String) (w : World) :
    Except Fault (Bool × World) := do
  let (token, w) ← Command_Argv tokens 1 w
  let offset_start := to_uint32 (strtol token 16)
  let (token, w) ← Command_Argv tokens 2 w
  let offset_end := to_uint32 (strtol token 16)
  let (token, w) ← Command_Argv tokens 3 w
  let value := to_uint32 (strtol token 16)
  let w ← Command_WriteVRAMRange16_loop offset_end value fuel offset_start w
  return (true, w)

/-- The `for` loop of `Command_WriteVRAMRange32`; the first argument bounds the
number of iterations. -/
def Command_WriteVRAMRange32_loop (offset_end value : Nat) :
    Nat → Nat → World → Except Fault World
  | 0, _, _ => Except.error Fault.out_of_fuel
  | fuel + 1, offset, w =>
    if offset < offset_end then
      Command_WriteVRAMRange32_loop offset_end value fuel ((offset + 4) % 2 ^ 32)
        (nv_dfb_write32 offset value w)
    else Except.ok w

/-- The function `Command_WriteVRAMRange32`; `tokens` is the split line, `fuel`
bounds the iterations of its loop. -/
def Command_WriteVRAMRange32 (fuel : Nat) (tokens : List String) (w : World) :
    Except Fault (Bool × World) := do
  let (token, w) ← Command_Argv tokens 1 w
  let offset_start := to_uint32 (strtol token 16)
  let (token, w) ← Command_Argv tokens 2 w
  let offset_end := to_uint32 (strtol token 16)
  let (token, w) ← Command_Argv tokens 3 w
  let value := to_uint32 (strtol token 16)
  let w ← Command_WriteVRAMRange32_loop offset_end value fuel offset_start w
  return (true, w)

/-- The function `Command_ReadMMIOConsole8`; `tokens` is the split line. -/
def Command_ReadMMIOConsole8 (tokens : List String) (w : World) :
    Except Fault (Bool × World) := do
  let (token, w) ← Command_Argv tokens 1 w
  let offset := to_uint32 (strtol token 16)
  let (token, w) ← Command_Argv tokens 2 w
  let value := to_uint32 (strtol token 16)
  let w := Logging_Write log_level.message "Command_ReadMMIOConsole8: %02x = %02x\n"
    [LogArg.num offset, LogArg.num value] w
  return (true, w)

/-- The function `Command_WriteMMIO32`; `tokens` is the split line.  The two tokens
are asked for a second time as arguments of the log line; C leaves the order of
these two calls open, and they are made here from the last argument to the first, as
the target's calling convention evaluates them. -/
def Command_WriteMMIO32 (tokens : List String) (w : World) :
    Except Fault (Bool × World) := do
  let (token, w) ← Command_Argv tokens 1 w
  let offset := to_uint32 (strtol token 16)
  let (token, w) ← Command_Argv tokens 2 w
  let value := to_uint32 (strtol token 16)
  let (argv2, w) ← Command_Argv tokens 2 w
  let (argv1, w) ← Command_Argv tokens 1 w
  let w := Logging_Write log_level.debug "Command_WriteMMIO32 %s:%08x %s:%08x\n"
    [LogArg.str argv1, LogArg.num offset, LogArg.str argv2, LogArg.num value] w
  let w := mmio_write32 offset value w
  return (true, w)

/-- The function `Command_ReadMMIOConsole32`; `tokens` is the split line. -/
def Command_ReadMMIOConsole32 (tokens : List String) (w : World) :
    Except Fault (Bool × World) := do
  let (token, w) ← Command_Argv tokens 1 w
  let offset := to_uint32 (strtol token 16)
  let (value, w) := mmio_read32 offset w
  let w := Logging_Write log_level.message "Command_ReadMMIOConsole32: %08x = %08x\n"
    [LogArg.num offset, LogArg.num value] w
  return (true, w)

/-- Modelled from the spec: the struct `nv_config_test_entry_t` is declared in
`config/config.h`, which is not among the sources.  Spec 3, "ConfigTestEntry": "each
holds a name and a resolved handler"; `tests.c` reads its fields `name`,
`test_function` and `next`.  The chain through `next` is a list of these records; a
handler is a C function `bool (*) (void)` acting on the globals and the host, `none`
is a `NULL` pointer. -/
structure nv_config_test_entry_t where
  name : String
  test_function : Option (World → Bool × World)

/-- The function `Test_Get` of `tests.c`; `test_list_head` is `config.test_list_head`
(the runtime selection list, built by the configuration loader), `none` is `NULL`. -/
def Test_Get (test_list_head : List nv_config_test_entry_t) (test_name : String) :
    Option nv_config_test_entry_t :=
  match test_list_head with
  | [] => none
  | test_entry :: next =>
    if test_entry.name = test_name then some test_entry
    else Test_Get next test_name

/-- The function `Command_RunTest`; `test_list_head` is `config.test_list_head`,
`tokens` is the split line.  The call `test->test_function ()` is made without a
check of the pointer. -/
def Command_RunTest (test_list_head : List nv_config_test_entry_t) (tokens : List String)
    (w : World) : Except Fault (Bool × World) := do
  let (test_name, w) ← Command_Argv tokens 1 w
  match Test_Get test_list_head test_name with
  | some test =>
    match test.test_function with
    | some test_function =>
      let w := w.emit (Event.test_function test.name)
      return test_function w
    | none => throw Fault.null_test_function
  | none =>
    let w := Logging_Write log_level.message "Tried to run invalid test %s!"
      [LogArg.str test_name] w
    return (false, w)

/-- Whether `c` is a hexadecimal digit: `0-9`, `a-f` or `A-F`. -/
def is_hex_digit (c : Char) : Bool :=
  (48 ≤ c.toNat && c.toNat ≤ 57) || (97 ≤ c.toNat && c.toNat ≤ 102) ||
    (65 ≤ c.toNat && c.toNat ≤ 70)

/-- The value of the hexadecimal digit `c`. -/
def hex_digit_value (c : Char) : Nat :=
  if c.toNat ≤ 57 then c.toNat - 48
  else if 97 ≤ c.toNat then c.toNat - 97 + 10
  else c.toNat - 65 + 10

/-- The number that a string of hexadecimal digits denotes, most significant digit
first. -/
def hex_value : List Char → Nat
  | [] => 0
  | c :: cs => hex_digit_value c * 16 ^ cs.length + hex_value cs

/-! ## Projections of the trace -/

/-- The `PCI_WriteConfig16` calls recorded in a trace, in order: bus, function,
offset, value. -/
def pci_config_writes (tr : List Event) : List (Nat × Nat × Nat × Nat) :=
  tr.filterMap fun e =>
    match e with
    | Event.pci_write_config16 bus function offset value =>
      some (bus, function, offset, value)
    | _ => none

/-- The `mmio_write8` and `mmio_write32` calls recorded in a trace, in order: offset
and value. -/
def mmio_writes (tr : List Event) : List (Nat × Nat) :=
  tr.filterMap fun e =>
    match e with
    | Event.mmio_write8 offset value => some (offset, value)
    | Event.mmio_write32 offset value => some (offset, value)
    | _ => none

/-- The `nv_dfb_write8/16/32` calls recorded in a trace, in order: offset and value. -/
def dfb_writes (tr : List Event) : List (Nat × Nat) :=
  tr.filterMap fun e =>
    match e with
    | Event.nv_dfb_write8 offset value => some (offset, value)
    | Event.nv_dfb_write16 offset value => some (offset, value)
    | Event.nv_dfb_write32 offset value => some (offset, value)
    | _ => none

/-- The indices of the `Command_Argv` calls recorded in a trace, in order. -/
def argv_calls (tr : List Event) : List Nat :=
  tr.filterMap fun e =>
    match e with
    | Event.command_argv argv => some argv
    | _ => none

/-- The offsets of the `mmio_read8` and `mmio_read32` calls recorded in a trace, in
order. -/
def mmio_reads (tr : List Event) : List Nat :=
  tr.filterMap fun e =>
    match e with
    | Event.mmio_read8 offset => some offset
    | Event.mmio_read32 offset => some offset
    | _ => none

/-- The indices at which the table `supported_devices` is read in a trace, in order. -/
def supported_devices_reads (tr : List Event) : List Nat :=
  tr.filterMap fun e =>
    match e with
    | Event.read_supported_devices index => some index
    | _ => none

/-- The port reads and writes (`inportb`, `inportw`, `outportb`, `outportw`) recorded
in a trace, in order. -/
def port_io (tr : List Event) : List Event :=
  tr.filter fun e =>
    match e with
    | Event.inportb _ => true
    | Event.inportw _ => true
    | Event.outportb _ _ => true
    | Event.outportw _ _ => true
    | _ => false

/-- The DPMI calls (physical mapping, descriptor allocation, segment base and limit)
recorded in a trace, in order. -/
def dpmi_calls (tr : List Event) : List Event :=
  tr.filter fun e =>
    match e with
    | Event.dpmi_physical_address_mapping _ _ => true
    | Event.dpmi_allocate_ldt_descriptors _ => true
    | Event.dpmi_set_segment_base_address _ _ => true
    | Event.dpmi_set_segment_limit _ _ => true
    | _ => false

/-- The names of the tests whose `test_function` was called in a trace, in order. -/
def test_function_calls (tr : List Event) : List String :=
  tr.filterMap fun e =>
    match e with
    | Event.test_function name => some name
    | _ => none

/-- What a step from `w` to `v` leaves alone of the segment bookkeeping: the two
selectors held in `current_device`, the count of descriptor allocations, the host's
DPMI answers and the list of DPMI calls made so far. -/
def selector_frame (w v : World) : Prop :=
  v.current_device.bar0_selector = w.current_device.bar0_selector ∧
  v.current_device.bar1_selector = w.current_device.bar1_selector ∧
  v.dpmi_ldt_calls = w.dpmi_ldt_calls ∧
  v.dpmi_ldt = w.dpmi_ldt ∧
  v.dpmi_mapping = w.dpmi_mapping ∧
  dpmi_calls v.trace = dpmi_calls w.trace

/-- The PCI command register (configuration offset `0x04`, 16 bits) of the device at
the coordinates held in `current_device`. -/
def pci_command (w : World) : Nat :=
  w.pci_config16 w.current_device.bus_number w.current_device.function_number
    PCI_CFG_OFFSET_COMMAND

/-- What a step from `w` to `v` leaves alone of the PCI command context: the 16-bit
view of configuration space, the bus and function numbers held in `current_device`,
and the list of `PCI_WriteConfig16` calls made so far. -/
def pci_frame (w v : World) : Prop :=
  v.pci_config16 = w.pci_config16 ∧
  v.current_device.bus_number = w.current_device.bus_number ∧
  v.current_device.function_number = w.current_device.function_number ∧
  pci_config_writes v.trace = pci_config_writes w.trace

/-! ## Concrete hosts used to evaluate the operations -/

/-- A host with a single Voodoo3 at bus 1, function 0, whose BAR2 reads `0xD001`
and whose `lfbMemoryConfig` register (ports `0xD018`, `0xD01A`) holds `0x00000003`. -/
def voodoo3_host : World :=
  { World.blank with
    pci_find_device := fun d v => if d = 0x0005 ∧ v = 0x121A then some (1, 0) else none,
    pci_config32 := fun _ _ o => if o = 0x18 then 0xD001 else 0xE0000000,
    port16 := fun p => if p = 0xD018 then 0x0003 else 0 }

/-- A host with a single Rage 128 Pro (PF) at bus 1, function 0, whose
`CONFIG_MEMSIZE` register reads `0x0000000A`. -/
def r128_host : World :=
  { World.blank with
    pci_find_device := fun d v => if d = 0x5046 ∧ v = 0x1002 then some (1, 0) else none,
    mmio32 := fun o => if o = 0xF8 then 0x0000000A else 0 }

/-- A host with a single Rage 128 Pro (PF) at bus 1, function 0, whose
`CONFIG_MEMSIZE` reads `0x00000001`, whose `CONFIG_CNTL` reads `0xDEADBEEF` and whose
PCI command register holds `0x0003` (I/O and memory enabled, bus mastering off). -/
def r128_cntl_host : World :=
  { World.blank with
    pci_find_device := fun d v => if d = 0x5046 ∧ v = 0x1002 then some (1, 0) else none,
    pci_config16 := fun _ _ o => if o = 0x04 then 0x0003 else 0,
    mmio32 := fun o => if o = 0xF8 then 0x00000001 else if o = 0xE0 then 0xDEADBEEF else 0 }

/-- A host on which only the all-zero pair (device id 0, vendor id 0) is reported
as present. -/
def zero_pair_host : World :=
  { World.blank with
    pci_find_device := fun d v => if d = 0 ∧ v = 0 then some (0, 0) else none }

/-- A host whose register window reads `0xAB` at every offset through 8-bit accesses
and `0x12345678` through 32-bit accesses. -/
def mmio_ab_host : World :=
  { World.blank with mmio8 := fun _ => 0xAB, mmio32 := fun _ => 0x12345678 }

/-- A runtime selection list of two tests of the same name `"a"`, the first failing
and the second succeeding, followed by a test `"b"`; each handler writes one byte to
the register window. -/
def two_tests_list : List nv_config_test_entry_t :=
  [ ⟨"a", some fun w => (false, mmio_write8 0 1 w)⟩,
    ⟨"a", some fun w => (true, mmio_write8 0 2 w)⟩,
    ⟨"b", some fun w => (true, mmio_write8 0 3 w)⟩ ]

/-! ## Theorems: the test registry -/

/-- The loop of `Test_IsAvailableForGPU`, started on a suffix `row :: rest` of
`nv_tests` that consists of rows with a handler followed by one row `s` without,
returns, and returns true exactly when one of the rows before `s` matches. -/
theorem Test_IsAvailableForGPU_loop_spec (test_name : String) (vendor_id device_id : Nat)
    (s : nv_test_t) (hs : s.test_function = none) :
    ∀ (pre : List nv_test_t) (i fuel : Nat) (row : nv_test_t) (rest : List nv_test_t),
      row :: rest = pre ++ [s] → nv_tests.drop i = row :: rest → rest.length < fuel →
      i + rest.length < 2 ^ 32 → (∀ t ∈ pre, t.test_function ≠ none) →
      ∃ b, Test_IsAvailableForGPU_loop test_name vendor_id device_id fuel i row = some b ∧
        (b = true ↔ ∃ t ∈ pre, t.name = test_name ∧ vendor_id = t.required_vendor_id
            ∧ device_id = t.required_device_id) := by
  intro pre
  induction pre with
  | nil =>
    intro i fuel row rest hsplit _ hfuel _ _
    obtain ⟨f, rfl⟩ : ∃ f, fuel = f + 1 := ⟨fuel - 1, by omega⟩
    simp only [List.nil_append, List.cons.injEq] at hsplit
    obtain ⟨rfl, rfl⟩ := hsplit
    exact ⟨false, by simp [Test_IsAvailableForGPU_loop, hs], by simp⟩
  | cons p pre ih =>
    intro i fuel row rest hsplit hdrop hfuel hidx hpre
    simp only [List.cons_append, List.cons.injEq] at hsplit
    obtain ⟨rfl, hrest⟩ := hsplit
    have hrow : row.test_function ≠ none := hpre row (List.mem_cons_self _ _)
    obtain ⟨r, rest2, hr⟩ : ∃ r rest2, rest = r :: rest2 := by
      cases pre with
      | nil => exact ⟨s, [], by simpa using hrest⟩
      | cons q pre2 => exact ⟨q, pre2 ++ [s], by simpa using hrest⟩
    subst hr
    obtain ⟨f, rfl⟩ : ∃ f, fuel = f + 1 := ⟨fuel - 1, by simp at hfuel; omega⟩
    have hi : (i + 1) % 2 ^ 32 = i + 1 := Nat.mod_eq_of_lt (by simp at hidx; omega)
    have hdrop2 : nv_tests.drop (i + 1) = r :: rest2 := by
      have := congrArg (List.drop 1) hdrop
      simpa [List.drop_drop, Nat.add_comm] using this
    have hnext : nv_tests[i + 1]? = some r := by
      have := congrArg (fun l => l[0]?) hdrop2
      simpa using this
    by_cases hq : row.name = test_name ∧ vendor_id = row.required_vendor_id
        ∧ device_id = row.required_device_id
    · exact ⟨true, by simp [Test_IsAvailableForGPU_loop, hrow, hq],
        by simpa using Or.inl hq⟩
    · obtain ⟨b, hb, hiff⟩ := ih (i + 1) f r rest2 hrest hdrop2
        (by simp at hfuel; omega) (by simp at hidx ⊢; omega)
        (fun t ht => hpre t (List.mem_cons_of_mem _ ht))
      refine ⟨b, ?_, ?_⟩
      · rw [Test_IsAvailableForGPU_loop]
        simp only [hq, hi, hnext]
        simpa [hrow] using hb
      · rw [hiff]
        constructor
        · rintro ⟨t, ht, h⟩
          exact ⟨t, List.mem_cons_of_mem _ ht, h⟩
        · rintro ⟨t, ht, h⟩
          rcases List.mem_cons.mp ht with rfl | ht
          · exact absurd h hq
          · exact ⟨t, ht, h⟩

/-- `Test_IsAvailableForGPU` returns for every name and every bound device, and
returns true exactly when `nv_tests` has a row with a handler (a non-sentinel row)
whose name and required ids are the given name and the bound ids. -/
theorem Test_IsAvailableForGPU_spec (cd : nv_device_t) (test_name : String) :
    ∃ b, Test_IsAvailableForGPU cd test_name = some b ∧
      (b = true ↔ ∃ t ∈ nv_tests, t.test_function ≠ none ∧ t.name = test_name
          ∧ t.required_vendor_id = cd.device_info.vendor_id
          ∧ t.required_device_id = cd.device_info.device_id) := by
  have hsplit : nv_tests = nv_tests.dropLast ++ [⟨0, 0, "", "", none⟩] := by decide
  have hpre : ∀ t ∈ nv_tests.dropLast, t.test_function ≠ none := by decide
  obtain ⟨row, rest, hrr⟩ : ∃ row rest, nv_tests = row :: rest := ⟨_, _, rfl⟩
  obtain ⟨b, hb, hiff⟩ := Test_IsAvailableForGPU_loop_spec test_name
    cd.device_info.vendor_id cd.device_info.device_id ⟨0, 0, "", "", none⟩ rfl
    nv_tests.dropLast 0 (nv_tests.length + 1) row rest (hrr ▸ hsplit) (by simpa using hrr)
    (by rw [hrr]; simp; omega)
    (by have := congrArg List.length hrr; simp [nv_tests] at this; omega) hpre
  refine ⟨b, ?_, ?_⟩
  · have h0 : nv_tests[0]? = some row := by rw [hrr]; simp
    simp only [Test_IsAvailableForGPU, h0]
    exact hb
  · rw [hiff]
    constructor
    · rintro ⟨t, ht, h1, h2, h3⟩
      exact ⟨t, by rw [hsplit]; exact List.mem_append_left _ ht, hpre t ht, h1,
        h2.symm, h3.symm⟩
    · rintro ⟨t, ht, h0, h1, h2, h3⟩
      rw [hsplit] at ht
      rcases List.mem_append.mp ht with ht | ht
      · exact ⟨t, ht, h1, h2.symm, h3.symm⟩
      · simp at ht
        subst ht
        exact absurd rfl h0

/-- C1: for every test name and every bound (vendor id, device id) pair,
`Test_IsAvailableForGPU` returns, and returns true if and only if `nv_tests` contains
a non-sentinel row (one with a handler) whose name is the given name and whose
required vendor and device ids are the bound pair; and whenever the bound pair is
Voodoo3 (`0x121A:0x0005`), `Test_IsAvailableForGPU ("R128_DumpMfgInfo")` is false. -/
theorem Test_IsAvailableForGPU_iff_row (cd : nv_device_t) (test_name : String) :
    (∃ b, Test_IsAvailableForGPU cd test_name = some b ∧
      (b = true ↔ ∃ t ∈ nv_tests, t.test_function ≠ none ∧ t.name = test_name
          ∧ t.required_vendor_id = cd.device_info.vendor_id
          ∧ t.required_device_id = cd.device_info.device_id)) ∧
    (cd.device_info.vendor_id = 0x121A → cd.device_info.device_id = 0x0005 →
      Test_IsAvailableForGPU cd "R128_DumpMfgInfo" = some false) := by
  refine ⟨Test_IsAvailableForGPU_spec cd test_name, fun hv hd => ?_⟩
  obtain ⟨b, hb, hiff⟩ := Test_IsAvailableForGPU_spec cd "R128_DumpMfgInfo"
  cases b with
  | false => exact hb
  | true =>
    obtain ⟨t, ht, _, hname, hven, _⟩ := hiff.mp rfl
    rw [hv] at hven
    have key : ∀ t ∈ nv_tests, t.name = "R128_DumpMfgInfo" →
        t.required_vendor_id = 0x121A → False := by decide
    exact (key t ht hname hven).elim

/-- C1 at a concrete input: the Voodoo3 registry entry is bound, the name asked for
is the Rage128 test `R128_DumpMfgInfo`; the answer is false. -/
theorem Test_IsAvailableForGPU_iff_row_witness :
    Test_IsAvailableForGPU
      { World.blank.current_device with
        device_info := ⟨0x0005, 0x121A, "3Dfx Voodoo3", some InitFn.voodoo3_init,
          some ShutdownFn.voodoo3_shutdown,
          some SectionAppliesFn.voodoo3_gpus_section_applies,
          some SectionParseFn.voodoo3_gpus_parse_section⟩ }
      "R128_DumpMfgInfo" = some false :=
  (Test_IsAvailableForGPU_iff_row _ "R128_DumpMfgInfo").2 rfl rfl

/-! ## Theorems: detection -/

/-- What `GPU_Detect` does, by the outcome of the probes: it always returns; when
some table entry (the last, all-zero one included) is reported present it returns
true with the first such entry bound and the probe's coordinates stored; otherwise
it returns false and leaves every global as it was. -/
theorem GPU_Detect_spec (w : World) :
    (∃ e bus fn w2, supported_devices.find? (probe_found w) = some e ∧
        w.pci_find_device e.device_id e.vendor_id = some (bus, fn) ∧
        GPU_Detect w = some (true, w2) ∧
        w2.current_device = { w.current_device with
          device_info := e, bus_number := bus, function_number := fn } ∧
        w2.r128_state = w.r128_state ∧ w2.voodoo3_state = w.voodoo3_state ∧
        w2.voodoo3_io_base_port = w.voodoo3_io_base_port) ∨
    (∃ w2, supported_devices.find? (probe_found w) = none ∧
        GPU_Detect w = some (false, w2) ∧ w2.current_device = w.current_device ∧
        w2.r128_state = w.r128_state ∧ w2.voodoo3_state = w.voodoo3_state ∧
        w2.voodoo3_io_base_port = w.voodoo3_io_base_port) := by
  rcases h0 : w.pci_find_device 0x5046 0x1002 with _ | ⟨b0, f0⟩
  · rcases h1 : w.pci_find_device 0x5052 0x1002 with _ | ⟨b1, f1⟩
    · rcases h2 : w.pci_find_device 0x0005 0x121A with _ | ⟨b2, f2⟩
      · rcases h3 : w.pci_find_device 0x0003 0x121A with _ | ⟨b3, f3⟩
        · rcases h4 : w.pci_find_device 0 0 with _ | ⟨b4, f4⟩
          · right
            simp [GPU_Detect, GPU_Detect_loop, supported_devices, PCI_DevicePresent,
              probe_found, Logging_Write, World.emit, PCI_DEVICE_RAGE128_PRO_PF,
              PCI_VENDOR_ATI, PCI_DEVICE_RAGE128_PRO_PR, PCI_VENDOR_3DFX, PCI_DEVICE_VOODOO3,
              PCI_DEVICE_BANSHEE, h0, h1, h2, h3, h4]
          · left
            simp [GPU_Detect, GPU_Detect_loop, supported_devices, PCI_DevicePresent,
              probe_found, Logging_Write, World.emit, PCI_DEVICE_RAGE128_PRO_PF,
              PCI_VENDOR_ATI, PCI_DEVICE_RAGE128_PRO_PR, PCI_VENDOR_3DFX, PCI_DEVICE_VOODOO3,
              PCI_DEVICE_BANSHEE, h0, h1, h2, h3, h4]
        · left
          simp [GPU_Detect, GPU_Detect_loop, supported_devices, PCI_DevicePresent,
            probe_found, Logging_Write, World.emit, PCI_DEVICE_RAGE128_PRO_PF,
            PCI_VENDOR_ATI, PCI_DEVICE_RAGE128_PRO_PR, PCI_VENDOR_3DFX, PCI_DEVICE_VOODOO3,
            PCI_DEVICE_BANSHEE, h0, h1, h2, h3]
      · left
        simp [GPU_Detect, GPU_Detect_loop, supported_devices, PCI_DevicePresent,
          probe_found, Logging_Write, World.emit, PCI_DEVICE_RAGE128_PRO_PF,
          PCI_VENDOR_ATI, PCI_DEVICE_RAGE128_PRO_PR, PCI_VENDOR_3DFX, PCI_DEVICE_VOODOO3,
          PCI_DEVICE_BANSHEE, h0, h1, h2]
    · left
      simp [GPU_Detect, GPU_Detect_loop, supported_devices, PCI_DevicePresent,
        probe_found, Logging_Write, World.emit, PCI_DEVICE_RAGE128_PRO_PF,
        PCI_VENDOR_ATI, PCI_DEVICE_RAGE128_PRO_PR, PCI_VENDOR_3DFX, PCI_DEVICE_VOODOO3,
        PCI_DEVICE_BANSHEE, h0, h1]
  · left
    simp [GPU_Detect, GPU_Detect_loop, supported_devices, PCI_DevicePresent,
      probe_found, Logging_Write, World.emit, PCI_DEVICE_RAGE128_PRO_PF,
      PCI_VENDOR_ATI, PCI_DEVICE_RAGE128_PRO_PR, PCI_VENDOR_3DFX, PCI_DEVICE_VOODOO3,
      PCI_DEVICE_BANSHEE, h0]

/-- C2: for every probe outcome in which at least one non-sentinel entry of
`supported_devices` (vendor id not zero) is found, `GPU_Detect` returns true and
`current_device.device_info` is the first entry, in table order, whose probe succeeds;
and every run against a host with the same found / not-found outcome, whatever its
other state, returns true with that same descriptor bound. -/
theorem GPU_Detect_binds_first_found (w : World)
    (h : ∃ e ∈ supported_devices, e.vendor_id ≠ 0 ∧ probe_found w e = true) :
    ∃ e w2, GPU_Detect w = some (true, w2) ∧
      supported_devices.find? (probe_found w) = some e ∧
      w2.current_device.device_info = e ∧
      ∀ v : World,
        (∀ d vd, (v.pci_find_device d vd).isSome = (w.pci_find_device d vd).isSome) →
        ∃ v2, GPU_Detect v = some (true, v2) ∧ v2.current_device.device_info = e := by
  obtain ⟨e0, he0, _, hfound⟩ := h
  have hdet : ∀ v : World, ∀ e, supported_devices.find? (probe_found v) = some e →
      ∃ v2, GPU_Detect v = some (true, v2) ∧ v2.current_device.device_info = e := by
    intro v e hfind
    rcases GPU_Detect_spec v with ⟨e2, bus, fn, v2, hf, _, hrun, hcd, _⟩ | ⟨v2, hf, _⟩
    · rw [hfind] at hf
      obtain rfl := Option.some.inj hf
      exact ⟨v2, hrun, by rw [hcd]⟩
    · rw [hfind] at hf
      exact absurd hf (by simp)
  rcases hfw : supported_devices.find? (probe_found w) with _ | e
  · rw [List.find?_eq_none] at hfw
    exact absurd hfound (hfw e0 he0)
  · obtain ⟨w2, hrun, hcd⟩ := hdet w e hfw
    refine ⟨e, w2, hrun, rfl, hcd, fun v hv => hdet v e ?_⟩
    have hpf : probe_found v = probe_found w := by
      funext x
      exact hv x.device_id x.vendor_id
    rw [hpf]
    exact hfw

/-- C2 at a concrete input: on a host whose only supported card is a Voodoo3, the
run returns true and binds the third table entry, "3Dfx Voodoo3". -/
theorem GPU_Detect_binds_first_found_witness :
    ∃ w2, GPU_Detect voodoo3_host = some (true, w2) ∧
      w2.current_device.device_info = ⟨0x0005, 0x121A, "3Dfx Voodoo3",
        some InitFn.voodoo3_init, some ShutdownFn.voodoo3_shutdown,
        some SectionAppliesFn.voodoo3_gpus_section_applies,
        some SectionParseFn.voodoo3_gpus_parse_section⟩ := by
  obtain ⟨e, w2, hrun, hfind, hcd, _⟩ := GPU_Detect_binds_first_found voodoo3_host
    ⟨⟨0x0005, 0x121A, "3Dfx Voodoo3", some InitFn.voodoo3_init,
        some ShutdownFn.voodoo3_shutdown,
        some SectionAppliesFn.voodoo3_gpus_section_applies,
        some SectionParseFn.voodoo3_gpus_parse_section⟩,
      by decide, by decide, by decide⟩
  have he : supported_devices.find? (probe_found voodoo3_host)
      = some ⟨0x0005, 0x121A, "3Dfx Voodoo3", some InitFn.voodoo3_init,
        some ShutdownFn.voodoo3_shutdown,
        some SectionAppliesFn.voodoo3_gpus_section_applies,
        some SectionParseFn.voodoo3_gpus_parse_section⟩ := by decide
  rw [he] at hfind
  exact ⟨w2, hrun, hcd.trans (Option.some.inj hfind).symm⟩

/-- C3 (violated by the code): on a host with no supported card, `GPU_Detect` probes
the four real entries and then calls `PCI_DevicePresent` with the sentinel pair
(device id 0, vendor id 0) before returning false; and on a host that answers the
all-zero probe positively it returns true with the sentinel entry bound. -/
theorem GPU_Detect_probes_sentinel :
    (∃ w2, GPU_Detect World.blank = some (false, w2) ∧
      probe_calls w2.trace
        = [(0x5046, 0x1002), (0x5052, 0x1002), (0x0005, 0x121A), (0x0003, 0x121A), (0, 0)]) ∧
    (∃ w2, GPU_Detect zero_pair_host = some (true, w2) ∧
      w2.current_device.device_info = ⟨0, 0, "", none, none, none, none⟩) :=
  ⟨⟨_, rfl, by decide⟩, ⟨_, rfl, by decide⟩⟩

/-- C4: if the probe fails for every entry of `supported_devices`, `GPU_Detect`
returns false and `current_device` is exactly what it was before the call (and so
are the driver state records and the Voodoo3 base port). -/
theorem GPU_Detect_none_found (w : World)
    (h : ∀ e ∈ supported_devices, probe_found w e = false) :
    ∃ w2, GPU_Detect w = some (false, w2) ∧ w2.current_device = w.current_device ∧
      w2.r128_state = w.r128_state ∧ w2.voodoo3_state = w.voodoo3_state ∧
      w2.voodoo3_io_base_port = w.voodoo3_io_base_port := by
  rcases GPU_Detect_spec w with ⟨e, bus, fn, w2, hf, hp, _⟩ | ⟨w2, _, hrun, hrest⟩
  · have hmem := List.mem_of_find?_eq_some hf
    have := h e hmem
    simp [probe_found, hp] at this
  · exact ⟨w2, hrun, hrest⟩

/-- C4 at a concrete input: the host with nothing on the bus. -/
theorem GPU_Detect_none_found_witness :
    ∃ w2, GPU_Detect World.blank = some (false, w2) ∧
      w2.current_device = World.blank.current_device ∧
      w2.r128_state = World.blank.r128_state ∧
      w2.voodoo3_state = World.blank.voodoo3_state ∧
      w2.voodoo3_io_base_port = World.blank.voodoo3_io_base_port :=
  GPU_Detect_none_found World.blank (by decide)

/-- C5: `GPU_Detect` always returns, and after a successful return
`current_device.bus_number` and `current_device.function_number` are the bus and
function coordinates that the PCI probe gives for the device that was bound. -/
theorem GPU_Detect_stores_coordinates (w : World) :
    (∃ r, GPU_Detect w = some r) ∧
    ∀ w2, GPU_Detect w = some (true, w2) →
      w.pci_find_device w2.current_device.device_info.device_id
          w2.current_device.device_info.vendor_id
        = some (w2.current_device.bus_number, w2.current_device.function_number) := by
  rcases GPU_Detect_spec w with ⟨e, bus, fn, w2, _, hp, hrun, hcd, _⟩ | ⟨w2, _, hrun, _⟩
  · refine ⟨⟨_, hrun⟩, fun w3 h3 => ?_⟩
    rw [hrun] at h3
    obtain rfl : w2 = w3 := by simpa using h3
    rw [hcd]
    exact hp
  · refine ⟨⟨_, hrun⟩, fun w3 h3 => ?_⟩
    rw [hrun] at h3
    simp at h3

/-- C5 at a concrete input: the Voodoo3 of `voodoo3_host` sits at bus 1, function 0,
and these are the coordinates found in `current_device` after detection. -/
theorem GPU_Detect_stores_coordinates_witness :
    ∃ w2, GPU_Detect voodoo3_host = some (true, w2) ∧
      w2.current_device.bus_number = 1 ∧ w2.current_device.function_number = 0 ∧
      voodoo3_host.pci_find_device w2.current_device.device_info.device_id
          w2.current_device.device_info.vendor_id
        = some (w2.current_device.bus_number, w2.current_device.function_number) :=
  ⟨_, rfl, rfl, rfl, (GPU_Detect_stores_coordinates voodoo3_host).2 _ rfl⟩

/-! ## Theorems: what the host calls leave alone -/

@[simp] theorem World.emit_current_device (w : World) (e : Event) :
    (w.emit e).current_device = w.current_device := rfl

@[simp] theorem World.emit_r128_state (w : World) (e : Event) :
    (w.emit e).r128_state = w.r128_state := rfl

@[simp] theorem World.emit_voodoo3_state (w : World) (e : Event) :
    (w.emit e).voodoo3_state = w.voodoo3_state := rfl

@[simp] theorem World.emit_voodoo3_io_base_port (w : World) (e : Event) :
    (w.emit e).voodoo3_io_base_port = w.voodoo3_io_base_port := rfl

@[simp] theorem World.emit_pci_find_device (w : World) (e : Event) :
    (w.emit e).pci_find_device = w.pci_find_device := rfl

@[simp] theorem World.emit_pci_config8 (w : World) (e : Event) :
    (w.emit e).pci_config8 = w.pci_config8 := rfl

@[simp] theorem World.emit_pci_config16 (w : World) (e : Event) :
    (w.emit e).pci_config16 = w.pci_config16 := rfl

@[simp] theorem World.emit_pci_config32 (w : World) (e : Event) :
    (w.emit e).pci_config32 = w.pci_config32 := rfl

@[simp] theorem World.emit_mmio32 (w : World) (e : Event) :
    (w.emit e).mmio32 = w.mmio32 := rfl

@[simp] theorem World.emit_port8 (w : World) (e : Event) :
    (w.emit e).port8 = w.port8 := rfl

@[simp] theorem World.emit_port16 (w : World) (e : Event) :
    (w.emit e).port16 = w.port16 := rfl

@[simp] theorem World.emit_dpmi_mapping (w : World) (e : Event) :
    (w.emit e).dpmi_mapping = w.dpmi_mapping := rfl

@[simp] theorem World.emit_dpmi_ldt (w : World) (e : Event) :
    (w.emit e).dpmi_ldt = w.dpmi_ldt := rfl

@[simp] theorem World.emit_dpmi_ldt_calls (w : World) (e : Event) :
    (w.emit e).dpmi_ldt_calls = w.dpmi_ldt_calls := rfl

@[simp] theorem World.emit_trace (w : World) (e : Event) :
    (w.emit e).trace = w.trace ++ [e] := rfl

/-! ## Theorems: the `init` functions as sequences of their blocks -/

/-- The function `r128_init` is its five blocks run in order, then the final log line. -/
theorem r128_init_eq_blocks (w : World) :
    r128_init w = (true, Logging_Write log_level.debug "R128 Init: Initialization complete!\n" []
      (r128_init_bus_master (r128_init_straps (r128_init_memsize
        (r128_init_read_ids (r128_init_map_bars w)))))) := rfl

/-- The function `voodoo3_init` is the BAR reads followed, when bit 0 of BAR2 is set,
by its blocks run in order, and by the error log line and `false` otherwise. -/
theorem voodoo3_init_eq_blocks (w : World) :
    voodoo3_init w =
      if (voodoo3_init_read_bars w).2.2.1 &&& 0x01 ≠ 0 then
        (true, Logging_Write log_level.debug "Voodoo3 Init: Initialization complete!\n" []
          (voodoo3_init_command (voodoo3_init_straps (voodoo3_init_memsize
            (voodoo3_init_read_ids
              (voodoo3_init_map_bars (voodoo3_init_read_bars w).1 (voodoo3_init_read_bars w).2.1
                (voodoo3_init_io_base (voodoo3_init_read_bars w).2.2.1
                  (voodoo3_init_read_bars w).2.2.2)))))))
      else
        (false, Logging_Write log_level.error "Voodoo3 - BAR2 is not I/O space! (0x%08lX)\n"
          [LogArg.num (voodoo3_init_read_bars w).2.2.1] (voodoo3_init_read_bars w).2.2.2) := rfl

/-! ## Theorems: Rage128 bring-up -/

/-- The mapping block of `r128_init` leaves the register window contents alone. -/
theorem r128_init_map_bars_mmio32 (w : World) : (r128_init_map_bars w).mmio32 = w.mmio32 := by
  simp [r128_init_map_bars, PCI_ReadConfig32, Logging_Write, dpmi_physical_address_mapping,
    dpmi_allocate_ldt_descriptors, dpmi_set_segment_base_address, dpmi_set_segment_limit]

/-- The id-reading block of `r128_init` leaves the register window contents alone. -/
theorem r128_init_read_ids_mmio32 (w : World) : (r128_init_read_ids w).mmio32 = w.mmio32 := by
  simp [r128_init_read_ids, PCI_ReadConfig16, PCI_ReadConfig8, Logging_Write]

/-- The straps block of `r128_init` leaves `vram_amount` alone. -/
theorem r128_init_straps_vram_amount (w : World) :
    (r128_init_straps w).current_device.vram_amount = w.current_device.vram_amount := by
  simp [r128_init_straps, mmio_read32]

/-- The bus-master block of `r128_init` leaves `current_device` alone. -/
theorem r128_init_bus_master_current_device (w : World) :
    (r128_init_bus_master w).current_device = w.current_device := by
  simp only [r128_init_bus_master, PCI_ReadConfig16, PCI_WriteConfig16, Logging_Write]
  split <;> simp

/-- The memory-size block of `r128_init`, by the value its `mmio_read32` returns. -/
theorem r128_init_memsize_vram_amount (w : World) :
    (r128_init_memsize w).current_device.vram_amount =
      if (mmio_read32 R128_CONFIG_MEMSIZE w).1 &&& 0xF = 0 then 0x800000
      else if (mmio_read32 R128_CONFIG_MEMSIZE w).1 &&& 0xF = 1 then 0x1000000
      else if (mmio_read32 R128_CONFIG_MEMSIZE w).1 &&& 0xF = 2 then 0x2000000
      else 0x1000000 := by
  simp only [r128_init_memsize, R128_CONFIG_MEMSIZE_MASK, R128_CONFIG_MEMSIZE_8MB,
    R128_CONFIG_MEMSIZE_16MB, R128_CONFIG_MEMSIZE_32MB, R128_VRAM_SIZE_8MB,
    R128_VRAM_SIZE_16MB, R128_VRAM_SIZE_32MB, Logging_Write, World.emit_current_device]
  split_ifs <;> rfl

/-- The value `mmio_read32` returns depends on the register window contents only. -/
theorem mmio_read32_congr (o : Nat) (w v : World) (h : w.mmio32 = v.mmio32) :
    (mmio_read32 o w).1 = (mmio_read32 o v).1 := by
  simp [mmio_read32, h]

/-- C6: for every value `m` that the read of `CONFIG_MEMSIZE` (MMIO offset `0xF8`)
returns, `r128_init` returns true and sets `current_device.vram_amount` to 8 MB
(`0x800000`) when `m & 0xF = 0`, to 16 MB (`0x1000000`) when `m & 0xF = 1`, to 32 MB
(`0x2000000`) when `m & 0xF = 2`, and to 16 MB for every other value of `m & 0xF`. -/
theorem r128_init_vram_amount (w : World) (m : Nat)
    (hm : (mmio_read32 R128_CONFIG_MEMSIZE w).1 = m) :
    (r128_init w).1 = true ∧
    (m &&& 0xF = 0 → (r128_init w).2.current_device.vram_amount = 0x800000) ∧
    (m &&& 0xF = 1 → (r128_init w).2.current_device.vram_amount = 0x1000000) ∧
    (m &&& 0xF = 2 → (r128_init w).2.current_device.vram_amount = 0x2000000) ∧
    (m &&& 0xF ≠ 0 → m &&& 0xF ≠ 1 → m &&& 0xF ≠ 2 →
      (r128_init w).2.current_device.vram_amount = 0x1000000) := by
  have hread : (mmio_read32 R128_CONFIG_MEMSIZE (r128_init_read_ids (r128_init_map_bars w))).1
      = m := by
    rw [← hm]
    exact mmio_read32_congr _ _ _
      ((r128_init_read_ids_mmio32 _).trans (r128_init_map_bars_mmio32 w))
  have hv : (r128_init w).2.current_device.vram_amount =
      if m &&& 0xF = 0 then 0x800000 else if m &&& 0xF = 1 then 0x1000000
      else if m &&& 0xF = 2 then 0x2000000 else 0x1000000 := by
    rw [r128_init_eq_blocks]
    simp only [Logging_Write, World.emit_current_device]
    rw [r128_init_bus_master_current_device, r128_init_straps_vram_amount,
      r128_init_memsize_vram_amount, hread]
  refine ⟨by rw [r128_init_eq_blocks], ?_, ?_, ?_, ?_⟩
  · intro h; rw [hv, if_pos h]
  · intro h; rw [hv, h]; rfl
  · intro h; rw [hv, h]; rfl
  · intro h0 h1 h2; rw [hv, if_neg h0, if_neg h1, if_neg h2]

/-- C6 at a concrete input: `CONFIG_MEMSIZE = 0x0000000A` is an unknown code; `r128_init`
returns true with 16 MB. -/
theorem r128_init_vram_amount_witness :
    (r128_init r128_host).1 = true ∧
      (r128_init r128_host).2.current_device.vram_amount = 0x1000000 :=
  ⟨(r128_init_vram_amount r128_host 0x0000000A rfl).1,
    (r128_init_vram_amount r128_host 0x0000000A rfl).2.2.2.2
      (by decide) (by decide) (by decide)⟩

/-! ## Theorems: Voodoo3 bring-up -/

/-- A register read leaves the base port alone. -/
theorem voodoo3_io_read32_voodoo3_io_base_port (o : Nat) (w : World) :
    (voodoo3_io_read32 o w).2.voodoo3_io_base_port = w.voodoo3_io_base_port := by
  simp only [voodoo3_io_read32, inportw]
  split <;> simp

/-- A register read leaves `current_device` alone. -/
theorem voodoo3_io_read32_current_device (o : Nat) (w : World) :
    (voodoo3_io_read32 o w).2.current_device = w.current_device := by
  simp only [voodoo3_io_read32, inportw]
  split <;> simp

/-- The value `voodoo3_io_read32` returns, by the base port and the port contents. -/
theorem voodoo3_io_read32_value (o : Nat) (w : World) :
    (voodoo3_io_read32 o w).1 =
      if w.voodoo3_io_base_port = 0 then 0
      else (w.port16 (((w.voodoo3_io_base_port + o % 2 ^ 16) % 2 ^ 16) % 2 ^ 16) % 2 ^ 16
        ||| (w.port16 (((w.voodoo3_io_base_port + o % 2 ^ 16) % 2 ^ 16 + 2) % 2 ^ 16) % 2 ^ 16)
          <<< 16 % 2 ^ 32) % 2 ^ 32 := by
  simp only [voodoo3_io_read32, inportw]
  split <;> simp only [World.emit_port16]

/-- The value `voodoo3_io_read32` returns depends on the base port and the port
contents only. -/
theorem voodoo3_io_read32_congr (o : Nat) (w v : World)
    (hbase : w.voodoo3_io_base_port = v.voodoo3_io_base_port) (hport : w.port16 = v.port16) :
    (voodoo3_io_read32 o w).1 = (voodoo3_io_read32 o v).1 := by
  rw [voodoo3_io_read32_value, voodoo3_io_read32_value, hbase, hport]

/-- The BAR2 value `voodoo3_init` works with is the one `PCI_ReadConfig32` returns at
offset `0x18` for the bound bus and function. -/
theorem voodoo3_init_read_bars_bar2 (w : World) :
    (voodoo3_init_read_bars w).2.2.1 = (PCI_ReadConfig32 w.current_device.bus_number
      w.current_device.function_number PCI_CFG_OFFSET_BAR2 w).1 := by
  simp [voodoo3_init_read_bars, PCI_ReadConfig32]

/-- The BAR reads leave the port contents alone. -/
theorem voodoo3_init_read_bars_port16 (w : World) :
    (voodoo3_init_read_bars w).2.2.2.port16 = w.port16 := by
  simp [voodoo3_init_read_bars, PCI_ReadConfig32]

/-- The base port after lines 112-113 of `voodoo3_core.c`. -/
theorem voodoo3_init_io_base_voodoo3_io_base_port (b : Nat) (w : World) :
    (voodoo3_init_io_base b w).voodoo3_io_base_port = (b &&& 0xFFFC) % 2 ^ 16 := by
  simp [voodoo3_init_io_base, Logging_Write]

/-- Setting the base port leaves the port contents alone. -/
theorem voodoo3_init_io_base_port16 (b : Nat) (w : World) :
    (voodoo3_init_io_base b w).port16 = w.port16 := by
  simp [voodoo3_init_io_base, Logging_Write]

/-- The mapping block of `voodoo3_init` leaves the base port alone. -/
theorem voodoo3_init_map_bars_voodoo3_io_base_port (b0 b1 : Nat) (w : World) :
    (voodoo3_init_map_bars b0 b1 w).voodoo3_io_base_port = w.voodoo3_io_base_port := by
  simp [voodoo3_init_map_bars, Logging_Write, dpmi_physical_address_mapping,
    dpmi_allocate_ldt_descriptors, dpmi_set_segment_base_address, dpmi_set_segment_limit]

/-- The mapping block of `voodoo3_init` leaves the port contents alone. -/
theorem voodoo3_init_map_bars_port16 (b0 b1 : Nat) (w : World) :
    (voodoo3_init_map_bars b0 b1 w).port16 = w.port16 := by
  simp [voodoo3_init_map_bars, Logging_Write, dpmi_physical_address_mapping,
    dpmi_allocate_ldt_descriptors, dpmi_set_segment_base_address, dpmi_set_segment_limit]

/-- The id-reading block of `voodoo3_init` leaves the base port alone. -/
theorem voodoo3_init_read_ids_voodoo3_io_base_port (w : World) :
    (voodoo3_init_read_ids w).voodoo3_io_base_port = w.voodoo3_io_base_port := by
  simp [voodoo3_init_read_ids, PCI_ReadConfig16, PCI_ReadConfig8, Logging_Write]

/-- The id-reading block of `voodoo3_init` leaves the port contents alone. -/
theorem voodoo3_init_read_ids_port16 (w : World) :
    (voodoo3_init_read_ids w).port16 = w.port16 := by
  simp [voodoo3_init_read_ids, PCI_ReadConfig16, PCI_ReadConfig8, Logging_Write]

/-- The memory-size block of `voodoo3_init` leaves the base port alone. -/
theorem voodoo3_init_memsize_voodoo3_io_base_port (w : World) :
    (voodoo3_init_memsize w).voodoo3_io_base_port = w.voodoo3_io_base_port := by
  simp only [voodoo3_init_memsize, Logging_Write, World.emit_voodoo3_io_base_port]
  split_ifs <;> exact voodoo3_io_read32_voodoo3_io_base_port _ _

/-- The memory-size block of `voodoo3_init`, by the value its register read returns. -/
theorem voodoo3_init_memsize_vram_amount (w : World) :
    (voodoo3_init_memsize w).current_device.vram_amount =
      if (voodoo3_io_read32 VOODOO3_IO_LFBMEMORYCONFIG w).1 &&& 0xF = 0 then 0x400000
      else if (voodoo3_io_read32 VOODOO3_IO_LFBMEMORYCONFIG w).1 &&& 0xF = 1 then 0x800000
      else if (voodoo3_io_read32 VOODOO3_IO_LFBMEMORYCONFIG w).1 &&& 0xF = 2 then 0x1000000
      else if (voodoo3_io_read32 VOODOO3_IO_LFBMEMORYCONFIG w).1 &&& 0xF = 3 then 0x2000000
      else 0x1000000 := by
  simp only [voodoo3_init_memsize, VOODOO3_LFBMEMORYCONFIG_MEMORY_SIZE_MASK,
    VOODOO3_LFBMEMORYCONFIG_MEMORY_SIZE_4MB, VOODOO3_LFBMEMORYCONFIG_MEMORY_SIZE_8MB,
    VOODOO3_LFBMEMORYCONFIG_MEMORY_SIZE_16MB, VOODOO3_LFBMEMORYCONFIG_MEMORY_SIZE_32MB,
    VOODOO3_VRAM_SIZE_4MB, VOODOO3_VRAM_SIZE_8MB, VOODOO3_VRAM_SIZE_16MB,
    VOODOO3_VRAM_SIZE_32MB, Logging_Write, World.emit_current_device]
  split_ifs <;> rfl

/-- The straps block of `voodoo3_init` leaves the base port alone. -/
theorem voodoo3_init_straps_voodoo3_io_base_port (w : World) :
    (voodoo3_init_straps w).voodoo3_io_base_port = w.voodoo3_io_base_port := by
  simp only [voodoo3_init_straps]
  exact voodoo3_io_read32_voodoo3_io_base_port _ _

/-- The straps block of `voodoo3_init` leaves `vram_amount` alone. -/
theorem voodoo3_init_straps_vram_amount (w : World) :
    (voodoo3_init_straps w).current_device.vram_amount = w.current_device.vram_amount := by
  simp only [voodoo3_init_straps]
  rw [voodoo3_io_read32_current_device]

/-- An enable step of `voodoo3_init` leaves the base port alone. -/
theorem voodoo3_init_enable_voodoo3_io_base_port (mask : Nat) (message : String)
    (command : Nat) (w : World) :
    (voodoo3_init_enable mask message command w).2.voodoo3_io_base_port
      = w.voodoo3_io_base_port := by
  simp only [voodoo3_init_enable, PCI_WriteConfig16, Logging_Write]
  split <;> simp

/-- An enable step of `voodoo3_init` leaves `current_device` alone. -/
theorem voodoo3_init_enable_current_device (mask : Nat) (message : String)
    (command : Nat) (w : World) :
    (voodoo3_init_enable mask message command w).2.current_device = w.current_device := by
  simp only [voodoo3_init_enable, PCI_WriteConfig16, Logging_Write]
  split <;> simp

/-- The command block of `voodoo3_init` leaves the base port alone. -/
theorem voodoo3_init_command_voodoo3_io_base_port (w : World) :
    (voodoo3_init_command w).voodoo3_io_base_port = w.voodoo3_io_base_port := by
  simp [voodoo3_init_command, PCI_ReadConfig16, voodoo3_init_enable_voodoo3_io_base_port]

/-- The command block of `voodoo3_init` leaves `current_device` alone. -/
theorem voodoo3_init_command_current_device (w : World) :
    (voodoo3_init_command w).current_device = w.current_device := by
  simp [voodoo3_init_command, PCI_ReadConfig16, voodoo3_init_enable_current_device]

/-- The test `bar2_base & 0x01` of `voodoo3_init` is the test that bit 0 is set. -/
theorem and_one_ne_zero_iff (b : Nat) : b &&& 0x01 ≠ 0 ↔ b % 2 = 1 := by
  rw [Nat.and_one_is_mod]
  omega

/-- A value masked with `0xFFFC` fits in 16 bits. -/
theorem and_fffc_lt (b : Nat) : b &&& 0xFFFC < 2 ^ 16 :=
  lt_of_le_of_lt Nat.and_le_right (by norm_num)

/-- C7: for every BAR2 value `b` with bit 0 set and every value `c` that the register
read of `lfbMemoryConfig` (I/O offset `0x18`, base port `b & 0xFFFC`) returns,
`voodoo3_init` sets `current_device.vram_amount` to 4 MB when `c & 0xF = 0`, 8 MB when
`c & 0xF = 1`, 16 MB when `c & 0xF = 2`, 32 MB when `c & 0xF = 3`, and 16 MB for every
other value of `c & 0xF`. -/
theorem voodoo3_init_vram_amount (w : World) (b c : Nat)
    (hb : (PCI_ReadConfig32 w.current_device.bus_number w.current_device.function_number
      PCI_CFG_OFFSET_BAR2 w).1 = b)
    (hbit : b % 2 = 1)
    (hc : (voodoo3_io_read32 VOODOO3_IO_LFBMEMORYCONFIG
      { w with voodoo3_io_base_port := b &&& 0xFFFC }).1 = c) :
    (c &&& 0xF = 0 → (voodoo3_init w).2.current_device.vram_amount = 0x400000) ∧
    (c &&& 0xF = 1 → (voodoo3_init w).2.current_device.vram_amount = 0x800000) ∧
    (c &&& 0xF = 2 → (voodoo3_init w).2.current_device.vram_amount = 0x1000000) ∧
    (c &&& 0xF = 3 → (voodoo3_init w).2.current_device.vram_amount = 0x2000000) ∧
    (c &&& 0xF ≠ 0 → c &&& 0xF ≠ 1 → c &&& 0xF ≠ 2 → c &&& 0xF ≠ 3 →
      (voodoo3_init w).2.current_device.vram_amount = 0x1000000) := by
  have hbar2 := voodoo3_init_read_bars_bar2 w
  rw [hb] at hbar2
  have hread : (voodoo3_io_read32 VOODOO3_IO_LFBMEMORYCONFIG
      (voodoo3_init_read_ids
        (voodoo3_init_map_bars (voodoo3_init_read_bars w).1 (voodoo3_init_read_bars w).2.1
          (voodoo3_init_io_base b (voodoo3_init_read_bars w).2.2.2)))).1 = c := by
    rw [← hc]
    apply voodoo3_io_read32_congr
    · rw [voodoo3_init_read_ids_voodoo3_io_base_port, voodoo3_init_map_bars_voodoo3_io_base_port,
        voodoo3_init_io_base_voodoo3_io_base_port]
      exact Nat.mod_eq_of_lt (and_fffc_lt b)
    · rw [voodoo3_init_read_ids_port16, voodoo3_init_map_bars_port16,
        voodoo3_init_io_base_port16, voodoo3_init_read_bars_port16]
  have hv : (voodoo3_init w).2.current_device.vram_amount =
      if c &&& 0xF = 0 then 0x400000 else if c &&& 0xF = 1 then 0x800000
      else if c &&& 0xF = 2 then 0x1000000 else if c &&& 0xF = 3 then 0x2000000
      else 0x1000000 := by
    rw [voodoo3_init_eq_blocks, hbar2, if_pos ((and_one_ne_zero_iff b).mpr hbit)]
    simp only [Logging_Write, World.emit_current_device]
    rw [voodoo3_init_command_current_device, voodoo3_init_straps_vram_amount,
      voodoo3_init_memsize_vram_amount, hread]
  refine ⟨?_, ?_, ?_, ?_, ?_⟩
  · intro h; rw [hv, if_pos h]
  · intro h; rw [hv, h]; rfl
  · intro h; rw [hv, h]; rfl
  · intro h; rw [hv, h]; rfl
  · intro h0 h1 h2 h3; rw [hv, if_neg h0, if_neg h1, if_neg h2, if_neg h3]

/-- C7 at a concrete input: BAR2 = `0xD001`, `lfbMemoryConfig` reads `0x00000003`;
`voodoo3_init` records 32 MB. -/
theorem voodoo3_init_vram_amount_witness :
    (voodoo3_init voodoo3_host).2.current_device.vram_amount = 0x2000000 :=
  (voodoo3_init_vram_amount voodoo3_host 0xD001 0x00000003 rfl (by decide) rfl).2.2.2.1
    (by decide)

/-- C8: for every BAR2 value `b` read from PCI configuration offset `0x18`: if bit 0
of `b` is set, `voodoo3_init` leaves the Voodoo3 I/O base port equal to `b & 0xFFFC`,
a 16-bit value; if bit 0 of `b` is clear, `voodoo3_init` returns false. -/
theorem voodoo3_init_bar2_io_base (w : World) (b : Nat)
    (hb : (PCI_ReadConfig32 w.current_device.bus_number w.current_device.function_number
      PCI_CFG_OFFSET_BAR2 w).1 = b) :
    (b % 2 = 1 → (voodoo3_init w).2.voodoo3_io_base_port = b &&& 0xFFFC
      ∧ b &&& 0xFFFC < 2 ^ 16) ∧
    (b % 2 = 0 → (voodoo3_init w).1 = false) := by
  have hbar2 := voodoo3_init_read_bars_bar2 w
  rw [hb] at hbar2
  constructor
  · intro hbit
    refine ⟨?_, and_fffc_lt b⟩
    rw [voodoo3_init_eq_blocks, hbar2, if_pos ((and_one_ne_zero_iff b).mpr hbit)]
    simp only [Logging_Write, World.emit_voodoo3_io_base_port]
    rw [voodoo3_init_command_voodoo3_io_base_port, voodoo3_init_straps_voodoo3_io_base_port,
      voodoo3_init_memsize_voodoo3_io_base_port, voodoo3_init_read_ids_voodoo3_io_base_port,
      voodoo3_init_map_bars_voodoo3_io_base_port, voodoo3_init_io_base_voodoo3_io_base_port]
    exact Nat.mod_eq_of_lt (and_fffc_lt b)
  · intro hbit
    have hz : ¬ (b &&& 0x01 ≠ 0) := fun h => by
      have := (and_one_ne_zero_iff b).mp h
      omega
    rw [voodoo3_init_eq_blocks, hbar2, if_neg hz]

/-- C8 at concrete inputs: BAR2 = `0xD001` resolves to port `0xD000`; BAR2 = `0`
(bit 0 clear) makes `voodoo3_init` return false. -/
theorem voodoo3_init_bar2_io_base_witness :
    (voodoo3_init voodoo3_host).2.voodoo3_io_base_port = 0xD000 ∧
    (voodoo3_init World.blank).1 = false :=
  ⟨((voodoo3_init_bar2_io_base voodoo3_host 0xD001 rfl).1 (by decide)).1,
    (voodoo3_init_bar2_io_base World.blank 0 rfl).2 (by decide)⟩

/-! ## Theorems: the Voodoo3 port window -/

/-- C9: with a non-zero base port `B`, `voodoo3_io_write32 (o, v)` issues exactly two
port writes, in this order: `outportw (B + o, v & 0xFFFF)` and then
`outportw (B + o + 2, (v >> 16) & 0xFFFF)`, the port numbers taken modulo `2 ^ 16`. -/
theorem voodoo3_io_write32_two_words (w : World) (o v : Nat)
    (hB : w.voodoo3_io_base_port ≠ 0) :
    (voodoo3_io_write32 o v w).trace = w.trace ++
      [Event.outportw ((w.voodoo3_io_base_port + o) % 2 ^ 16) (v &&& 0xFFFF),
       Event.outportw ((w.voodoo3_io_base_port + o + 2) % 2 ^ 16) ((v >>> 16) &&& 0xFFFF)] := by
  have h1 : (v &&& 0xFFFF) % 2 ^ 16 % 2 ^ 16 = v &&& 0xFFFF := by
    rw [Nat.mod_mod, Nat.mod_eq_of_lt (lt_of_le_of_lt Nat.and_le_right (by norm_num))]
  have h2 : ((v >>> 16) &&& 0xFFFF) % 2 ^ 16 % 2 ^ 16 = (v >>> 16) &&& 0xFFFF := by
    rw [Nat.mod_mod, Nat.mod_eq_of_lt (lt_of_le_of_lt Nat.and_le_right (by norm_num))]
  have p1 : (w.voodoo3_io_base_port + o % 2 ^ 16) % 2 ^ 16 % 2 ^ 16
      = (w.voodoo3_io_base_port + o) % 2 ^ 16 := by omega
  have p2 : ((w.voodoo3_io_base_port + o % 2 ^ 16) % 2 ^ 16 + 2) % 2 ^ 16
      = (w.voodoo3_io_base_port + o + 2) % 2 ^ 16 := by omega
  simp only [voodoo3_io_write32, if_neg hB, outportw, World.emit, h1, h2, p1, p2,
    List.append_assoc, List.singleton_append]

/-- C9 at a concrete input: `B = 0xD000`, `o = 0x18`, `v = 0x12345678` gives
`(0xD018, 0x5678)` and then `(0xD01A, 0x1234)`. -/
theorem voodoo3_io_write32_two_words_witness :
    (voodoo3_io_write32 0x0018 0x12345678
        { World.blank with voodoo3_io_base_port := 0xD000 }).trace
      = [Event.outportw 0xD018 0x5678, Event.outportw 0xD01A 0x1234] :=
  voodoo3_io_write32_two_words { World.blank with voodoo3_io_base_port := 0xD000 }
    0x0018 0x12345678 (by decide)

/-- C10: with a non-zero base port `B`, `voodoo3_io_read32 (o)` issues exactly two
16-bit port reads, first at port `B + o` and then at port `B + o + 2` (modulo
`2 ^ 16`), and returns `(high << 16) | low`, where `low` is the word the first read
returns and `high` the word the second read returns. -/
theorem voodoo3_io_read32_two_words (w : World) (o : Nat)
    (hB : w.voodoo3_io_base_port ≠ 0) :
    (voodoo3_io_read32 o w).2.trace = w.trace ++
      [Event.inportw ((w.voodoo3_io_base_port + o) % 2 ^ 16),
       Event.inportw ((w.voodoo3_io_base_port + o + 2) % 2 ^ 16)] ∧
    (voodoo3_io_read32 o w).1 =
      (((inportw ((w.voodoo3_io_base_port + o + 2) % 2 ^ 16)
          (inportw ((w.voodoo3_io_base_port + o) % 2 ^ 16) w).2).1 <<< 16)
        ||| (inportw ((w.voodoo3_io_base_port + o) % 2 ^ 16) w).1) := by
  have p1 : (w.voodoo3_io_base_port + o % 2 ^ 16) % 2 ^ 16 % 2 ^ 16
      = (w.voodoo3_io_base_port + o) % 2 ^ 16 := by omega
  have p2 : ((w.voodoo3_io_base_port + o % 2 ^ 16) % 2 ^ 16 + 2) % 2 ^ 16
      = (w.voodoo3_io_base_port + o + 2) % 2 ^ 16 := by omega
  have hlow : ∀ x : Nat, x % 2 ^ 16 < 2 ^ 32 := fun x =>
    lt_trans (Nat.mod_lt _ (by norm_num)) (by norm_num)
  have hhigh : ∀ x : Nat, (x % 2 ^ 16) <<< 16 < 2 ^ 32 := fun x => by
    rw [Nat.shiftLeft_eq]
    have := Nat.mod_lt x (show 0 < 2 ^ 16 by norm_num)
    omega
  constructor
  · simp only [voodoo3_io_read32, if_neg hB, inportw, World.emit, p1, p2, Nat.mod_mod,
      List.append_assoc, List.singleton_append]
  · simp only [voodoo3_io_read32, if_neg hB, inportw, World.emit, p1, p2, Nat.mod_mod]
    rw [Nat.mod_eq_of_lt (hhigh _), Nat.mod_eq_of_lt (Nat.or_lt_two_pow (hlow _) (hhigh _)),
      Nat.lor_comm]

/-- C10 at a concrete input: `B = 0xD000`, `o = 0x18`, port `0xD018` holds `0x5678` and
port `0xD01A` holds `0x1234`; the read returns `0x12345678`. -/
theorem voodoo3_io_read32_two_words_witness :
    (voodoo3_io_read32 0x0018
        { World.blank with
          voodoo3_io_base_port := 0xD000,
          port16 := fun p => if p = 0xD018 then 0x5678 else 0x1234 }).1 = 0x12345678 := by
  rw [(voodoo3_io_read32_two_words _ 0x0018 (by decide)).2]
  decide

/-! ## Theorems: the Voodoo3 port window with no base port -/

/-- C11: when the Voodoo3 I/O base port is zero, for every offset and value the 8-,
16- and 32-bit register reads return 0 and leave the state, trace included, as it
was (no port read is issued), and the 8-, 16- and 32-bit register writes leave the
state, trace included, as it was (no port write is issued). -/
theorem voodoo3_io_uninitialised (w : World) (h : w.voodoo3_io_base_port = 0)
    (o v : Nat) :
    voodoo3_io_read8 o w = (0, w) ∧ voodoo3_io_read16 o w = (0, w) ∧
    voodoo3_io_read32 o w = (0, w) ∧ voodoo3_io_write8 o v w = w ∧
    voodoo3_io_write16 o v w = w ∧ voodoo3_io_write32 o v w = w := by
  refine ⟨?_, ?_, ?_, ?_, ?_, ?_⟩
  · simp only [voodoo3_io_read8, if_pos h]
  · simp only [voodoo3_io_read16, if_pos h]
  · simp only [voodoo3_io_read32, if_pos h]
  · simp only [voodoo3_io_write8, if_pos h]
  · simp only [voodoo3_io_write16, if_pos h]
  · simp only [voodoo3_io_write32, if_pos h]

/-- C11 at a concrete input: before `voodoo3_init` the base port is zero; a 32-bit
read at offset `0x18` returns 0 and a 32-bit write leaves the trace empty. -/
theorem voodoo3_io_uninitialised_witness :
    (voodoo3_io_read32 0x18 World.blank).1 = 0 ∧
    (voodoo3_io_read32 0x18 World.blank).2.trace = [] ∧
    (voodoo3_io_write32 0x18 0x12345678 World.blank).trace = [] :=
  ⟨congrArg Prod.fst (voodoo3_io_uninitialised World.blank rfl 0x18 0).2.2.1,
   congrArg (fun r => r.2.trace) (voodoo3_io_uninitialised World.blank rfl 0x18 0).2.2.1,
   congrArg World.trace (voodoo3_io_uninitialised World.blank rfl 0x18 0x12345678).2.2.2.2.2⟩

/-! ## Theorems: savestate hooks and constants -/

/-- C16: for every fourcc and every stream, the four savestate hooks return false
and leave the state (and the stream) as they were; the same holds for a call through
either function-pointer column of the registry, and the two Voodoo3 rows of
`supported_devices` carry the Voodoo3 hooks, so every section offered to a bound
Voodoo3 is rejected. -/
theorem gpus_hooks_reject (fourcc : Nat) (stream : FILE) (w : World) :
    r128_gpus_section_applies fourcc w = (false, w) ∧
    r128_gpus_parse_section fourcc stream w = (false, stream, w) ∧
    voodoo3_gpus_section_applies fourcc w = (false, w) ∧
    voodoo3_gpus_parse_section fourcc stream w = (false, stream, w) ∧
    (∀ f, call_gpus_section_applies f fourcc w = (false, w)) ∧
    (∀ f, call_gpus_section_parse f fourcc stream w = (false, stream, w)) ∧
    supported_devices.map (fun e => (e.vendor_id, e.gpus_section_applies, e.gpus_section_parse))
      = [(0x1002, some SectionAppliesFn.r128_gpus_section_applies,
            some SectionParseFn.r128_gpus_parse_section),
         (0x1002, some SectionAppliesFn.r128_gpus_section_applies,
            some SectionParseFn.r128_gpus_parse_section),
         (0x121A, some SectionAppliesFn.voodoo3_gpus_section_applies,
            some SectionParseFn.voodoo3_gpus_parse_section),
         (0x121A, some SectionAppliesFn.voodoo3_gpus_section_applies,
            some SectionParseFn.voodoo3_gpus_parse_section),
         (0, none, none)] := by
  refine ⟨rfl, rfl, rfl, rfl, ?_, ?_, by decide⟩
  · intro f; cases f <;> rfl
  · intro f; cases f <;> rfl

/-- C17 (violated by the code): seven of the eight section constants and `GPUS_MAGIC`
are the little-endian encodings of their tags, but `gpus_section_nv1e` is
`0x44453136`, the encoding of `61ED`, while the tag `NV1E` of its comment encodes to
`0x4531564E`. -/
theorem gpus_section_nv1e_mismatch :
    gpus_section_vga_crtc = fourcc_le "CRTC" ∧ gpus_section_vga_gdc = fourcc_le "VGAG" ∧
    gpus_section_vga_sequencer = fourcc_le "VGAS" ∧
    gpus_section_vga_attribute = fourcc_le "VGAA" ∧ gpus_section_mmio = fourcc_le "MMIO" ∧
    gpus_section_bar1 = fourcc_le "BAR1" ∧ gpus_section_cache = fourcc_le "CACH" ∧
    GPUS_MAGIC = fourcc_le "GPUS" ∧ GPUS_MAGIC = 0x53555047 ∧
    fourcc_le "NV1E" = 0x4531564E ∧ gpus_section_nv1e = fourcc_le "61ED" ∧
    gpus_section_nv1e ≠ fourcc_le "NV1E" := by
  decide

/-! ## Theorems: the command table -/

/-- C18 (violated by the code): the row `wmrange8` of `commands` declares 2
parameters, but its handler `Command_WriteMMIORange8` calls `Command_Argv` with the
indices 1, 2 and 3; on a line with exactly the declared two parameters the call
`Command_Argv (3)` asks for a token that is not there. -/
theorem Command_WriteMMIORange8_reads_argv3 :
    commands[2]? = some ⟨some "wmrange8", some "writemmiorange8",
      some CommandFn.Command_WriteMMIORange8, 2⟩ ∧
    (∃ w2, Command_WriteMMIORange8 3 ["wmrange8", "0", "2", "ff"] World.blank
        = Except.ok (true, w2) ∧ argv_calls w2.trace = [1, 2, 3]) ∧
    Command_WriteMMIORange8 3 ["wmrange8", "0", "2"] World.blank
      = Except.error (Fault.missing_argument 3) :=
  ⟨by decide, ⟨_, rfl, by decide⟩, rfl⟩

/-- C19 (violated by the code): the rows `wvrange8` and `wvrange16` of `commands` are
bound to the frame-buffer fills, but the row `wvrange32` is bound to
`Command_WriteMMIORange32`; run on the line `wvrange32 0 8 ff` that handler performs
the calls `mmio_write32 (0, 0xff)` and `mmio_write32 (4, 0xff)` and no
`nv_dfb_write32` call, while `Command_WriteVRAMRange32`, which no row is bound to,
performs `nv_dfb_write32 (0, 0xff)` and `nv_dfb_write32 (4, 0xff)` on the same line. -/
theorem wvrange32_fills_mmio :
    (commands.find? (verb_matches "wvrange8")).map (fun c => c.function)
      = some (some CommandFn.Command_WriteVRAMRange8) ∧
    (commands.find? (verb_matches "wvrange16")).map (fun c => c.function)
      = some (some CommandFn.Command_WriteVRAMRange16) ∧
    (commands.find? (verb_matches "wvrange32")).map (fun c => c.function)
      = some (some CommandFn.Command_WriteMMIORange32) ∧
    (∃ w2, Command_WriteMMIORange32 3 ["wvrange32", "0", "8", "ff"] World.blank
        = Except.ok (true, w2) ∧
      mmio_writes w2.trace = [(0, 0xff), (4, 0xff)] ∧ dfb_writes w2.trace = []) ∧
    (∃ w2, Command_WriteVRAMRange32 3 ["wvrange32", "0", "8", "ff"] World.blank
        = Except.ok (true, w2) ∧
      dfb_writes w2.trace = [(0, 0xff), (4, 0xff)] ∧ mmio_writes w2.trace = []) ∧
    (∀ c ∈ commands, c.function ≠ some CommandFn.Command_WriteVRAMRange32) ∧
    (∃ w2, Command_WriteVRAMRange8 3 ["wvrange8", "0", "2", "ff"] World.blank
        = Except.ok (true, w2) ∧
      dfb_writes w2.trace = [(0, 0xff), (1, 0xff)] ∧ mmio_writes w2.trace = []) ∧
    (∃ w2, Command_WriteVRAMRange16 3 ["wvrange16", "0", "4", "ff"] World.blank
        = Except.ok (true, w2) ∧
      dfb_writes w2.trace = [(0, 0xff), (2, 0xff)] ∧ mmio_writes w2.trace = []) :=
  ⟨by decide, by decide, by decide, ⟨_, rfl, by decide, by decide⟩,
    ⟨_, rfl, by decide, by decide⟩, by decide, ⟨_, rfl, by decide, by decide⟩,
    ⟨_, rfl, by decide, by decide⟩⟩

/-- C20 (violated by the code): the verb `readmmioconsole32` matches two rows of
`commands`, `rmc32` and `rvc32`, whose handlers differ, and the verb
`readvramconsole32` matches no row, while `rvc32` matches one; for the widths 8 and
16 the long verb `readvramconsoleN` matches exactly the row of `rvcN`. -/
theorem readvramconsole32_unresolved :
    (commands.filter (verb_matches "readmmioconsole32")).map
        (fun c => (c.name_abbrev, c.function))
      = [(some "rmc32", some CommandFn.Command_ReadMMIOConsole32),
         (some "rvc32", some CommandFn.Command_ReadVRAMConsole32)] ∧
    commands.filter (verb_matches "readvramconsole32") = [] ∧
    (commands.filter (verb_matches "rvc32")).map (fun c => c.function)
      = [some CommandFn.Command_ReadVRAMConsole32] ∧
    commands.filter (verb_matches "readvramconsole8") = commands.filter (verb_matches "rvc8") ∧
    (commands.filter (verb_matches "rvc8")).length = 1 ∧
    commands.filter (verb_matches "readvramconsole16")
      = commands.filter (verb_matches "rvc16") ∧
    (commands.filter (verb_matches "rvc16")).length = 1 := by
  decide

/-! ## Theorems: the PCI command register across `init` and `shutdown` -/

@[simp] theorem World.emit_mmio8 (w : World) (e : Event) :
    (w.emit e).mmio8 = w.mmio8 := rfl

@[simp] theorem World.emit_dfb8 (w : World) (e : Event) :
    (w.emit e).dfb8 = w.dfb8 := rfl

@[simp] theorem World.emit_dfb16 (w : World) (e : Event) :
    (w.emit e).dfb16 = w.dfb16 := rfl

@[simp] theorem World.emit_dfb32 (w : World) (e : Event) :
    (w.emit e).dfb32 = w.dfb32 := rfl

/-- Doing nothing leaves the PCI command context alone. -/
theorem pci_frame_refl (w : World) : pci_frame w w := ⟨rfl, rfl, rfl, rfl⟩

/-- Two steps that leave the PCI command context alone do so together. -/
theorem pci_frame_trans {u v w : World} (h1 : pci_frame u v) (h2 : pci_frame v w) :
    pci_frame u w :=
  ⟨h2.1.trans h1.1, h2.2.1.trans h1.2.1, h2.2.2.1.trans h1.2.2.1, h2.2.2.2.trans h1.2.2.2⟩

/-- A step that leaves the PCI command context alone leaves the command register alone. -/
theorem pci_frame_pci_command {w v : World} (h : pci_frame w v) :
    pci_command v = pci_command w := by
  simp only [pci_command, h.1, h.2.1, h.2.2.1]

/-- A log line leaves the PCI command context alone. -/
theorem pci_frame_Logging_Write (level : log_level) (format : String) (args : List LogArg)
    (w : World) : pci_frame w (Logging_Write level format args w) := by
  simp [pci_frame, Logging_Write, pci_config_writes]

/-- The mapping block of `r128_init` leaves the PCI command context alone. -/
theorem pci_frame_r128_init_map_bars (w : World) : pci_frame w (r128_init_map_bars w) := by
  simp [pci_frame, r128_init_map_bars, PCI_ReadConfig32, Logging_Write,
    dpmi_physical_address_mapping, dpmi_allocate_ldt_descriptors,
    dpmi_set_segment_base_address, dpmi_set_segment_limit, pci_config_writes]

/-- The id-reading block of `r128_init` leaves the PCI command context alone. -/
theorem pci_frame_r128_init_read_ids (w : World) : pci_frame w (r128_init_read_ids w) := by
  simp [pci_frame, r128_init_read_ids, PCI_ReadConfig16, PCI_ReadConfig8, Logging_Write,
    pci_config_writes]

/-- The memory-size block of `r128_init` leaves the PCI command context alone. -/
theorem pci_frame_r128_init_memsize (w : World) : pci_frame w (r128_init_memsize w) := by
  simp only [r128_init_memsize, Logging_Write, mmio_read32]
  split_ifs <;> simp [pci_frame, pci_config_writes]

/-- The straps block of `r128_init` leaves the PCI command context alone. -/
theorem pci_frame_r128_init_straps (w : World) : pci_frame w (r128_init_straps w) := by
  simp [pci_frame, r128_init_straps, mmio_read32, pci_config_writes]


/-- A Voodoo3 register read leaves the PCI command context alone. -/
theorem pci_frame_voodoo3_io_read32 (o : Nat) (w : World) :
    pci_frame w (voodoo3_io_read32 o w).2 := by
  simp only [voodoo3_io_read32, inportw]
  split <;> simp [pci_frame, pci_config_writes]

/-- The BAR reads of `voodoo3_init` leave the PCI command context alone. -/
theorem pci_frame_voodoo3_init_read_bars (w : World) :
    pci_frame w (voodoo3_init_read_bars w).2.2.2 := by
  simp [pci_frame, voodoo3_init_read_bars, PCI_ReadConfig32, pci_config_writes]

/-- Setting the base port leaves the PCI command context alone. -/
theorem pci_frame_voodoo3_init_io_base (b : Nat) (w : World) :
    pci_frame w (voodoo3_init_io_base b w) := by
  simp [pci_frame, voodoo3_init_io_base, Logging_Write, pci_config_writes]

/-- The mapping block of `voodoo3_init` leaves the PCI command context alone. -/
theorem pci_frame_voodoo3_init_map_bars (b0 b1 : Nat) (w : World) :
    pci_frame w (voodoo3_init_map_bars b0 b1 w) := by
  simp [pci_frame, voodoo3_init_map_bars, Logging_Write, dpmi_physical_address_mapping,
    dpmi_allocate_ldt_descriptors, dpmi_set_segment_base_address, dpmi_set_segment_limit,
    pci_config_writes]

/-- The id-reading block of `voodoo3_init` leaves the PCI command context alone. -/
theorem pci_frame_voodoo3_init_read_ids (w : World) :
    pci_frame w (voodoo3_init_read_ids w) := by
  simp [pci_frame, voodoo3_init_read_ids, PCI_ReadConfig16, PCI_ReadConfig8, Logging_Write,
    pci_config_writes]

/-- The memory-size block of `voodoo3_init` leaves the PCI command context alone. -/
theorem pci_frame_voodoo3_init_memsize (w : World) :
    pci_frame w (voodoo3_init_memsize w) := by
  have h := pci_frame_voodoo3_io_read32 VOODOO3_IO_LFBMEMORYCONFIG w
  simp only [voodoo3_init_memsize, Logging_Write]
  split_ifs <;>
    exact ⟨h.1, h.2.1, h.2.2.1, by simpa [pci_config_writes] using h.2.2.2⟩

/-- The straps block of `voodoo3_init` leaves the PCI command context alone. -/
theorem pci_frame_voodoo3_init_straps (w : World) :
    pci_frame w (voodoo3_init_straps w) := by
  have h := pci_frame_voodoo3_io_read32 VOODOO3_IO_MISCINIT1 w
  simp only [voodoo3_init_straps]
  exact ⟨h.1, h.2.1, h.2.2.1, h.2.2.2⟩

/-- The function `r128_shutdown` leaves the PCI command context alone: it never writes
PCI configuration space. -/
theorem pci_frame_r128_shutdown (w : World) : pci_frame w (r128_shutdown w) := by
  simp only [r128_shutdown, Logging_Write, mmio_write32]
  split <;> simp [pci_frame, pci_config_writes]

/-- A value that has the bit `2 ^ k` set is unchanged by or-ing that bit in. -/
theorem or_two_pow_of_and_ne_zero (c k : Nat) (h : c &&& 2 ^ k ≠ 0) : c ||| 2 ^ k = c := by
  have hb : c.testBit k = true := by
    by_contra hf
    apply h
    apply Nat.eq_of_testBit_eq
    intro i
    by_cases hik : k = i
    · subst hik
      simp [Nat.testBit_two_pow_self, hf]
    · simp [Nat.testBit_two_pow_of_ne hik]
  apply Nat.eq_of_testBit_eq
  intro i
  by_cases hik : k = i
  · subst hik
    simp [hb]
  · simp [Nat.testBit_two_pow_of_ne hik]

/-- One enable step of `voodoo3_init`, run with the local `command` equal to the
register: local and register both end as `command | mask`, and no write is issued
when the bit is already set. -/
theorem voodoo3_init_enable_spec (k : Nat) (hk : k < 16) (message : String)
    (command : Nat) (w : World) (hcmd : pci_command w = command) (h16 : command < 2 ^ 16) :
    (voodoo3_init_enable (2 ^ k) message command w).1 = command ||| 2 ^ k ∧
    pci_command (voodoo3_init_enable (2 ^ k) message command w).2 = command ||| 2 ^ k ∧
    (voodoo3_init_enable (2 ^ k) message command w).2.current_device = w.current_device ∧
    (voodoo3_init_enable (2 ^ k) message command w).2.voodoo3_state = w.voodoo3_state ∧
    (command &&& 2 ^ k ≠ 0 →
      pci_config_writes (voodoo3_init_enable (2 ^ k) message command w).2.trace
        = pci_config_writes w.trace) := by
  have hm : (2 : Nat) ^ k < 2 ^ 16 := Nat.pow_lt_pow_right (by norm_num) hk
  have hlt : command ||| 2 ^ k < 2 ^ 16 := Nat.or_lt_two_pow h16 hm
  by_cases hbit : command &&& 2 ^ k = 0
  · simp only [voodoo3_init_enable, if_pos hbit, PCI_WriteConfig16, Logging_Write,
      pci_command, World.emit_current_device, World.emit_voodoo3_state]
    have hlt2 : command ||| 2 ^ k < 65536 := hlt
    simp [Nat.mod_eq_of_lt hlt2, hbit]
  · rw [or_two_pow_of_and_ne_zero command k hbit]
    simp only [voodoo3_init_enable, if_neg hbit]
    exact ⟨trivial, hcmd, trivial, trivial, fun _ => trivial⟩


/-- The command block of `voodoo3_init`, entered with the register holding the 16-bit
value `c`: the snapshot is `c`, the register ends as `c | 0x0007`, and no write is
issued when `c` already has the three bits. -/
theorem voodoo3_init_command_spec (w : World) (c : Nat) (hc : pci_command w = c)
    (h16 : c < 2 ^ 16) :
    pci_command (voodoo3_init_command w) = c ||| 0x0007 ∧
    (voodoo3_init_command w).voodoo3_state.original_pci_command = c ∧
    (voodoo3_init_command w).current_device = w.current_device ∧
    (c &&& 0x0007 = 0x0007 →
      pci_config_writes (voodoo3_init_command w).trace = pci_config_writes w.trace) := by
  have hread : (PCI_ReadConfig16 w.current_device.bus_number
      w.current_device.function_number PCI_CFG_OFFSET_COMMAND w).1 = c := by
    have hlt : pci_command w < 2 ^ 16 := by rw [hc]; exact h16
    simp only [PCI_ReadConfig16]
    rw [← hc]
    exact Nat.mod_eq_of_lt hlt
  obtain ⟨w0, hw0, hcmd0, hcd0, hst0, htr0⟩ : ∃ w0 : World,
      w0 = { (PCI_ReadConfig16 w.current_device.bus_number
          w.current_device.function_number PCI_CFG_OFFSET_COMMAND w).2 with
        voodoo3_state := { (PCI_ReadConfig16 w.current_device.bus_number
          w.current_device.function_number PCI_CFG_OFFSET_COMMAND w).2.voodoo3_state with
          original_pci_command := c } } ∧
      pci_command w0 = c ∧ w0.current_device = w.current_device ∧
      w0.voodoo3_state.original_pci_command = c ∧
      pci_config_writes w0.trace = pci_config_writes w.trace := by
    refine ⟨_, rfl, ?_, ?_, ?_, ?_⟩
    · simpa [pci_command, PCI_ReadConfig16] using hc
    · simp [PCI_ReadConfig16]
    · simp
    · simp [PCI_ReadConfig16, pci_config_writes]
  have hrun : voodoo3_init_command w =
      (voodoo3_init_enable (2 ^ 0) "Voodoo3 Init: Enabling I/O access...\n"
        (voodoo3_init_enable (2 ^ 1) "Voodoo3 Init: Enabling memory access...\n"
          (voodoo3_init_enable (2 ^ 2) "Voodoo3 Init: Enabling bus mastering...\n" c w0).1
          (voodoo3_init_enable (2 ^ 2) "Voodoo3 Init: Enabling bus mastering...\n" c w0).2).1
        (voodoo3_init_enable (2 ^ 1) "Voodoo3 Init: Enabling memory access...\n"
          (voodoo3_init_enable (2 ^ 2) "Voodoo3 Init: Enabling bus mastering...\n" c w0).1
          (voodoo3_init_enable (2 ^ 2) "Voodoo3 Init: Enabling bus mastering...\n" c w0).2).2).2
      := by
    rw [hw0, ← hread]
    rfl
  obtain ⟨a1, p1, d1, s1, t1⟩ := voodoo3_init_enable_spec 2 (by norm_num)
    "Voodoo3 Init: Enabling bus mastering...\n" c w0 hcmd0 h16
  rw [a1] at hrun
  have h16a : c ||| 2 ^ 2 < 2 ^ 16 := Nat.or_lt_two_pow h16 (by norm_num)
  obtain ⟨a2, p2, d2, s2, t2⟩ := voodoo3_init_enable_spec 1 (by norm_num)
    "Voodoo3 Init: Enabling memory access...\n" (c ||| 2 ^ 2) _ p1 h16a
  rw [a2] at hrun
  have h16b : c ||| 2 ^ 2 ||| 2 ^ 1 < 2 ^ 16 := Nat.or_lt_two_pow h16a (by norm_num)
  obtain ⟨_, p3, d3, s3, t3⟩ := voodoo3_init_enable_spec 0 (by norm_num)
    "Voodoo3 Init: Enabling I/O access...\n" (c ||| 2 ^ 2 ||| 2 ^ 1) _ p2 h16b
  have hor : c ||| 2 ^ 2 ||| 2 ^ 1 ||| 2 ^ 0 = c ||| 0x0007 := by
    rw [Nat.or_assoc, Nat.or_assoc]
    rfl
  refine ⟨?_, ?_, ?_, ?_⟩
  · rw [hrun, p3, hor]
  · rw [hrun, s3, s2, s1, hst0]
  · rw [hrun, d3, d2, d1, hcd0]
  · intro h7
    have b2 : c &&& 2 ^ 2 ≠ 0 := by
      have : c &&& 2 ^ 2 = 4 := by
        have h := congrArg (fun x => x &&& 4) h7
        simpa [Nat.and_assoc] using h
      rw [this]; norm_num
    have b1 : (c ||| 2 ^ 2) &&& 2 ^ 1 ≠ 0 := by
      rw [or_two_pow_of_and_ne_zero c 2 b2]
      have : c &&& 2 ^ 1 = 2 := by
        have h := congrArg (fun x => x &&& 2) h7
        simpa [Nat.and_assoc] using h
      rw [this]; norm_num
    have b0 : (c ||| 2 ^ 2 ||| 2 ^ 1) &&& 2 ^ 0 ≠ 0 := by
      rw [or_two_pow_of_and_ne_zero c 2 b2] at b1 ⊢
      rw [or_two_pow_of_and_ne_zero c 1 b1]
      have : c &&& 2 ^ 0 = 1 := by
        have h := congrArg (fun x => x &&& 1) h7
        simpa [Nat.and_assoc] using h
      rw [this]; norm_num
    rw [hrun, t3 b0, t2 b1, t1 b2, htr0]

/-- The bus-master block of `r128_init`, entered with the register holding the 16-bit
value `c`: the register ends as `c | 0x0004`, and no write is issued when `c` already
has the bit. -/
theorem r128_init_bus_master_spec (w : World) (c : Nat) (hc : pci_command w = c)
    (h16 : c < 2 ^ 16) :
    pci_command (r128_init_bus_master w) = c ||| 0x0004 ∧
    (c &&& 0x0004 = 0x0004 →
      pci_config_writes (r128_init_bus_master w).trace = pci_config_writes w.trace) := by
  have hread : w.pci_config16 w.current_device.bus_number
      w.current_device.function_number PCI_CFG_OFFSET_COMMAND % 2 ^ 16 = c := by
    have hlt : pci_command w < 2 ^ 16 := by rw [hc]; exact h16
    rw [← hc]
    exact Nat.mod_eq_of_lt hlt
  have hlt : c ||| 4 < 65536 := Nat.or_lt_two_pow (n := 16) h16 (by norm_num)
  by_cases hbit : c &&& 4 = 0
  · constructor
    · simp only [r128_init_bus_master, PCI_ReadConfig16, hread,
        PCI_CFG_OFFSET_COMMAND_BUS_MASTER, if_pos hbit, PCI_WriteConfig16, Logging_Write,
        pci_command, World.emit_current_device]
      simp [Nat.mod_eq_of_lt hlt]
    · intro h4
      rw [h4] at hbit
      exact absurd hbit (by norm_num)
  · have hsame : c ||| 4 = c := or_two_pow_of_and_ne_zero c 2 hbit
    constructor
    · simp only [r128_init_bus_master, PCI_ReadConfig16, hread,
        PCI_CFG_OFFSET_COMMAND_BUS_MASTER, if_neg hbit, pci_command,
        World.emit_current_device, World.emit_pci_config16]
      rw [hsame]
      exact hc
    · intro _
      simp only [r128_init_bus_master, PCI_ReadConfig16, hread,
        PCI_CFG_OFFSET_COMMAND_BUS_MASTER, if_neg hbit]
      simp [pci_config_writes]


/-- The function `r128_init`, run with the PCI command register holding the 16-bit
value `c`: the register ends as `c | 0x0004`, and no configuration write is issued
when `c` already has the bit. -/
theorem r128_init_pci_command (w : World) (c : Nat) (hc : pci_command w = c)
    (h16 : c < 2 ^ 16) :
    pci_command (r128_init w).2 = c ||| 0x0004 ∧
    (c &&& 0x0004 = 0x0004 →
      pci_config_writes (r128_init w).2.trace = pci_config_writes w.trace) := by
  have hf : pci_frame w (r128_init_straps (r128_init_memsize
      (r128_init_read_ids (r128_init_map_bars w)))) :=
    pci_frame_trans (pci_frame_trans (pci_frame_trans (pci_frame_r128_init_map_bars w)
      (pci_frame_r128_init_read_ids _)) (pci_frame_r128_init_memsize _))
      (pci_frame_r128_init_straps _)
  obtain ⟨hp, ht⟩ := r128_init_bus_master_spec _ c ((pci_frame_pci_command hf).trans hc) h16
  have hl := pci_frame_Logging_Write log_level.debug "R128 Init: Initialization complete!\n" []
    (r128_init_bus_master (r128_init_straps (r128_init_memsize
      (r128_init_read_ids (r128_init_map_bars w)))))
  rw [r128_init_eq_blocks]
  exact ⟨(pci_frame_pci_command hl).trans hp,
    fun h4 => (hl.2.2.2.trans (ht h4)).trans hf.2.2.2⟩

/-- The function `voodoo3_init` returns true exactly when bit 0 of BAR2 is set. -/
theorem voodoo3_init_true_iff (w : World) :
    (voodoo3_init w).1 = true ↔ (voodoo3_init_read_bars w).2.2.1 &&& 0x01 ≠ 0 := by
  rw [voodoo3_init_eq_blocks]
  split <;> simp_all

/-- The function `voodoo3_init`, run successfully with the PCI command register
holding the 16-bit value `c`: the register ends as `c | 0x0007`, the snapshot is `c`,
and no configuration write is issued when `c` already has the three bits. -/
theorem voodoo3_init_pci_command (w : World) (c : Nat) (hc : pci_command w = c)
    (h16 : c < 2 ^ 16) (hok : (voodoo3_init w).1 = true) :
    pci_command (voodoo3_init w).2 = c ||| 0x0007 ∧
    (voodoo3_init w).2.voodoo3_state.original_pci_command = c ∧
    (c &&& 0x0007 = 0x0007 →
      pci_config_writes (voodoo3_init w).2.trace = pci_config_writes w.trace) := by
  have hbit := (voodoo3_init_true_iff w).mp hok
  have hf : pci_frame w (voodoo3_init_straps (voodoo3_init_memsize (voodoo3_init_read_ids
      (voodoo3_init_map_bars (voodoo3_init_read_bars w).1 (voodoo3_init_read_bars w).2.1
        (voodoo3_init_io_base (voodoo3_init_read_bars w).2.2.1
          (voodoo3_init_read_bars w).2.2.2))))) :=
    pci_frame_trans (pci_frame_trans (pci_frame_trans (pci_frame_trans (pci_frame_trans
      (pci_frame_voodoo3_init_read_bars w) (pci_frame_voodoo3_init_io_base _ _))
      (pci_frame_voodoo3_init_map_bars _ _ _)) (pci_frame_voodoo3_init_read_ids _))
      (pci_frame_voodoo3_init_memsize _)) (pci_frame_voodoo3_init_straps _)
  obtain ⟨hp, hs, _, ht⟩ :=
    voodoo3_init_command_spec _ c ((pci_frame_pci_command hf).trans hc) h16
  have hl := pci_frame_Logging_Write log_level.debug
    "Voodoo3 Init: Initialization complete!\n" []
    (voodoo3_init_command (voodoo3_init_straps (voodoo3_init_memsize (voodoo3_init_read_ids
      (voodoo3_init_map_bars (voodoo3_init_read_bars w).1 (voodoo3_init_read_bars w).2.1
        (voodoo3_init_io_base (voodoo3_init_read_bars w).2.2.1
          (voodoo3_init_read_bars w).2.2.2))))))
  rw [voodoo3_init_eq_blocks, if_pos hbit]
  exact ⟨(pci_frame_pci_command hl).trans hp, hs,
    fun h7 => (hl.2.2.2.trans (ht h7)).trans hf.2.2.2⟩

/-- The PCI command register after `voodoo3_shutdown`: the snapshot when it is not
zero, what it was otherwise. -/
theorem voodoo3_shutdown_pci_command (w : World) :
    pci_command (voodoo3_shutdown w) =
      if w.voodoo3_state.original_pci_command ≠ 0
      then w.voodoo3_state.original_pci_command % 2 ^ 16 else pci_command w := by
  simp only [voodoo3_shutdown, PCI_WriteConfig16, Logging_Write, pci_command]
  split <;> simp

/-- The function `voodoo3_init` followed by `voodoo3_shutdown`, by the pre-init value
`c` of the PCI command register: back to `c` when `c` is not zero, `0x0007` when `c`
is zero. -/
theorem voodoo3_init_shutdown_pci_command (w : World) (c : Nat) (hc : pci_command w = c)
    (h16 : c < 2 ^ 16) (hok : (voodoo3_init w).1 = true) :
    pci_command (voodoo3_shutdown (voodoo3_init w).2) = if c ≠ 0 then c else 0x0007 := by
  obtain ⟨hp, hs, _⟩ := voodoo3_init_pci_command w c hc h16 hok
  rw [voodoo3_shutdown_pci_command, hs, hp]
  split
  · exact Nat.mod_eq_of_lt h16
  · rename_i h0
    have : c = 0 := by simpa using h0
    subst this
    rfl


/-- C12 as stated fails: on `voodoo3_host` BAR2 is `0xD001` and the PCI command
register holds 0 before `voodoo3_init`; after `voodoo3_init` and `voodoo3_shutdown`
it holds `0x0007`, not 0. -/
theorem voodoo3_init_shutdown_zero_command :
    (PCI_ReadConfig32 voodoo3_host.current_device.bus_number
        voodoo3_host.current_device.function_number PCI_CFG_OFFSET_BAR2 voodoo3_host).1 % 2 = 1 ∧
    pci_command voodoo3_host = 0 ∧
    pci_command (voodoo3_shutdown (voodoo3_init voodoo3_host).2) = 0x0007 ∧
    pci_command (voodoo3_shutdown (voodoo3_init voodoo3_host).2) ≠ pci_command voodoo3_host := by
  decide

/-- C12, amended: for every pre-init value `c` of the 16-bit PCI command register
other than zero, and every BAR2 value with bit 0 set, `voodoo3_init` followed by
`voodoo3_shutdown` leaves the PCI command register equal to `c`; for `c = 0` the
snapshot is zero, `voodoo3_shutdown` takes it for "nothing to restore" and the
register is left at `0x0007`. -/
theorem voodoo3_init_shutdown_restores_command (w : World) (b c : Nat)
    (hb : (PCI_ReadConfig32 w.current_device.bus_number w.current_device.function_number
      PCI_CFG_OFFSET_BAR2 w).1 = b)
    (hbit : b % 2 = 1) (hc : pci_command w = c) (h16 : c < 2 ^ 16) :
    (c ≠ 0 → pci_command (voodoo3_shutdown (voodoo3_init w).2) = c) ∧
    (c = 0 → pci_command (voodoo3_shutdown (voodoo3_init w).2) = 0x0007) := by
  have hok : (voodoo3_init w).1 = true := by
    rw [voodoo3_init_true_iff, voodoo3_init_read_bars_bar2, hb]
    exact (and_one_ne_zero_iff b).mpr hbit
  have h := voodoo3_init_shutdown_pci_command w c hc h16 hok
  exact ⟨fun hne => by rw [h, if_pos hne], fun h0 => by rw [h, if_neg (not_not.mpr h0)]⟩

/-- C12, amended, at a concrete input: BAR2 = `0xD001` and a pre-init command
register of `0x0002` (memory enabled only); after `voodoo3_init` and
`voodoo3_shutdown` the register holds `0x0002` again. -/
theorem voodoo3_init_shutdown_restores_command_witness :
    pci_command (voodoo3_shutdown
      (voodoo3_init { voodoo3_host with pci_config16 := fun _ _ _ => 0x0002 }).2) = 0x0002 :=
  (voodoo3_init_shutdown_restores_command
    { voodoo3_host with pci_config16 := fun _ _ _ => 0x0002 } 0xD001 0x0002 rfl (by decide) rfl
    (by decide)).1 (by decide)

/-- C13 (violated by the code): on `r128_cntl_host` the PCI command register holds
`0x0003` before `r128_init`; `r128_init` writes `0x0007` to it, `r128_shutdown` writes
`CONFIG_CNTL` only, and after both the register holds `0x0007`. -/
theorem r128_init_shutdown_keeps_bus_master :
    pci_command r128_cntl_host = 0x0003 ∧
    (r128_init r128_cntl_host).1 = true ∧
    pci_command (r128_shutdown (r128_init r128_cntl_host).2) = 0x0007 ∧
    pci_config_writes (r128_shutdown (r128_init r128_cntl_host).2).trace
      = [(0, 0, 0x04, 0x0007)] ∧
    mmio_writes (r128_shutdown (r128_init r128_cntl_host).2).trace
      = [(0xE0, 0xDEADBEEF)] := by
  decide

/-- C14: for every pre-init value `c` of the 16-bit PCI command register, after
`r128_init` the register equals `c | 0x0004`, and after a successful `voodoo3_init`
it equals `c | 0x0007`; in both cases every bit outside the mask is as in `c`, and
when `c` already contains the mask the init issues no PCI configuration write. -/
theorem init_sets_pci_command_bits (w : World) (c : Nat) (hc : pci_command w = c)
    (h16 : c < 2 ^ 16) :
    (pci_command (r128_init w).2 = c ||| 0x0004 ∧
      (∀ i, Nat.testBit 0x0004 i = false →
        (pci_command (r128_init w).2).testBit i = c.testBit i) ∧
      (c &&& 0x0004 = 0x0004 →
        pci_config_writes (r128_init w).2.trace = pci_config_writes w.trace)) ∧
    ((voodoo3_init w).1 = true →
      pci_command (voodoo3_init w).2 = c ||| 0x0007 ∧
      (∀ i, Nat.testBit 0x0007 i = false →
        (pci_command (voodoo3_init w).2).testBit i = c.testBit i) ∧
      (c &&& 0x0007 = 0x0007 →
        pci_config_writes (voodoo3_init w).2.trace = pci_config_writes w.trace)) := by
  obtain ⟨hr, hrt⟩ := r128_init_pci_command w c hc h16
  refine ⟨⟨hr, fun i hi => ?_, hrt⟩, fun hok => ?_⟩
  · rw [hr, Nat.testBit_or, hi, Bool.or_false]
  · obtain ⟨hv, _, hvt⟩ := voodoo3_init_pci_command w c hc h16 hok
    exact ⟨hv, fun i hi => by rw [hv, Nat.testBit_or, hi, Bool.or_false], hvt⟩

/-- C14 at concrete inputs: on `r128_cntl_host` (command `0x0003`) `r128_init` leaves
`0x0007`; on `voodoo3_host` with a command register of `0x0107`, which contains the
mask, a successful `voodoo3_init` leaves `0x0107` and issues no configuration
write. -/
theorem init_sets_pci_command_bits_witness :
    pci_command (r128_init r128_cntl_host).2 = 0x0007 ∧
    pci_command (voodoo3_init
      { voodoo3_host with pci_config16 := fun _ _ _ => 0x0107 }).2 = 0x0107 ∧
    pci_config_writes (voodoo3_init
      { voodoo3_host with pci_config16 := fun _ _ _ => 0x0107 }).2.trace = [] :=
  ⟨(init_sets_pci_command_bits r128_cntl_host 0x0003 rfl (by decide)).1.1,
   ((init_sets_pci_command_bits { voodoo3_host with pci_config16 := fun _ _ _ => 0x0107 }
      0x0107 rfl (by decide)).2 rfl).1,
   ((init_sets_pci_command_bits { voodoo3_host with pci_config16 := fun _ _ _ => 0x0107 }
      0x0107 rfl (by decide)).2 rfl).2.2 (by decide)⟩

/-- C15 as stated fails: on `r128_cntl_host` the snapshot taken by `r128_init` is
`0xDEADBEEF`; the first `r128_shutdown` writes it back to `CONFIG_CNTL`, and a second
`r128_shutdown` issues the same MMIO write again. -/
theorem r128_shutdown_twice_writes_again :
    mmio_writes (r128_shutdown (r128_init r128_cntl_host).2).trace
      = [(0xE0, 0xDEADBEEF)] ∧
    mmio_writes (r128_shutdown (r128_shutdown (r128_init r128_cntl_host).2)).trace
      = [(0xE0, 0xDEADBEEF), (0xE0, 0xDEADBEEF)] := by
  decide


/-- C15, amended: for each driver, `shutdown` called while the driver's snapshot is
zero (a device that was never initialised) issues no MMIO write and no PCI
configuration write and changes nothing but the log, to which it adds its one debug
line; a second `shutdown` right after a first one changes nothing but the trace (no
device state, no driver state, no register content), and whenever the snapshot is
not zero it issues the restore write once more: an MMIO write of `CONFIG_CNTL` for
`r128_shutdown`, a PCI configuration write of the command register for
`voodoo3_shutdown`. -/
theorem shutdown_without_snapshot_or_repeated (w : World) :
    (w.r128_state.original_config_cntl = 0 →
      r128_shutdown w = Logging_Write log_level.debug "R128 Shutdown: Complete\n" [] w ∧
      mmio_writes (r128_shutdown w).trace = mmio_writes w.trace ∧
      pci_config_writes (r128_shutdown w).trace = pci_config_writes w.trace) ∧
    (w.voodoo3_state.original_pci_command = 0 →
      voodoo3_shutdown w = Logging_Write log_level.debug "Voodoo3 Shutdown: Complete\n" [] w ∧
      mmio_writes (voodoo3_shutdown w).trace = mmio_writes w.trace ∧
      pci_config_writes (voodoo3_shutdown w).trace = pci_config_writes w.trace) ∧
    { r128_shutdown (r128_shutdown w) with trace := (r128_shutdown w).trace }
      = r128_shutdown w ∧
    { voodoo3_shutdown (voodoo3_shutdown w) with trace := (voodoo3_shutdown w).trace }
      = voodoo3_shutdown w ∧
    (w.r128_state.original_config_cntl ≠ 0 →
      mmio_writes (r128_shutdown (r128_shutdown w)).trace
        = mmio_writes (r128_shutdown w).trace
          ++ [(R128_CONFIG_CNTL, w.r128_state.original_config_cntl % 2 ^ 32)]) ∧
    (w.voodoo3_state.original_pci_command ≠ 0 →
      pci_config_writes (voodoo3_shutdown (voodoo3_shutdown w)).trace
        = pci_config_writes (voodoo3_shutdown w).trace
          ++ [(w.current_device.bus_number, w.current_device.function_number,
                PCI_CFG_OFFSET_COMMAND, w.voodoo3_state.original_pci_command % 2 ^ 16)]) := by
  refine ⟨fun h => ?_, fun h => ?_, ?_, ?_, fun h => ?_, fun h => ?_⟩
  · simp [r128_shutdown, h, Logging_Write, mmio_writes, pci_config_writes]
  · simp [voodoo3_shutdown, h, Logging_Write, mmio_writes, pci_config_writes]
  · by_cases h : w.r128_state.original_config_cntl = 0
    · simp [r128_shutdown, h, Logging_Write, World.emit]
    · simp only [r128_shutdown, mmio_write32, Logging_Write, World.emit, ne_eq, h,
        not_false_eq_true, if_true]
      congr 1
      funext o
      split <;> rfl
  · by_cases h : w.voodoo3_state.original_pci_command = 0
    · simp [voodoo3_shutdown, h, Logging_Write, World.emit]
    · simp only [voodoo3_shutdown, PCI_WriteConfig16, Logging_Write, World.emit, ne_eq, h,
        not_false_eq_true, if_true]
      congr 1
      funext b f o
      split <;> rfl
  · simp [r128_shutdown, mmio_write32, Logging_Write, h, mmio_writes, R128_CONFIG_CNTL]
  · simp [voodoo3_shutdown, PCI_WriteConfig16, Logging_Write, h, pci_config_writes]

/-- C15, amended, at concrete inputs: on the zeroed state both `shutdown` functions
only add their debug line; on `r128_cntl_host` after `r128_init` the snapshot is
`0xDEADBEEF` and a second `r128_shutdown` repeats the write of `CONFIG_CNTL`. -/
theorem shutdown_without_snapshot_or_repeated_witness :
    (r128_shutdown World.blank).trace
      = [Event.log log_level.debug "R128 Shutdown: Complete\n" []] ∧
    (voodoo3_shutdown World.blank).trace
      = [Event.log log_level.debug "Voodoo3 Shutdown: Complete\n" []] ∧
    mmio_writes (r128_shutdown (r128_shutdown (r128_init r128_cntl_host).2)).trace
      = mmio_writes (r128_shutdown (r128_init r128_cntl_host).2).trace
        ++ [(0xE0, 0xDEADBEEF)] :=
  ⟨congrArg World.trace ((shutdown_without_snapshot_or_repeated World.blank).1 rfl).1,
   congrArg World.trace ((shutdown_without_snapshot_or_repeated World.blank).2.1 rfl).1,
   (shutdown_without_snapshot_or_repeated (r128_init r128_cntl_host).2).2.2.2.2.1
     (by decide)⟩

/-! ## Theorems: the bounds of detection -/

/-- C28: for every PCI probe outcome, `GPU_Detect` returns after at most 5 calls of
`PCI_DevicePresent`, and every read of `supported_devices` it makes is at an index
from 0 to 4, inside the table of five entries (sentinel included); no read is past
the end of the table. -/
theorem GPU_Detect_bounded (w : World) :
    ∃ r new, GPU_Detect w = some r ∧ r.2.trace = w.trace ++ new ∧
      (probe_calls new).length ≤ 5 ∧
      ∀ i ∈ supported_devices_reads new, i ≤ 4 ∧ i < supported_devices.length := by
  rcases h0 : w.pci_find_device 0x5046 0x1002 with _ | ⟨b0, f0⟩
  · rcases h1 : w.pci_find_device 0x5052 0x1002 with _ | ⟨b1, f1⟩
    · rcases h2 : w.pci_find_device 0x0005 0x121A with _ | ⟨b2, f2⟩
      · rcases h3 : w.pci_find_device 0x0003 0x121A with _ | ⟨b3, f3⟩
        · rcases h4 : w.pci_find_device 0 0 with _ | ⟨b4, f4⟩
          · simp [GPU_Detect, GPU_Detect_loop, supported_devices, PCI_DevicePresent,
              Logging_Write, World.emit, PCI_DEVICE_RAGE128_PRO_PF,
              PCI_VENDOR_ATI, PCI_DEVICE_RAGE128_PRO_PR, PCI_VENDOR_3DFX, PCI_DEVICE_VOODOO3,
              PCI_DEVICE_BANSHEE, h0, h1, h2, h3, h4, probe_calls, supported_devices_reads]
            intro i
            omega
          · simp [GPU_Detect, GPU_Detect_loop, supported_devices, PCI_DevicePresent,
              Logging_Write, World.emit, PCI_DEVICE_RAGE128_PRO_PF,
              PCI_VENDOR_ATI, PCI_DEVICE_RAGE128_PRO_PR, PCI_VENDOR_3DFX, PCI_DEVICE_VOODOO3,
              PCI_DEVICE_BANSHEE, h0, h1, h2, h3, h4, probe_calls, supported_devices_reads]
            intro i
            omega
        · simp [GPU_Detect, GPU_Detect_loop, supported_devices, PCI_DevicePresent,
            Logging_Write, World.emit, PCI_DEVICE_RAGE128_PRO_PF,
            PCI_VENDOR_ATI, PCI_DEVICE_RAGE128_PRO_PR, PCI_VENDOR_3DFX, PCI_DEVICE_VOODOO3,
            PCI_DEVICE_BANSHEE, h0, h1, h2, h3, probe_calls, supported_devices_reads]
          intro i
          omega
      · simp [GPU_Detect, GPU_Detect_loop, supported_devices, PCI_DevicePresent,
          Logging_Write, World.emit, PCI_DEVICE_RAGE128_PRO_PF,
          PCI_VENDOR_ATI, PCI_DEVICE_RAGE128_PRO_PR, PCI_VENDOR_3DFX, PCI_DEVICE_VOODOO3,
          PCI_DEVICE_BANSHEE, h0, h1, h2, probe_calls, supported_devices_reads]
        intro i
        omega
    · simp [GPU_Detect, GPU_Detect_loop, supported_devices, PCI_DevicePresent,
        Logging_Write, World.emit, PCI_DEVICE_RAGE128_PRO_PF,
        PCI_VENDOR_ATI, PCI_DEVICE_RAGE128_PRO_PR, PCI_VENDOR_3DFX, PCI_DEVICE_VOODOO3,
        PCI_DEVICE_BANSHEE, h0, h1, probe_calls, supported_devices_reads]
      intro i
      omega
  · simp [GPU_Detect, GPU_Detect_loop, supported_devices, PCI_DevicePresent,
      Logging_Write, World.emit, PCI_DEVICE_RAGE128_PRO_PF,
      PCI_VENDOR_ATI, PCI_DEVICE_RAGE128_PRO_PR, PCI_VENDOR_3DFX, PCI_DEVICE_VOODOO3,
      PCI_DEVICE_BANSHEE, h0, probe_calls, supported_devices_reads]

/-! ## Theorems: round trip through the Voodoo3 port window -/

/-- Splitting a 32-bit value into its two 16-bit halves and joining them again gives
the value back. -/
theorem join_halves (v : Nat) (hv : v < 2 ^ 32) :
    ((v &&& 0xFFFF) % 2 ^ 16 % 2 ^ 16 % 2 ^ 16
      ||| (((v >>> 16) &&& 0xFFFF) % 2 ^ 16 % 2 ^ 16 % 2 ^ 16) <<< 16 % 2 ^ 32) % 2 ^ 32 = v := by
  have h1 : v &&& 0xFFFF = v % 2 ^ 16 := Nat.and_pow_two_sub_one_eq_mod v 16
  have h2 : (v >>> 16) &&& 0xFFFF = (v >>> 16) % 2 ^ 16 := Nat.and_pow_two_sub_one_eq_mod _ 16
  rw [h1, h2, Nat.shiftRight_eq_div_pow, Nat.shiftLeft_eq]
  have hlo : v % 2 ^ 16 < 2 ^ 16 := Nat.mod_lt _ (by norm_num)
  have hhi : v / 2 ^ 16 < 2 ^ 16 := by
    rw [Nat.div_lt_iff_lt_mul (by norm_num)]
    calc v < 2 ^ 32 := hv
      _ = 2 ^ 16 * 2 ^ 16 := by norm_num
  simp only [Nat.mod_mod, Nat.mod_eq_of_lt hhi]
  have hmul : v / 2 ^ 16 * 2 ^ 16 < 2 ^ 32 := by omega
  rw [Nat.mod_eq_of_lt hmul, Nat.lor_comm, Nat.mul_comm, ← Nat.mul_add_lt_is_or hlo]
  have : 2 ^ 16 * (v / 2 ^ 16) + v % 2 ^ 16 = v := Nat.div_add_mod v (2 ^ 16)
  rw [this]
  exact Nat.mod_eq_of_lt hv

/-- C29: with a non-zero base port, for every offset `o` and every 32-bit value `v`,
`voodoo3_io_write32 (o, v)` followed by `voodoo3_io_read32 (o)` returns `v`; the port
space holds, for each 16-bit port number, the last 16-bit word written there. -/
theorem voodoo3_io_write32_read32 (w : World) (o v : Nat)
    (hB : w.voodoo3_io_base_port ≠ 0) (hv : v < 2 ^ 32) :
    (voodoo3_io_read32 o (voodoo3_io_write32 o v w)).1 = v := by
  have hne : ∀ p : Nat, p % 2 ^ 16 % 2 ^ 16 ≠ (p % 2 ^ 16 + 2) % 2 ^ 16 := by
    intro p; omega
  rw [voodoo3_io_read32_value]
  simp only [voodoo3_io_write32, if_neg hB, outportw, World.emit_port16,
    World.emit_voodoo3_io_base_port, if_neg (hne _), if_true, if_pos]
  exact join_halves v hv

/-- C29 at concrete inputs: base port `0xD000`, offset `0x18`, value `0xDEADBEEF`; and
base port `0xFFFF`, offset `0xFFFF`, where the second port number wraps around. -/
theorem voodoo3_io_write32_read32_witness :
    (voodoo3_io_read32 0x18 (voodoo3_io_write32 0x18 0xDEADBEEF
      { World.blank with voodoo3_io_base_port := 0xD000 })).1 = 0xDEADBEEF ∧
    (voodoo3_io_read32 0xFFFF (voodoo3_io_write32 0xFFFF 0xDEADBEEF
      { World.blank with voodoo3_io_base_port := 0xFFFF })).1 = 0xDEADBEEF :=
  ⟨voodoo3_io_write32_read32 { World.blank with voodoo3_io_base_port := 0xD000 } 0x18
      0xDEADBEEF (by decide) (by decide),
    voodoo3_io_write32_read32 { World.blank with voodoo3_io_base_port := 0xFFFF } 0xFFFF
      0xDEADBEEF (by decide) (by decide)⟩

/-! ## Theorems: `voodoo3_init` when BAR2 is not I/O space -/

/-- C30: for every BAR2 value `b` with bit 0 clear, `voodoo3_init` returns false; it
has made the three BAR reads and written one error line and nothing else, so that
`current_device`, `voodoo3_state` and the I/O base port are what they were, and no PCI
configuration write, no port I/O and no DPMI call (mapping, descriptor allocation,
segment base or limit) has been issued. -/
theorem voodoo3_init_failure (w : World) (b : Nat)
    (hb : (PCI_ReadConfig32 w.current_device.bus_number w.current_device.function_number
      PCI_CFG_OFFSET_BAR2 w).1 = b)
    (hbit : b % 2 = 0) :
    (voodoo3_init w).1 = false ∧
    (voodoo3_init w).2.current_device = w.current_device ∧
    (voodoo3_init w).2.voodoo3_state = w.voodoo3_state ∧
    (voodoo3_init w).2.voodoo3_io_base_port = w.voodoo3_io_base_port ∧
    (voodoo3_init w).2.trace = w.trace ++
      [Event.pci_read_config32 w.current_device.bus_number w.current_device.function_number 0x10,
       Event.pci_read_config32 w.current_device.bus_number w.current_device.function_number 0x14,
       Event.pci_read_config32 w.current_device.bus_number w.current_device.function_number 0x18,
       Event.log log_level.error "Voodoo3 - BAR2 is not I/O space! (0x%08lX)\n" [LogArg.num b]] ∧
    pci_config_writes (voodoo3_init w).2.trace = pci_config_writes w.trace ∧
    port_io (voodoo3_init w).2.trace = port_io w.trace ∧
    dpmi_calls (voodoo3_init w).2.trace = dpmi_calls w.trace ∧
    (voodoo3_init w).2.pci_config16 = w.pci_config16 ∧
    (voodoo3_init w).2.port16 = w.port16 ∧
    (voodoo3_init w).2.dpmi_ldt_calls = w.dpmi_ldt_calls := by
  have hbar2 := voodoo3_init_read_bars_bar2 w
  rw [hb] at hbar2
  have hz : ¬ (b &&& 0x01 ≠ 0) := fun h => by
    have := (and_one_ne_zero_iff b).mp h
    omega
  have hrun : voodoo3_init w = (false, Logging_Write log_level.error
      "Voodoo3 - BAR2 is not I/O space! (0x%08lX)\n" [LogArg.num b]
      (voodoo3_init_read_bars w).2.2.2) := by
    rw [voodoo3_init_eq_blocks, hbar2, if_neg hz]
  have htrace : (voodoo3_init w).2.trace = w.trace ++
      [Event.pci_read_config32 w.current_device.bus_number w.current_device.function_number 0x10,
       Event.pci_read_config32 w.current_device.bus_number w.current_device.function_number 0x14,
       Event.pci_read_config32 w.current_device.bus_number w.current_device.function_number 0x18,
       Event.log log_level.error "Voodoo3 - BAR2 is not I/O space! (0x%08lX)\n" [LogArg.num b]] := by
    rw [hrun]
    simp [voodoo3_init_read_bars, PCI_ReadConfig32, Logging_Write, PCI_CFG_OFFSET_BAR0,
      PCI_CFG_OFFSET_BAR1, PCI_CFG_OFFSET_BAR2]
  refine ⟨by rw [hrun], ?_, ?_, ?_, htrace, ?_, ?_, ?_, ?_, ?_, ?_⟩
  · rw [hrun]; simp [voodoo3_init_read_bars, PCI_ReadConfig32, Logging_Write]
  · rw [hrun]; simp [voodoo3_init_read_bars, PCI_ReadConfig32, Logging_Write]
  · rw [hrun]; simp [voodoo3_init_read_bars, PCI_ReadConfig32, Logging_Write]
  · rw [htrace]; simp [pci_config_writes, List.filterMap_append]
  · rw [htrace]; simp [port_io, List.filter_append]
  · rw [htrace]; simp [dpmi_calls, List.filter_append]
  · rw [hrun]; simp [voodoo3_init_read_bars, PCI_ReadConfig32, Logging_Write]
  · rw [hrun]; simp [voodoo3_init_read_bars, PCI_ReadConfig32, Logging_Write]
  · rw [hrun]; simp [voodoo3_init_read_bars, PCI_ReadConfig32, Logging_Write]

/-- C30 at a concrete input: the host with nothing on the bus, whose BAR2 reads 0. -/
theorem voodoo3_init_failure_witness :
    (voodoo3_init World.blank).1 = false ∧
    (voodoo3_init World.blank).2.current_device = World.blank.current_device ∧
    pci_config_writes (voodoo3_init World.blank).2.trace = [] ∧
    port_io (voodoo3_init World.blank).2.trace = [] ∧
    dpmi_calls (voodoo3_init World.blank).2.trace = [] :=
  ⟨(voodoo3_init_failure World.blank 0 rfl (by decide)).1,
   (voodoo3_init_failure World.blank 0 rfl (by decide)).2.1,
   (voodoo3_init_failure World.blank 0 rfl (by decide)).2.2.2.2.2.1,
   (voodoo3_init_failure World.blank 0 rfl (by decide)).2.2.2.2.2.2.1,
   (voodoo3_init_failure World.blank 0 rfl (by decide)).2.2.2.2.2.2.2.1⟩

/-! ## Theorems: the console read of the register window -/

/-- C21 (violated by the code): on a host whose register window reads `0xAB` at every
offset, the line `rmc8 10 ff` makes `Command_ReadMMIOConsole8` ask for two arguments,
perform no read of the register window and log the second argument, `0xff`, as the
value; on the one-argument line `rmc8 10` it asks for an argument that is not there;
its row of `commands` declares 3 parameters.  The 32-bit handler, on `rmc32 10`, reads
the window at `0x10` and logs what the read returned; its row declares 1. -/
theorem Command_ReadMMIOConsole8_no_read :
    (∃ w2, Command_ReadMMIOConsole8 ["rmc8", "10", "ff"] mmio_ab_host = Except.ok (true, w2) ∧
      w2.trace = [Event.command_argv 1, Event.command_argv 2,
        Event.log log_level.message "Command_ReadMMIOConsole8: %02x = %02x\n"
          [LogArg.num 0x10, LogArg.num 0xff]] ∧
      mmio_reads w2.trace = []) ∧
    Command_ReadMMIOConsole8 ["rmc8", "10"] mmio_ab_host
      = Except.error (Fault.missing_argument 2) ∧
    (∃ w2, Command_ReadMMIOConsole32 ["rmc32", "10"] mmio_ab_host = Except.ok (true, w2) ∧
      w2.trace = [Event.command_argv 1, Event.mmio_read32 0x10,
        Event.log log_level.message "Command_ReadMMIOConsole32: %08x = %08x\n"
          [LogArg.num 0x10, LogArg.num 0x12345678]]) ∧
    (commands.find? (verb_matches "rmc8")).map (fun c => (c.function, c.num_parameters))
      = some (some CommandFn.Command_ReadMMIOConsole8, 3) ∧
    (commands.find? (verb_matches "rmc32")).map (fun c => (c.function, c.num_parameters))
      = some (some CommandFn.Command_ReadMMIOConsole32, 1) :=
  ⟨⟨_, rfl, by decide, by decide⟩, rfl, ⟨_, rfl, by decide⟩, by decide, by decide⟩

/-! ## Theorems: numeric arguments -/

/-- A hexadecimal digit is a digit of `strtol` below 16, with its usual value. -/
theorem strtol_digit_of_is_hex_digit (c : Char) (hc : is_hex_digit c = true) :
    strtol_digit c = some (hex_digit_value c) ∧ hex_digit_value c < 16 := by
  simp only [is_hex_digit, Bool.or_eq_true, Bool.and_eq_true, decide_eq_true_eq] at hc
  simp only [strtol_digit, hex_digit_value]
  split_ifs <;> first | omega | (constructor <;> first | rfl | omega) | (refine ⟨?_, by omega⟩; congr 1; omega)

/-- The digits `strtol` reads from a string of hexadecimal digits are all of them. -/
theorem strtol_digits_of_hex (ds : List Char) (hds : ∀ c ∈ ds, is_hex_digit c = true) :
    strtol_digits 16 ds = ds.map hex_digit_value := by
  induction ds with
  | nil => rfl
  | cons c cs ih =>
    have hc := strtol_digit_of_is_hex_digit c (hds c (List.mem_cons_self _ _))
    simp only [strtol_digits, hc.1, if_pos hc.2, List.map_cons]
    rw [ih (fun d hd => hds d (List.mem_cons_of_mem _ hd))]

/-- The accumulation of `strtol` over hexadecimal digits is their positional value. -/
theorem foldl_hex_value (ds : List Char) (acc : Nat) :
    (ds.map hex_digit_value).foldl (fun acc d => acc * 16 + d) acc
      = acc * 16 ^ ds.length + hex_value ds := by
  induction ds generalizing acc with
  | nil => simp [hex_value]
  | cons c cs ih =>
    simp only [List.map_cons, List.foldl_cons, ih, hex_value, List.length_cons]
    ring

/-- A string of `n` hexadecimal digits denotes a number below `16 ^ n`. -/
theorem hex_value_lt (ds : List Char) (hds : ∀ c ∈ ds, is_hex_digit c = true) :
    hex_value ds < 16 ^ ds.length := by
  induction ds with
  | nil => simp [hex_value]
  | cons c cs ih =>
    have hc := (strtol_digit_of_is_hex_digit c (hds c (List.mem_cons_self _ _))).2
    have ih2 := ih (fun d hd => hds d (List.mem_cons_of_mem _ hd))
    simp only [hex_value, List.length_cons, pow_succ]
    nlinarith

/-- A hexadecimal digit is not white space, not a sign, and not the letter `x`. -/
theorem is_hex_digit_not_special (c : Char) (hc : is_hex_digit c = true) :
    isspace c = false ∧ c ≠ '-' ∧ c ≠ '+' ∧ c ≠ 'x' ∧ c ≠ 'X' := by
  refine ⟨?_, ?_, ?_, ?_, ?_⟩
  · simp only [is_hex_digit, Bool.or_eq_true, Bool.and_eq_true, decide_eq_true_eq] at hc
    simp only [isspace, Bool.or_eq_false_iff, Bool.and_eq_false_iff, decide_eq_false_iff_not]
    omega
  all_goals (rintro rfl; revert hc; decide)

/-- What `strtol` returns, in base 16, for a string of hexadecimal digits with or
without the prefix `0x` / `0X`: their value, or `LONG_MAX` when the value is larger. -/
theorem strtol_hex (ds : List Char) (hds : ∀ c ∈ ds, is_hex_digit c = true)
    (h1 : 1 ≤ ds.length) (pre : List Char)
    (hpre : pre = [] ∨ pre = ['0', 'x'] ∨ pre = ['0', 'X']) :
    strtol (String.mk (pre ++ ds)) 16 =
      if (hex_value ds : Int) > LONG_MAX then LONG_MAX else (hex_value ds : Int) := by
  obtain ⟨c, cs, rfl⟩ : ∃ c cs, ds = c :: cs := by
    cases ds with
    | nil => simp at h1
    | cons c cs => exact ⟨c, cs, rfl⟩
  have hc := is_hex_digit_not_special c (hds c (List.mem_cons_self _ _))
  have hacc : (strtol_digits 16 (c :: cs)).foldl (fun acc d => acc * 16 + d) 0
      = hex_value (c :: cs) := by
    rw [strtol_digits_of_hex (c :: cs) hds, foldl_hex_value]
    simp
  rcases hpre with rfl | rfl | rfl
  · have hx : ¬ (cs.head? = some 'x' ∨ cs.head? = some 'X') := by
      cases cs with
      | nil => simp
      | cons c2 cs2 =>
        have h2 := is_hex_digit_not_special c2 (hds c2 (by simp))
        simp [h2.2.2.2.1, h2.2.2.2.2]
    have hdrop : List.dropWhile isspace (c :: cs) = c :: cs := by
      simp [List.dropWhile_cons, hc.1]
    simp only [strtol, List.nil_append, String.toList, hdrop, List.head?_cons,
      Option.some.injEq, hc.2.1, hc.2.2.1, or_self, if_false, List.tail_cons, hx, and_false,
      hacc]
  · simp only [strtol, List.cons_append, List.nil_append, List.dropWhile_cons]
    simp [String.toList, isspace, hacc]
  · simp only [strtol, List.cons_append, List.nil_append, List.dropWhile_cons]
    simp [String.toList, isspace, hacc]

/-- The value `to_uint32` returns fits in 32 bits. -/
theorem to_uint32_lt (v : Int) : to_uint32 v < 2 ^ 32 := by
  simp only [to_uint32]
  omega

/-- C23 (violated by the code): the tokens `ffffffff` and `0x80000000`, of 8
hexadecimal digits, denote `0xFFFFFFFF` and `0x80000000`, and the numeric argument
obtained from either is `0x7FFFFFFF`; so the line `wm32 0x100 ffffffff` makes
`Command_WriteMMIO32` call `mmio_write32 (0x100, 0x7FFFFFFF)`. -/
theorem strtol_saturates_at_long_max :
    hex_value ['f', 'f', 'f', 'f', 'f', 'f', 'f', 'f'] = 0xFFFFFFFF ∧
    to_uint32 (strtol "ffffffff" 16) = 0x7FFFFFFF ∧
    hex_value ['8', '0', '0', '0', '0', '0', '0', '0'] = 0x80000000 ∧
    to_uint32 (strtol "0x80000000" 16) = 0x7FFFFFFF ∧
    ∃ w2, Command_WriteMMIO32 ["wm32", "0x100", "ffffffff"] World.blank
        = Except.ok (true, w2) ∧
      mmio_writes w2.trace = [(0x100, 0x7FFFFFFF)] :=
  ⟨by decide, by decide, by decide, by decide, _, rfl, by decide⟩

/-- The numeric argument in general: for every token of 1 to 8 hexadecimal digits,
with or without a leading `0x` / `0X`, whose value is at most `0x7FFFFFFF`, the
numeric argument (`strtol (token, NULL, 16)` stored into a `uint32_t`) is the token's
value; for a larger value it is `0x7FFFFFFF`; and `Command_WriteMMIO32`, on a line
with two arguments, calls `mmio_write32` once, with the two numeric arguments
obtained from them, and returns true. -/
theorem hex_token_argument (ds pre : List Char) (tokens : List String) (t1 t2 : String)
    (w : World)
    (hds : ∀ c ∈ ds, is_hex_digit c = true) (h1 : 1 ≤ ds.length) (h8 : ds.length ≤ 8)
    (hpre : pre = [] ∨ pre = ['0', 'x'] ∨ pre = ['0', 'X'])
    (ht1 : tokens[1]? = some t1) (ht2 : tokens[2]? = some t2) :
    hex_value ds < 2 ^ 32 ∧
    (hex_value ds ≤ 0x7FFFFFFF →
      to_uint32 (strtol (String.mk (pre ++ ds)) 16) = hex_value ds) ∧
    (0x7FFFFFFF < hex_value ds →
      to_uint32 (strtol (String.mk (pre ++ ds)) 16) = 0x7FFFFFFF) ∧
    ∃ w2, Command_WriteMMIO32 tokens w = Except.ok (true, w2) ∧
      mmio_writes w2.trace = mmio_writes w.trace
        ++ [(to_uint32 (strtol t1 16), to_uint32 (strtol t2 16))] := by
  have hlt : hex_value ds < 2 ^ 32 :=
    calc hex_value ds < 16 ^ ds.length := hex_value_lt ds hds
      _ ≤ 16 ^ 8 := Nat.pow_le_pow_right (by norm_num) h8
      _ = 2 ^ 32 := by norm_num
  have hs := strtol_hex ds hds h1 pre hpre
  refine ⟨hlt, ?_, ?_, ?_⟩
  · intro hle
    rw [hs, if_neg (by simp only [LONG_MAX]; omega)]
    simp only [to_uint32]
    omega
  · intro hgt
    rw [hs, if_pos (by simp only [LONG_MAX]; omega)]
    decide
  · have ha := to_uint32_lt (strtol t1 16)
    have hb := to_uint32_lt (strtol t2 16)
    refine ⟨mmio_write32 (to_uint32 (strtol t1 16)) (to_uint32 (strtol t2 16))
      (Logging_Write log_level.debug "Command_WriteMMIO32 %s:%08x %s:%08x\n"
        [LogArg.str t1, LogArg.num (to_uint32 (strtol t1 16)), LogArg.str t2,
          LogArg.num (to_uint32 (strtol t2 16))]
        ((((w.emit (Event.command_argv 1)).emit (Event.command_argv 2)).emit
          (Event.command_argv 2)).emit (Event.command_argv 1))), ?_, ?_⟩
    · simp only [Command_WriteMMIO32, Command_Argv, ht1, ht2, bind, Except.bind, pure,
        Except.pure]
    · simp [mmio_write32, Logging_Write, mmio_writes, List.filterMap_append,
        Nat.mod_eq_of_lt ha, Nat.mod_eq_of_lt hb]
      exact ⟨ha, hb⟩

/-- The numeric argument at a concrete input: the token `0x100` gives `0x100`, and the
line `wm32 0x100 0xABCD` makes `Command_WriteMMIO32` call
`mmio_write32 (0x100, 0xABCD)`. -/
theorem hex_token_argument_at_0x100 :
    to_uint32 (strtol (String.mk (['0', 'x'] ++ ['1', '0', '0'])) 16) = 0x100 ∧
    ∃ w2, Command_WriteMMIO32 ["wm32", "0x100", "0xABCD"] World.blank = Except.ok (true, w2) ∧
      mmio_writes w2.trace = [(0x100, 0xABCD)] := by
  obtain ⟨_, hval, _, w2, hrun, hw⟩ := hex_token_argument ['1', '0', '0'] ['0', 'x']
    ["wm32", "0x100", "0xABCD"] "0x100" "0xABCD" World.blank (by decide) (by decide)
    (by decide) (Or.inr (Or.inl rfl)) rfl rfl
  have h1 : to_uint32 (strtol "0x100" 16) = 0x100 := by decide
  have h2 : to_uint32 (strtol "0xABCD" 16) = 0xABCD := by decide
  rw [h1, h2] at hw
  exact ⟨(hval (by decide)).trans (by decide), w2, hrun, hw⟩

/-! ## Theorems: the range fills -/

/-- A `for` loop of a range-fill handler, run with enough steps: when its bound
`offset_end` leaves room for one more stride below `2 ^ 32`, it ends after the `n`
iterations at `offset`, `offset + stride`, ..., the last of which is the last one
below `offset_end`, and each iteration adds the event of its write to the trace. -/
theorem range_loop_spec (loop : Nat → Nat → World → Except Fault World)
    (write : Nat → World → World) (ev : Nat → Event) (offset_end stride : Nat)
    (hstep : ∀ fuel offset w, loop (fuel + 1) offset w =
      if offset < offset_end then loop fuel ((offset + stride) % 2 ^ 32) (write offset w)
      else Except.ok w)
    (hwrite : ∀ offset w, (write offset w).trace = w.trace ++ [ev offset])
    (hend : offset_end + stride ≤ 2 ^ 32) :
    ∀ (n fuel offset : Nat) (w : World), n < fuel →
      (∀ k < n, offset + k * stride < offset_end) → offset_end ≤ offset + n * stride →
      ∃ w2, loop fuel offset w = Except.ok w2 ∧
        w2.trace = w.trace ++ (List.range n).map (fun k => ev (offset + k * stride)) := by
  intro n
  induction n with
  | zero =>
    intro fuel offset w hfuel _ hlast
    obtain ⟨f, rfl⟩ : ∃ f, fuel = f + 1 := ⟨fuel - 1, by omega⟩
    refine ⟨w, ?_, by simp⟩
    rw [hstep, if_neg (by omega)]
  | succ n ih =>
    intro fuel offset w hfuel hbelow hlast
    obtain ⟨f, rfl⟩ : ∃ f, fuel = f + 1 := ⟨fuel - 1, by omega⟩
    have h0 : offset < offset_end := by simpa using hbelow 0 (by omega)
    have hnext : (offset + stride) % 2 ^ 32 = offset + stride :=
      Nat.mod_eq_of_lt (by omega)
    have hmul : ∀ k, (k + 1) * stride = k * stride + stride := fun k => Nat.succ_mul k stride
    obtain ⟨w2, hrun, htrace⟩ := ih f (offset + stride) (write offset w) (by omega)
      (fun k hk => by
        have := hbelow (k + 1) (by omega)
        rw [hmul] at this
        omega)
      (by rw [hmul] at hlast; omega)
    refine ⟨w2, ?_, ?_⟩
    · rw [hstep, if_pos h0, hnext]
      exact hrun
    · rw [htrace, hwrite, List.range_succ_eq_map, List.map_cons, List.map_map,
        List.append_assoc]
      simp only [List.singleton_append, Nat.zero_mul, Nat.add_zero]
      congr 2
      apply List.map_congr_left
      intro k _
      simp only [Function.comp, hmul]
      congr 1
      omega

/-- The function `Command_WriteMMIORange8` on a line with three arguments. -/
theorem Command_WriteMMIORange8_spec (tokens : List String) (t1 t2 t3 : String)
    (start end_ value fuel : Nat) (w : World)
    (h1 : tokens[1]? = some t1) (h2 : tokens[2]? = some t2) (h3 : tokens[3]? = some t3)
    (hs : to_uint32 (strtol t1 16) = start) (he : to_uint32 (strtol t2 16) = end_)
    (hv : to_uint32 (strtol t3 16) = value) (hfuel : end_ - start < fuel) :
    ∃ w2, Command_WriteMMIORange8 fuel tokens w = Except.ok (true, w2) ∧
      w2.trace = w.trace ++ [Event.command_argv 1, Event.command_argv 2, Event.command_argv 3]
        ++ (List.range (end_ - start)).map
            (fun k => Event.mmio_write8 (start + k) (value % 2 ^ 8)) := by
  have helt : end_ < 2 ^ 32 := he ▸ to_uint32_lt _
  obtain ⟨w2, hrun, htrace⟩ := range_loop_spec (Command_WriteMMIORange8_loop end_ value)
    (fun o w => mmio_write8 o value w)
    (fun o => Event.mmio_write8 (o % 2 ^ 32) (value % 2 ^ 8)) end_ 1
    (fun _ _ _ => rfl) (fun _ _ => rfl) (by omega) (end_ - start) fuel start
    (((w.emit (Event.command_argv 1)).emit (Event.command_argv 2)).emit (Event.command_argv 3))
    (by omega) (fun k hk => by omega) (by omega)
  refine ⟨w2, ?_, ?_⟩
  · simp only [Command_WriteMMIORange8, Command_Argv, h1, h2, h3, hs, he, hv, bind,
      Except.bind, hrun, pure, Except.pure]
  · rw [htrace]
    simp only [World.emit_trace, List.append_assoc, List.cons_append, List.nil_append]
    congr 4
    apply List.map_congr_left
    intro k hk
    rw [List.mem_range] at hk
    rw [Nat.mod_eq_of_lt (by omega), Nat.mul_one]

/-- The function `Command_WriteVRAMRange8` on a line with three arguments. -/
theorem Command_WriteVRAMRange8_spec (tokens : List String) (t1 t2 t3 : String)
    (start end_ value fuel : Nat) (w : World)
    (h1 : tokens[1]? = some t1) (h2 : tokens[2]? = some t2) (h3 : tokens[3]? = some t3)
    (hs : to_uint32 (strtol t1 16) = start) (he : to_uint32 (strtol t2 16) = end_)
    (hv : to_uint32 (strtol t3 16) = value) (hfuel : end_ - start < fuel) :
    ∃ w2, Command_WriteVRAMRange8 fuel tokens w = Except.ok (true, w2) ∧
      w2.trace = w.trace ++ [Event.command_argv 1, Event.command_argv 2, Event.command_argv 3]
        ++ (List.range (end_ - start)).map
            (fun k => Event.nv_dfb_write8 (start + k) (value % 2 ^ 8)) := by
  have helt : end_ < 2 ^ 32 := he ▸ to_uint32_lt _
  obtain ⟨w2, hrun, htrace⟩ := range_loop_spec (Command_WriteVRAMRange8_loop end_ value)
    (fun o w => nv_dfb_write8 o value w)
    (fun o => Event.nv_dfb_write8 (o % 2 ^ 32) (value % 2 ^ 8)) end_ 1
    (fun _ _ _ => rfl) (fun _ _ => rfl) (by omega) (end_ - start) fuel start
    (((w.emit (Event.command_argv 1)).emit (Event.command_argv 2)).emit (Event.command_argv 3))
    (by omega) (fun k hk => by omega) (by omega)
  refine ⟨w2, ?_, ?_⟩
  · simp only [Command_WriteVRAMRange8, Command_Argv, h1, h2, h3, hs, he, hv, bind,
      Except.bind, hrun, pure, Except.pure]
  · rw [htrace]
    simp only [World.emit_trace, List.append_assoc, List.cons_append, List.nil_append]
    congr 4
    apply List.map_congr_left
    intro k hk
    rw [List.mem_range] at hk
    rw [Nat.mod_eq_of_lt (by omega), Nat.mul_one]

/-- The function `Command_WriteVRAMRange16` on a line with three arguments, the end
being at most `2 ^ 32 - 2`. -/
theorem Command_WriteVRAMRange16_spec (tokens : List String) (t1 t2 t3 : String)
    (start end_ value fuel : Nat) (w : World)
    (h1 : tokens[1]? = some t1) (h2 : tokens[2]? = some t2) (h3 : tokens[3]? = some t3)
    (hs : to_uint32 (strtol t1 16) = start) (he : to_uint32 (strtol t2 16) = end_)
    (hv : to_uint32 (strtol t3 16) = value)
    (hfuel : end_ - start < fuel) (hend : end_ + 2 ≤ 2 ^ 32) :
    ∃ w2, Command_WriteVRAMRange16 fuel tokens w = Except.ok (true, w2) ∧
      w2.trace = w.trace ++ [Event.command_argv 1, Event.command_argv 2, Event.command_argv 3]
        ++ (List.range ((end_ - start + 1) / 2)).map
            (fun k => Event.nv_dfb_write16 (start + 2 * k) (value % 2 ^ 16)) := by
  obtain ⟨w2, hrun, htrace⟩ := range_loop_spec (Command_WriteVRAMRange16_loop end_ value)
    (fun o w => nv_dfb_write16 o value w)
    (fun o => Event.nv_dfb_write16 (o % 2 ^ 32) (value % 2 ^ 16)) end_ 2
    (fun _ _ _ => rfl) (fun _ _ => rfl) hend ((end_ - start + 1) / 2) fuel start
    (((w.emit (Event.command_argv 1)).emit (Event.command_argv 2)).emit (Event.command_argv 3))
    (by omega) (fun k hk => by omega) (by omega)
  refine ⟨w2, ?_, ?_⟩
  · simp only [Command_WriteVRAMRange16, Command_Argv, h1, h2, h3, hs, he, hv, bind,
      Except.bind, hrun, pure, Except.pure]
  · rw [htrace]
    simp only [World.emit_trace, List.append_assoc, List.cons_append, List.nil_append]
    congr 4
    apply List.map_congr_left
    intro k hk
    rw [List.mem_range] at hk
    rw [Nat.mod_eq_of_lt (by omega), Nat.mul_comm]

/-- The function `Command_WriteMMIORange32` on a line with three arguments, the end
being at most `2 ^ 32 - 4`. -/
theorem Command_WriteMMIORange32_spec (tokens : List String) (t1 t2 t3 : String)
    (start end_ value fuel : Nat) (w : World)
    (h1 : tokens[1]? = some t1) (h2 : tokens[2]? = some t2) (h3 : tokens[3]? = some t3)
    (hs : to_uint32 (strtol t1 16) = start) (he : to_uint32 (strtol t2 16) = end_)
    (hv : to_uint32 (strtol t3 16) = value)
    (hfuel : end_ - start < fuel) (hend : end_ + 4 ≤ 2 ^ 32) :
    ∃ w2, Command_WriteMMIORange32 fuel tokens w = Except.ok (true, w2) ∧
      w2.trace = w.trace ++ [Event.command_argv 1, Event.command_argv 2, Event.command_argv 3]
        ++ (List.range ((end_ - start + 3) / 4)).map
            (fun k => Event.mmio_write32 (start + 4 * k) value) := by
  have hvlt : value < 2 ^ 32 := hv ▸ to_uint32_lt _
  obtain ⟨w2, hrun, htrace⟩ := range_loop_spec (Command_WriteMMIORange32_loop end_ value)
    (fun o w => mmio_write32 o value w)
    (fun o => Event.mmio_write32 (o % 2 ^ 32) (value % 2 ^ 32)) end_ 4
    (fun _ _ _ => rfl) (fun _ _ => rfl) hend ((end_ - start + 3) / 4) fuel start
    (((w.emit (Event.command_argv 1)).emit (Event.command_argv 2)).emit (Event.command_argv 3))
    (by omega) (fun k hk => by omega) (by omega)
  refine ⟨w2, ?_, ?_⟩
  · simp only [Command_WriteMMIORange32, Command_Argv, h1, h2, h3, hs, he, hv, bind,
      Except.bind, hrun, pure, Except.pure]
  · rw [htrace]
    simp only [World.emit_trace, List.append_assoc, List.cons_append, List.nil_append]
    congr 4
    apply List.map_congr_left
    intro k hk
    rw [List.mem_range] at hk
    rw [Nat.mod_eq_of_lt hvlt, Nat.mod_eq_of_lt (by omega), Nat.mul_comm]

/-- The function `Command_WriteVRAMRange32` on a line with three arguments, the end
being at most `2 ^ 32 - 4`. -/
theorem Command_WriteVRAMRange32_spec (tokens : List String) (t1 t2 t3 : String)
    (start end_ value fuel : Nat) (w : World)
    (h1 : tokens[1]? = some t1) (h2 : tokens[2]? = some t2) (h3 : tokens[3]? = some t3)
    (hs : to_uint32 (strtol t1 16) = start) (he : to_uint32 (strtol t2 16) = end_)
    (hv : to_uint32 (strtol t3 16) = value)
    (hfuel : end_ - start < fuel) (hend : end_ + 4 ≤ 2 ^ 32) :
    ∃ w2, Command_WriteVRAMRange32 fuel tokens w = Except.ok (true, w2) ∧
      w2.trace = w.trace ++ [Event.command_argv 1, Event.command_argv 2, Event.command_argv 3]
        ++ (List.range ((end_ - start + 3) / 4)).map
            (fun k => Event.nv_dfb_write32 (start + 4 * k) value) := by
  have hvlt : value < 2 ^ 32 := hv ▸ to_uint32_lt _
  obtain ⟨w2, hrun, htrace⟩ := range_loop_spec (Command_WriteVRAMRange32_loop end_ value)
    (fun o w => nv_dfb_write32 o value w)
    (fun o => Event.nv_dfb_write32 (o % 2 ^ 32) (value % 2 ^ 32)) end_ 4
    (fun _ _ _ => rfl) (fun _ _ => rfl) hend ((end_ - start + 3) / 4) fuel start
    (((w.emit (Event.command_argv 1)).emit (Event.command_argv 2)).emit (Event.command_argv 3))
    (by omega) (fun k hk => by omega) (by omega)
  refine ⟨w2, ?_, ?_⟩
  · simp only [Command_WriteVRAMRange32, Command_Argv, h1, h2, h3, hs, he, hv, bind,
      Except.bind, hrun, pure, Except.pure]
  · rw [htrace]
    simp only [World.emit_trace, List.append_assoc, List.cons_append, List.nil_append]
    congr 4
    apply List.map_congr_left
    intro k hk
    rw [List.mem_range] at hk
    rw [Nat.mod_eq_of_lt hvlt, Nat.mod_eq_of_lt (by omega), Nat.mul_comm]

/-- C22: on a line whose three arguments parse to `start`, `end_` and `value`, each
range-fill handler, given more than `end_ - start` steps, returns true after asking
for the three arguments and writing `value` (cut to the access width) at the offsets
`start`, `start + w`, `start + 2w`, ... below `end_`, in ascending order and each
once, and at no other offset: `end_ - start` writes of width 1, `(end_ - start + 1) / 2`
of width 2 when `end_ <= 2 ^ 32 - 2`, `(end_ - start + 3) / 4` of width 4 when
`end_ <= 2 ^ 32 - 4`; the count is zero when `start >= end_`. -/
theorem range_fill_writes (tokens : List String) (t1 t2 t3 : String)
    (start end_ value fuel : Nat) (w : World)
    (h1 : tokens[1]? = some t1) (h2 : tokens[2]? = some t2) (h3 : tokens[3]? = some t3)
    (hs : to_uint32 (strtol t1 16) = start) (he : to_uint32 (strtol t2 16) = end_)
    (hv : to_uint32 (strtol t3 16) = value) (hfuel : end_ - start < fuel) :
    (∃ w2, Command_WriteMMIORange8 fuel tokens w = Except.ok (true, w2) ∧
      w2.trace = w.trace ++ [Event.command_argv 1, Event.command_argv 2, Event.command_argv 3]
        ++ (List.range (end_ - start)).map
            (fun k => Event.mmio_write8 (start + k) (value % 2 ^ 8))) ∧
    (∃ w2, Command_WriteVRAMRange8 fuel tokens w = Except.ok (true, w2) ∧
      w2.trace = w.trace ++ [Event.command_argv 1, Event.command_argv 2, Event.command_argv 3]
        ++ (List.range (end_ - start)).map
            (fun k => Event.nv_dfb_write8 (start + k) (value % 2 ^ 8))) ∧
    (end_ ≤ 2 ^ 32 - 2 →
      ∃ w2, Command_WriteVRAMRange16 fuel tokens w = Except.ok (true, w2) ∧
        w2.trace = w.trace ++ [Event.command_argv 1, Event.command_argv 2, Event.command_argv 3]
          ++ (List.range ((end_ - start + 1) / 2)).map
              (fun k => Event.nv_dfb_write16 (start + 2 * k) (value % 2 ^ 16))) ∧
    (end_ ≤ 2 ^ 32 - 4 →
      (∃ w2, Command_WriteMMIORange32 fuel tokens w = Except.ok (true, w2) ∧
        w2.trace = w.trace ++ [Event.command_argv 1, Event.command_argv 2, Event.command_argv 3]
          ++ (List.range ((end_ - start + 3) / 4)).map
              (fun k => Event.mmio_write32 (start + 4 * k) value)) ∧
      (∃ w2, Command_WriteVRAMRange32 fuel tokens w = Except.ok (true, w2) ∧
        w2.trace = w.trace ++ [Event.command_argv 1, Event.command_argv 2, Event.command_argv 3]
          ++ (List.range ((end_ - start + 3) / 4)).map
              (fun k => Event.nv_dfb_write32 (start + 4 * k) value))) ∧
    (end_ ≤ start → end_ - start = 0 ∧ (end_ - start + 1) / 2 = 0 ∧ (end_ - start + 3) / 4 = 0) :=
  ⟨Command_WriteMMIORange8_spec tokens t1 t2 t3 start end_ value fuel w h1 h2 h3 hs he hv hfuel,
    Command_WriteVRAMRange8_spec tokens t1 t2 t3 start end_ value fuel w h1 h2 h3 hs he hv hfuel,
    fun hend => Command_WriteVRAMRange16_spec tokens t1 t2 t3 start end_ value fuel w h1 h2 h3
      hs he hv hfuel (by omega),
    fun hend => ⟨Command_WriteMMIORange32_spec tokens t1 t2 t3 start end_ value fuel w h1 h2 h3
        hs he hv hfuel (by omega),
      Command_WriteVRAMRange32_spec tokens t1 t2 t3 start end_ value fuel w h1 h2 h3
        hs he hv hfuel (by omega)⟩,
    fun hle => by omega⟩

/-- C22 at a concrete input: the line `wvrange16 10 15 1abcd` writes the 16-bit value
`0xabcd` at the offsets `0x10`, `0x12` and `0x14`. -/
theorem range_fill_writes_witness :
    ∃ w2, Command_WriteVRAMRange16 6 ["wvrange16", "10", "15", "1abcd"] World.blank
        = Except.ok (true, w2) ∧
      w2.trace = [Event.command_argv 1, Event.command_argv 2, Event.command_argv 3,
        Event.nv_dfb_write16 0x10 0xabcd, Event.nv_dfb_write16 0x12 0xabcd,
        Event.nv_dfb_write16 0x14 0xabcd] := by
  obtain ⟨w2, hrun, htrace⟩ := (range_fill_writes ["wvrange16", "10", "15", "1abcd"]
    "10" "15" "1abcd" 0x10 0x15 0x1abcd 6 World.blank rfl rfl rfl (by decide) (by decide)
    (by decide) (by decide)).2.2.1 (by decide)
  exact ⟨w2, hrun, htrace.trans (by decide)⟩

/-- The loop of `Command_WriteMMIORange32` with end `0xFFFFFFFF`, entered at a multiple
of four: every bound on the number of steps is used up. -/
theorem Command_WriteMMIORange32_loop_wraps (value : Nat) :
    ∀ (fuel offset : Nat) (w : World), offset % 4 = 0 → offset < 2 ^ 32 →
      Command_WriteMMIORange32_loop 0xFFFFFFFF value fuel offset w
        = Except.error Fault.out_of_fuel := by
  intro fuel
  induction fuel with
  | zero => intro offset w _ _; rfl
  | succ f ih =>
    intro offset w hmod hlt
    simp only [Command_WriteMMIORange32_loop]
    rw [if_pos (by omega)]
    exact ih _ _ (by omega) (Nat.mod_lt _ (by norm_num))

/-- The loop of `Command_WriteVRAMRange32` with end `0xFFFFFFFF`, entered at a multiple
of four: every bound on the number of steps is used up. -/
theorem Command_WriteVRAMRange32_loop_wraps (value : Nat) :
    ∀ (fuel offset : Nat) (w : World), offset % 4 = 0 → offset < 2 ^ 32 →
      Command_WriteVRAMRange32_loop 0xFFFFFFFF value fuel offset w
        = Except.error Fault.out_of_fuel := by
  intro fuel
  induction fuel with
  | zero => intro offset w _ _; rfl
  | succ f ih =>
    intro offset w hmod hlt
    simp only [Command_WriteVRAMRange32_loop]
    rw [if_pos (by omega)]
    exact ih _ _ (by omega) (Nat.mod_lt _ (by norm_num))

/-- The loop of `Command_WriteVRAMRange16` with end `0xFFFFFFFF`, entered at an even
offset: every bound on the number of steps is used up. -/
theorem Command_WriteVRAMRange16_loop_wraps (value : Nat) :
    ∀ (fuel offset : Nat) (w : World), offset % 2 = 0 → offset < 2 ^ 32 →
      Command_WriteVRAMRange16_loop 0xFFFFFFFF value fuel offset w
        = Except.error Fault.out_of_fuel := by
  intro fuel
  induction fuel with
  | zero => intro offset w _ _; rfl
  | succ f ih =>
    intro offset w hmod hlt
    simp only [Command_WriteVRAMRange16_loop]
    rw [if_pos (by omega)]
    exact ih _ _ (by omega) (Nat.mod_lt _ (by norm_num))

/-- The function `Command_WriteMMIORange32` on a line whose end parses to `0xFFFFFFFF`
and whose start is a multiple of four. -/
theorem Command_WriteMMIORange32_wraps (tokens : List String) (t1 t2 t3 : String)
    (start fuel : Nat) (w : World)
    (h1 : tokens[1]? = some t1) (h2 : tokens[2]? = some t2) (h3 : tokens[3]? = some t3)
    (hs : to_uint32 (strtol t1 16) = start) (he : to_uint32 (strtol t2 16) = 0xFFFFFFFF)
    (hv : to_uint32 (strtol t3 16) = 0) (hmod : start % 4 = 0) :
    Command_WriteMMIORange32 fuel tokens w = Except.error Fault.out_of_fuel := by
  have hlt : start < 2 ^ 32 := hs ▸ to_uint32_lt _
  simp only [Command_WriteMMIORange32, Command_Argv, h1, h2, h3, hs, he, hv, bind,
    Except.bind, Command_WriteMMIORange32_loop_wraps 0 fuel start _ hmod hlt]

/-- The function `Command_WriteVRAMRange32` on a line whose end parses to `0xFFFFFFFF`
and whose start is a multiple of four. -/
theorem Command_WriteVRAMRange32_wraps (tokens : List String) (t1 t2 t3 : String)
    (start fuel : Nat) (w : World)
    (h1 : tokens[1]? = some t1) (h2 : tokens[2]? = some t2) (h3 : tokens[3]? = some t3)
    (hs : to_uint32 (strtol t1 16) = start) (he : to_uint32 (strtol t2 16) = 0xFFFFFFFF)
    (hv : to_uint32 (strtol t3 16) = 0) (hmod : start % 4 = 0) :
    Command_WriteVRAMRange32 fuel tokens w = Except.error Fault.out_of_fuel := by
  have hlt : start < 2 ^ 32 := hs ▸ to_uint32_lt _
  simp only [Command_WriteVRAMRange32, Command_Argv, h1, h2, h3, hs, he, hv, bind,
    Except.bind, Command_WriteVRAMRange32_loop_wraps 0 fuel start _ hmod hlt]

/-- The function `Command_WriteVRAMRange16` on a line whose end parses to `0xFFFFFFFF`
and whose start is even. -/
theorem Command_WriteVRAMRange16_wraps (tokens : List String) (t1 t2 t3 : String)
    (start fuel : Nat) (w : World)
    (h1 : tokens[1]? = some t1) (h2 : tokens[2]? = some t2) (h3 : tokens[3]? = some t3)
    (hs : to_uint32 (strtol t1 16) = start) (he : to_uint32 (strtol t2 16) = 0xFFFFFFFF)
    (hv : to_uint32 (strtol t3 16) = 0) (hmod : start % 2 = 0) :
    Command_WriteVRAMRange16 fuel tokens w = Except.error Fault.out_of_fuel := by
  have hlt : start < 2 ^ 32 := hs ▸ to_uint32_lt _
  simp only [Command_WriteVRAMRange16, Command_Argv, h1, h2, h3, hs, he, hv, bind,
    Except.bind, Command_WriteVRAMRange16_loop_wraps 0 fuel start _ hmod hlt]

/-- C27 (violated by the code): the end token `-1` parses to `0xFFFFFFFF`; with start 0
the loop counter of `Command_WriteMMIORange32`, `Command_WriteVRAMRange32` (stride 4)
and `Command_WriteVRAMRange16` (stride 2) stays below the end at every step and wraps
from `0xFFFFFFFC` (`0xFFFFFFFE`) to 0, so the loop is still running after any number
of steps, from every state. -/
theorem range_fill_wraps_forever (fuel : Nat) (w : World) :
    to_uint32 (strtol "-1" 16) = 0xFFFFFFFF ∧
    Command_WriteMMIORange32 fuel ["wmrange32", "0", "-1", "0"] w
      = Except.error Fault.out_of_fuel ∧
    Command_WriteVRAMRange32 fuel ["wvrange32", "0", "-1", "0"] w
      = Except.error Fault.out_of_fuel ∧
    Command_WriteVRAMRange16 fuel ["wvrange16", "0", "-1", "0"] w
      = Except.error Fault.out_of_fuel := by
  have h0 : to_uint32 (strtol "0" 16) = 0 := by decide
  have h1 : to_uint32 (strtol "-1" 16) = 0xFFFFFFFF := by decide
  exact ⟨h1,
    Command_WriteMMIORange32_wraps _ "0" "-1" "0" 0 fuel w rfl rfl rfl h0 h1 h0 rfl,
    Command_WriteVRAMRange32_wraps _ "0" "-1" "0" 0 fuel w rfl rfl rfl h0 h1 h0 rfl,
    Command_WriteVRAMRange16_wraps _ "0" "-1" "0" 0 fuel w rfl rfl rfl h0 h1 h0 rfl⟩

/-! ## Theorems: running a selected test -/

/-- The function `Test_Get` returns `NULL` when no entry of the list has the name. -/
theorem Test_Get_none (l : List nv_config_test_entry_t) (test_name : String)
    (h : ∀ e ∈ l, e.name ≠ test_name) : Test_Get l test_name = none := by
  induction l with
  | nil => rfl
  | cons e l ih =>
    simp only [Test_Get, if_neg (h e (List.mem_cons_self _ _))]
    exact ih (fun x hx => h x (List.mem_cons_of_mem _ hx))

/-- The function `Test_Get` returns the first entry of the list that has the name. -/
theorem Test_Get_first (pre post : List nv_config_test_entry_t) (e : nv_config_test_entry_t)
    (test_name : String) (hpre : ∀ x ∈ pre, x.name ≠ test_name) (he : e.name = test_name) :
    ∃ r, Test_Get (pre ++ e :: post) test_name = some r ∧ r.name = e.name ∧
      r.test_function = e.test_function := by
  induction pre with
  | nil => exact ⟨e, by simp [Test_Get, he], rfl, rfl⟩
  | cons x pre ih =>
    simp only [List.cons_append, Test_Get, if_neg (hpre x (List.mem_cons_self _ _))]
    exact ih (fun y hy => hpre y (List.mem_cons_of_mem _ hy))

/-- C24: for every test name given as `argv (1)` and every runtime selection list: if
no entry of the list has that name, `Command_RunTest` writes one log line, calls no
`test_function` and returns false; otherwise, the first entry with that name having a
handler, it calls that handler once, on the state reached after the `Command_Argv`
call, and returns what the handler returns.  The static table `nv_tests` plays no
part. -/
theorem Command_RunTest_spec (test_list_head : List nv_config_test_entry_t)
    (tokens : List String) (test_name : String) (w : World)
    (h1 : tokens[1]? = some test_name) :
    ((∀ e ∈ test_list_head, e.name ≠ test_name) →
      ∃ w2, Command_RunTest test_list_head tokens w = Except.ok (false, w2) ∧
        w2.trace = w.trace ++ [Event.command_argv 1,
          Event.log log_level.message "Tried to run invalid test %s!" [LogArg.str test_name]] ∧
        test_function_calls w2.trace = test_function_calls w.trace) ∧
    (∀ (pre post : List nv_config_test_entry_t) (e : nv_config_test_entry_t)
        (handler : World → Bool × World),
      test_list_head = pre ++ e :: post → (∀ x ∈ pre, x.name ≠ test_name) →
      e.name = test_name → e.test_function = some handler →
      ∃ w1, w1.trace = w.trace ++ [Event.command_argv 1, Event.test_function test_name] ∧
        test_function_calls w1.trace = test_function_calls w.trace ++ [test_name] ∧
        Command_RunTest test_list_head tokens w = Except.ok (handler w1)) := by
  constructor
  · intro hnone
    have hg := Test_Get_none test_list_head test_name hnone
    refine ⟨Logging_Write log_level.message "Tried to run invalid test %s!"
      [LogArg.str test_name] (w.emit (Event.command_argv 1)), ?_, ?_, ?_⟩
    · simp only [Command_RunTest, Command_Argv, h1, bind, Except.bind, hg, pure, Except.pure]
    · simp [Logging_Write]
    · simp [Logging_Write, test_function_calls, List.filterMap_append]
  · intro pre post e handler hlist hpre hname hfn
    obtain ⟨r, hg, hrn, hrf⟩ := Test_Get_first pre post e test_name hpre hname
    rw [← hlist] at hg
    refine ⟨(w.emit (Event.command_argv 1)).emit (Event.test_function test_name), ?_, ?_, ?_⟩
    · simp
    · simp [test_function_calls, List.filterMap_append]
    · simp only [Command_RunTest, Command_Argv, h1, bind, Except.bind, hg, hrf, hfn, hrn, hname,
        pure, Except.pure]

/-- C24 at concrete inputs, with the list `two_tests_list`: `rt c` names no entry and
returns false without a handler call; `rt a` runs the handler of the first of the two
entries named `a`, which writes 1 and returns false, and not that of the second. -/
theorem Command_RunTest_spec_witness :
    (∃ w2, Command_RunTest two_tests_list ["rt", "c"] World.blank = Except.ok (false, w2) ∧
      test_function_calls w2.trace = []) ∧
    (∃ w1, test_function_calls w1.trace = ["a"] ∧
      Command_RunTest two_tests_list ["rt", "a"] World.blank
        = Except.ok (false, mmio_write8 0 1 w1)) := by
  constructor
  · obtain ⟨w2, hrun, _, hcalls⟩ :=
      (Command_RunTest_spec two_tests_list ["rt", "c"] "c" World.blank rfl).1 (by decide)
    exact ⟨w2, hrun, hcalls⟩
  · obtain ⟨w1, _, hcalls, hrun⟩ :=
      (Command_RunTest_spec two_tests_list ["rt", "a"] "a" World.blank rfl).2
        [] [⟨"a", some fun w => (true, mmio_write8 0 2 w)⟩,
          ⟨"b", some fun w => (true, mmio_write8 0 3 w)⟩]
        ⟨"a", some fun w => (false, mmio_write8 0 1 w)⟩
        (fun w => (false, mmio_write8 0 1 w)) rfl (by decide) rfl rfl
    exact ⟨w1, hcalls, hrun⟩

/-! ## Theorems: mappings and selectors in `init` -/

/-- Two steps that leave the segment bookkeeping alone do so together. -/
theorem selector_frame_trans {u v w : World} (h1 : selector_frame u v)
    (h2 : selector_frame v w) : selector_frame u w :=
  ⟨h2.1.trans h1.1, h2.2.1.trans h1.2.1, h2.2.2.1.trans h1.2.2.1,
    h2.2.2.2.1.trans h1.2.2.2.1, h2.2.2.2.2.1.trans h1.2.2.2.2.1,
    h2.2.2.2.2.2.trans h1.2.2.2.2.2⟩

/-- A log line leaves the segment bookkeeping alone. -/
theorem selector_frame_Logging_Write (level : log_level) (format : String)
    (args : List LogArg) (w : World) : selector_frame w (Logging_Write level format args w) := by
  simp [selector_frame, Logging_Write, dpmi_calls]

/-- A Voodoo3 register read leaves the segment bookkeeping alone. -/
theorem selector_frame_voodoo3_io_read32 (o : Nat) (w : World) :
    selector_frame w (voodoo3_io_read32 o w).2 := by
  simp only [voodoo3_io_read32, inportw]
  split <;> simp [selector_frame, dpmi_calls]

/-- The BAR reads of `voodoo3_init` leave the segment bookkeeping alone. -/
theorem selector_frame_voodoo3_init_read_bars (w : World) :
    selector_frame w (voodoo3_init_read_bars w).2.2.2 := by
  simp [selector_frame, voodoo3_init_read_bars, PCI_ReadConfig32, dpmi_calls]

/-- Setting the base port leaves the segment bookkeeping alone. -/
theorem selector_frame_voodoo3_init_io_base (b : Nat) (w : World) :
    selector_frame w (voodoo3_init_io_base b w) := by
  simp [selector_frame, voodoo3_init_io_base, Logging_Write, dpmi_calls]

/-- The id-reading block of `voodoo3_init` leaves the segment bookkeeping alone. -/
theorem selector_frame_voodoo3_init_read_ids (w : World) :
    selector_frame w (voodoo3_init_read_ids w) := by
  simp [selector_frame, voodoo3_init_read_ids, PCI_ReadConfig16, PCI_ReadConfig8, Logging_Write,
    dpmi_calls]

/-- The memory-size block of `voodoo3_init` leaves the segment bookkeeping alone. -/
theorem selector_frame_voodoo3_init_memsize (w : World) :
    selector_frame w (voodoo3_init_memsize w) := by
  have h := selector_frame_voodoo3_io_read32 VOODOO3_IO_LFBMEMORYCONFIG w
  simp only [voodoo3_init_memsize, Logging_Write]
  split_ifs <;>
    exact ⟨h.1, h.2.1, h.2.2.1, h.2.2.2.1, h.2.2.2.2.1, by simpa [dpmi_calls] using h.2.2.2.2.2⟩

/-- The straps block of `voodoo3_init` leaves the segment bookkeeping alone. -/
theorem selector_frame_voodoo3_init_straps (w : World) :
    selector_frame w (voodoo3_init_straps w) := by
  have h := selector_frame_voodoo3_io_read32 VOODOO3_IO_MISCINIT1 w
  simp only [voodoo3_init_straps]
  exact ⟨h.1, h.2.1, h.2.2.1, h.2.2.2.1, h.2.2.2.2.1, h.2.2.2.2.2⟩

/-- An enable step of `voodoo3_init` leaves the segment bookkeeping alone. -/
theorem selector_frame_voodoo3_init_enable (mask : Nat) (message : String) (command : Nat)
    (w : World) : selector_frame w (voodoo3_init_enable mask message command w).2 := by
  simp only [voodoo3_init_enable, PCI_WriteConfig16, Logging_Write]
  split <;> simp [selector_frame, dpmi_calls]

/-- The command block of `voodoo3_init` leaves the segment bookkeeping alone. -/
theorem selector_frame_voodoo3_init_command (w : World) :
    selector_frame w (voodoo3_init_command w) := by
  have h0 : selector_frame w
      { (PCI_ReadConfig16 w.current_device.bus_number
          w.current_device.function_number PCI_CFG_OFFSET_COMMAND w).2 with
        voodoo3_state := { (PCI_ReadConfig16 w.current_device.bus_number
          w.current_device.function_number PCI_CFG_OFFSET_COMMAND w).2.voodoo3_state with
          original_pci_command := (PCI_ReadConfig16 w.current_device.bus_number
          w.current_device.function_number PCI_CFG_OFFSET_COMMAND w).1 } } := by
    simp [selector_frame, PCI_ReadConfig16, dpmi_calls]
  exact selector_frame_trans h0 (selector_frame_trans (selector_frame_voodoo3_init_enable _ _ _ _)
    (selector_frame_trans (selector_frame_voodoo3_init_enable _ _ _ _)
      (selector_frame_voodoo3_init_enable _ _ _ _)))

/-- The mapping block of `voodoo3_init`: it leaves `bar0_selector` alone, stores the
result of its one descriptor allocation in `bar1_selector`, and makes five DPMI calls. -/
theorem voodoo3_init_map_bars_selectors (b0 b1 : Nat) (w : World) :
    (voodoo3_init_map_bars b0 b1 w).current_device.bar0_selector
      = w.current_device.bar0_selector ∧
    (voodoo3_init_map_bars b0 b1 w).current_device.bar1_selector
      = w.dpmi_ldt w.dpmi_ldt_calls ∧
    dpmi_calls (voodoo3_init_map_bars b0 b1 w).trace = dpmi_calls w.trace ++
      [Event.dpmi_physical_address_mapping b0 0x2000000,
       Event.dpmi_physical_address_mapping b1 0x2000000,
       Event.dpmi_allocate_ldt_descriptors 1,
       Event.dpmi_set_segment_base_address (w.dpmi_ldt w.dpmi_ldt_calls)
         (dpmi_physical_address_mapping b0 0x2000000 w).2.1,
       Event.dpmi_set_segment_limit (w.dpmi_ldt w.dpmi_ldt_calls) (0x2000000 - 1)] := by
  simp [voodoo3_init_map_bars, Logging_Write, dpmi_physical_address_mapping,
    dpmi_allocate_ldt_descriptors, dpmi_set_segment_base_address, dpmi_set_segment_limit,
    dpmi_calls, List.filter_append]

/-- The masked BAR0 and BAR1 values `voodoo3_init` works with are those
`PCI_ReadConfig32` returns at offsets `0x10` and `0x14` for the bound bus and function. -/
theorem voodoo3_init_read_bars_bar01 (w : World) :
    (voodoo3_init_read_bars w).1 = (PCI_ReadConfig32 w.current_device.bus_number
      w.current_device.function_number PCI_CFG_OFFSET_BAR0 w).1 &&& 0xFFFFFFF0 ∧
    (voodoo3_init_read_bars w).2.1 = (PCI_ReadConfig32 w.current_device.bus_number
      w.current_device.function_number PCI_CFG_OFFSET_BAR1 w).1 &&& 0xFFFFFFF0 := by
  simp [voodoo3_init_read_bars, PCI_ReadConfig32]

/-- C26 (counterexample): on `voodoo3_host`, where BAR2 reads `0xD001`, `voodoo3_init`
succeeds and `current_device.bar0_selector` is still 0, not the port base `0xD000`,
which is held in `voodoo3_io_base_port`. -/
theorem voodoo3_init_bar0_selector_unset :
    (voodoo3_init voodoo3_host).1 = true ∧
    (PCI_ReadConfig32 1 0 PCI_CFG_OFFSET_BAR2 voodoo3_host).1 &&& 0xFFFC = 0xD000 ∧
    (voodoo3_init voodoo3_host).2.current_device.bar0_selector = 0 ∧
    (voodoo3_init voodoo3_host).2.voodoo3_io_base_port = 0xD000 := by
  decide

/-- C26 (amended): after a successful `voodoo3_init` with BAR2 value `b` (bit 0 set),
the I/O port base `b & 0xFFFC` is held in `voodoo3_io_base_port` and
`current_device.bar0_selector` is what it was before the call;
`current_device.bar1_selector` is the selector returned by the one descriptor
allocation made, whose base is set to the mapping of BAR0 and whose limit is set to
`0x2000000 - 1`. -/
theorem voodoo3_init_selectors (w : World) (a0 a1 b : Nat)
    (ha0 : (PCI_ReadConfig32 w.current_device.bus_number w.current_device.function_number
      PCI_CFG_OFFSET_BAR0 w).1 = a0)
    (ha1 : (PCI_ReadConfig32 w.current_device.bus_number w.current_device.function_number
      PCI_CFG_OFFSET_BAR1 w).1 = a1)
    (hb : (PCI_ReadConfig32 w.current_device.bus_number w.current_device.function_number
      PCI_CFG_OFFSET_BAR2 w).1 = b)
    (hbit : b % 2 = 1) :
    (voodoo3_init w).1 = true ∧
    (voodoo3_init w).2.voodoo3_io_base_port = b &&& 0xFFFC ∧
    (voodoo3_init w).2.current_device.bar0_selector = w.current_device.bar0_selector ∧
    (voodoo3_init w).2.current_device.bar1_selector = w.dpmi_ldt w.dpmi_ldt_calls ∧
    dpmi_calls (voodoo3_init w).2.trace = dpmi_calls w.trace ++
      [Event.dpmi_physical_address_mapping (a0 &&& 0xFFFFFFF0) 0x2000000,
       Event.dpmi_physical_address_mapping (a1 &&& 0xFFFFFFF0) 0x2000000,
       Event.dpmi_allocate_ldt_descriptors 1,
       Event.dpmi_set_segment_base_address (w.dpmi_ldt w.dpmi_ldt_calls)
         (dpmi_physical_address_mapping (a0 &&& 0xFFFFFFF0) 0x2000000 w).2.1,
       Event.dpmi_set_segment_limit (w.dpmi_ldt w.dpmi_ldt_calls) (0x2000000 - 1)] := by
  have hbar2 := voodoo3_init_read_bars_bar2 w
  rw [hb] at hbar2
  obtain ⟨hbar0, hbar1⟩ := voodoo3_init_read_bars_bar01 w
  rw [ha0] at hbar0
  rw [ha1] at hbar1
  have hpre : selector_frame w (voodoo3_init_io_base b (voodoo3_init_read_bars w).2.2.2) :=
    selector_frame_trans (selector_frame_voodoo3_init_read_bars w)
      (selector_frame_voodoo3_init_io_base _ _)
  have hport : (voodoo3_init w).2.voodoo3_io_base_port = b &&& 0xFFFC := by
    rw [voodoo3_init_eq_blocks, hbar2, if_pos ((and_one_ne_zero_iff b).mpr hbit)]
    simp only [Logging_Write, World.emit_voodoo3_io_base_port]
    rw [voodoo3_init_command_voodoo3_io_base_port, voodoo3_init_straps_voodoo3_io_base_port,
      voodoo3_init_memsize_voodoo3_io_base_port, voodoo3_init_read_ids_voodoo3_io_base_port,
      voodoo3_init_map_bars_voodoo3_io_base_port, voodoo3_init_io_base_voodoo3_io_base_port]
    exact Nat.mod_eq_of_lt (and_fffc_lt b)
  have hmap : (dpmi_physical_address_mapping (a0 &&& 0xFFFFFFF0) 0x2000000
        (voodoo3_init_io_base b (voodoo3_init_read_bars w).2.2.2)).2.1
      = (dpmi_physical_address_mapping (a0 &&& 0xFFFFFFF0) 0x2000000 w).2.1 := by
    simp only [dpmi_physical_address_mapping, hpre.2.2.2.2.1]
  obtain ⟨m0, m1, mcalls⟩ := voodoo3_init_map_bars_selectors (a0 &&& 0xFFFFFFF0)
    (a1 &&& 0xFFFFFFF0) (voodoo3_init_io_base b (voodoo3_init_read_bars w).2.2.2)
  have hpost : selector_frame
      (voodoo3_init_map_bars (a0 &&& 0xFFFFFFF0) (a1 &&& 0xFFFFFFF0)
        (voodoo3_init_io_base b (voodoo3_init_read_bars w).2.2.2))
      (voodoo3_init w).2 := by
    rw [voodoo3_init_eq_blocks, hbar2, hbar0, hbar1, if_pos ((and_one_ne_zero_iff b).mpr hbit)]
    exact selector_frame_trans (selector_frame_voodoo3_init_read_ids _)
      (selector_frame_trans (selector_frame_voodoo3_init_memsize _)
        (selector_frame_trans (selector_frame_voodoo3_init_straps _)
          (selector_frame_trans (selector_frame_voodoo3_init_command _)
            (selector_frame_Logging_Write _ _ _ _))))
  refine ⟨?_, hport, ?_, ?_, ?_⟩
  · rw [voodoo3_init_eq_blocks, hbar2, if_pos ((and_one_ne_zero_iff b).mpr hbit)]
  · rw [hpost.1, m0, hpre.1]
  · rw [hpost.2.1, m1, hpre.2.2.2.1, hpre.2.2.1]
  · rw [hpost.2.2.2.2.2, mcalls, hpre.2.2.2.2.2, hpre.2.2.2.1, hpre.2.2.1, hmap]

/-- C26 (amended) at a concrete input: on `voodoo3_host` (BAR0 = `0xE0000000`,
BAR2 = `0xD001`) the port base is `0xD000`, `bar0_selector` stays 0, and
`bar1_selector` is `0x87`, the first selector the host hands out. -/
theorem voodoo3_init_selectors_witness :
    (voodoo3_init voodoo3_host).1 = true ∧
    (voodoo3_init voodoo3_host).2.voodoo3_io_base_port = 0xD000 ∧
    (voodoo3_init voodoo3_host).2.current_device.bar0_selector = 0 ∧
    (voodoo3_init voodoo3_host).2.current_device.bar1_selector = 0x87 ∧
    dpmi_calls (voodoo3_init voodoo3_host).2.trace =
      [Event.dpmi_physical_address_mapping 0xE0000000 0x2000000,
       Event.dpmi_physical_address_mapping 0xE0000000 0x2000000,
       Event.dpmi_allocate_ldt_descriptors 1,
       Event.dpmi_set_segment_base_address 0x87 0xE0000000,
       Event.dpmi_set_segment_limit 0x87 0x1FFFFFF] := by
  obtain ⟨h1, h2, h3, h4, h5⟩ := voodoo3_init_selectors voodoo3_host 0xE0000000 0xE0000000
    0xD001 rfl rfl rfl (by decide)
  exact ⟨h1, h2.trans (by decide), h3, h4.trans (by decide), h5.trans (by decide)⟩

end GPUPlay
